import Mathlib

/-!
# Voice-captcha verification of securebankSystem

A shallow embedding of `server/controllers/voiceCaptchaController.js`:
the token-overlap score `calculateSimilarity`, the speech-to-text wrapper
`convertSpeechToText` and the request handlers `generateSecurityQuestion` and
`verifyResponse`; of the handlers `transferMoney`, `deposit`, `withdraw` and
`completeTransaction` of `server/controllers/transactionController.js`; and of
the handling of the verification reply in
`client/src/components/VoiceCaptcha.jsx` and the choice of a question
(`getRandomQuestion`) in `client/src/pages/Transfer.jsx`; followed by theorems
about them.

Conventions of the embedding.

* A JavaScript string is a `List Char` (`Str`).  Property names, status values
  and response messages, which the code only stores and compares, are `String`.
* `String.prototype.toLowerCase` is a built-in that is not part of the
  repository; every definition that calls it takes it as the argument `lower`.
  `toLowerCaseAscii` is its restriction to ASCII text, used for concrete runs.
* Numbers that the code only counts with are `Nat` or `Int`.  Amounts and
  balances are finite doubles, each held as the rational number it denotes;
  their sums and differences are rounded to the nearest double (`roundDouble`,
  `addNumber`, `subNumber`), and comparisons of doubles are exact.  The
  quotient returned by `calculateSimilarity` and the product of
  `Math.random()` with a number of candidates are taken exactly.  For token
  counts below `10 ^ 14` the double-precision test `x > 0.7` and the rational
  test `x > 7 / 10` agree, because a quotient of two such counts that differs
  from `7 / 10` differs from it by more than one unit in the last place.
* The property access `user[name]` reads any property of the user document
  (`User.get`); a number is turned into text as `Number::toString` of
  ECMAScript does (`numberToString`).
* The asynchronous handler is a function from the stored documents, the
  request and the replies of the two external services to the new stored
  documents, the HTTP reply and a record of which services were called.
* Two calls of `verifyResponse` that are in flight together are modelled by
  cutting the handler at its first `await` of a collaborator (`trackAttempt`,
  `resumeAttempt`) and running the two halves of both calls in a given order.
-/

namespace SecureBank

/-- A JavaScript string, as its sequence of characters. -/
abbrev Str := List Char

/-! ## String primitives -/

/-- The characters matched by `\s` in a regular expression, which are also the
characters removed by `String.prototype.trim` (white space and line
terminators of ECMAScript). -/
def isWhiteSpace (c : Char) : Bool :=
  let n := c.toNat
  n == 9 || n == 10 || n == 11 || n == 12 || n == 13 || n == 32 || n == 160 ||
  n == 5760 || (8192 ≤ n && n ≤ 8202) || n == 8232 || n == 8233 || n == 8239 ||
  n == 8287 || n == 12288 || n == 65279

/-- Worker of `split`: `cur` is the current piece, reversed, and `inSep` tells
that the previous character belonged to a separator. -/
def splitAux : Str → Str → Bool → List Str
  | [], cur, _ => [cur.reverse]
  | c :: cs, cur, inSep =>
    if isWhiteSpace c then
      if inSep then splitAux cs cur true
      else cur.reverse :: splitAux cs [] true
    else splitAux cs (c :: cur) false

/-- The call `s.split(/\s+/)`: the pieces of `s` between maximal runs of white
space.  A string that starts (ends) with white space yields an empty first
(last) piece, and the empty string yields one empty piece, so the result is
never the empty array. -/
def split (s : Str) : List Str := splitAux s [] false

/-- The call `s.trim()`. -/
def trim (s : Str) : Str :=
  ((s.dropWhile isWhiteSpace).reverse.dropWhile isWhiteSpace).reverse

/-- The built-in `toLowerCase` on ASCII text: `A`..`Z` become `a`..`z`. -/
def toLowerCaseAscii (s : Str) : Str := s.map Char.toLower

/-- The expression `[...new Set(xs)]`: the distinct elements of `xs`, each at
its first occurrence. -/
def newSet (xs : List Str) : List Str :=
  xs.foldl (fun acc x => if x ∈ acc then acc else acc ++ [x]) []

/-! ## Numbers -/

/-- The integer nearest to `x`; of two nearest integers the even one. -/
def roundHalfEven (x : ℚ) : ℤ :=
  let f := ⌊x⌋
  if x - f < 1 / 2 then f
  else if 1 / 2 < x - f then f + 1
  else if f % 2 = 0 then f else f + 1

/-- The double (IEEE 754 binary64 value) nearest to `x`, of two nearest doubles
the one with the even significand: `x` is rounded to a multiple of the spacing
`2 ^ (e - 52)` of the doubles of its binade `2 ^ e ≤ |x| < 2 ^ (e + 1)`, and
below `2 ^ (-1022)` to a multiple of `2 ^ (-1074)`.  A finite double is held
as the rational number it denotes, `-0` as `0`.  Beyond the largest finite
double, from `2 ^ 1024 - 2 ^ 970` on, the rounding of JavaScript gives
`Infinity`, which has no counterpart here. -/
def roundDouble (x : ℚ) : ℚ :=
  if x = 0 then 0
  else
    let e : ℤ := max (Int.log 2 |x|) (-1022)
    let ulp : ℚ := (2 : ℚ) ^ (e - 52)
    (roundHalfEven (x / ulp) : ℚ) * ulp

/-- For a positive double `x` and a number of digits `k`: the decimal
`s * 10 ^ (n - k)` with `k` digits nearest to `x`, when it rounds to `x`. -/
def decimalOf (x : ℚ) (k : Nat) : Option (Nat × Int) :=
  let n : Int := Int.log 10 x + 1
  let scale : ℚ := (10 : ℚ) ^ (n - (k : Int))
  let lo : Int := ⌊x / scale⌋
  let hi : Int := lo + 1
  let okLo : Bool := decide (roundDouble (lo * scale) = x)
  let okHi : Bool := decide (roundDouble (hi * scale) = x)
  let s : Option Int :=
    if okLo && okHi then
      if x - lo * scale < hi * scale - x then some lo
      else if hi * scale - x < x - lo * scale then some hi
      else if lo % 2 = 0 then some lo else some hi
    else if okLo then some lo
    else if okHi then some hi
    else none
  s.map (fun s => if s = 10 ^ k then (10 ^ (k - 1), n + 1) else (s.toNat, n))

/-- The digits `s` and the exponent `n` of `Number::toString` of ECMAScript for
a positive double `x`: the decimal `s * 10 ^ (n - k)` with the least number
`k` of digits that rounds to `x`, and among those the nearest to `x`.
Seventeen digits are enough for every double. -/
def shortestDecimal (x : ℚ) : Nat × Int :=
  ((List.range 17).findSome? (fun i => decimalOf x (i + 1))).getD
    ((⌊x / (10 : ℚ) ^ (Int.log 10 x + 1 - 17)⌋).toNat, Int.log 10 x + 1)

/-- The text that `Number::toString` makes of the digits and the exponent of a
positive double: plain digits up to `10 ^ 21`, a leading `0.` down to
`10 ^ (-6)`, and the exponent form otherwise. -/
def positiveToString (x : ℚ) : Str :=
  let (s, n) := shortestDecimal x
  let d : Str := Nat.toDigits 10 s
  let k : Int := d.length
  if k ≤ n ∧ n ≤ 21 then d ++ List.replicate (n - k).toNat '0'
  else if 0 < n ∧ n ≤ 21 then d.take n.toNat ++ '.' :: d.drop n.toNat
  else if -6 < n ∧ n ≤ 0 then '0' :: '.' :: (List.replicate (-n).toNat '0' ++ d)
  else
    let e : Int := n - 1
    let exponent : Str := (if e < 0 then '-' else '+') :: Nat.toDigits 10 e.natAbs
    if k = 1 then d ++ 'e' :: exponent
    else d.take 1 ++ '.' :: (d.drop 1 ++ 'e' :: exponent)

/-- The call `x.toString()` on a finite number `x`. -/
def numberToString (x : ℚ) : Str :=
  if x = 0 then ['0']
  else if x < 0 then '-' :: positiveToString (-x)
  else positiveToString x

/-- The sum `x + y` of two finite numbers, as JavaScript computes it. -/
def addNumber (x y : ℚ) : ℚ := roundDouble (x + y)

/-- The difference `x - y` of two finite numbers, as JavaScript computes it. -/
def subNumber (x y : ℚ) : ℚ := roundDouble (x - y)

/-- The call `_id.toString()` on the identifier of a document: 24 hexadecimal
digits.  An identifier is held as the natural number that its 12 bytes
denote. -/
def objectIdToString (id : Nat) : Str :=
  List.replicate (24 - (Nat.toDigits 16 id).length) '0' ++ Nat.toDigits 16 id

/-- The call `xs.toString()` on an array of numbers: the texts of the elements,
separated by commas. -/
def arrayToString (xs : List ℚ) : Str :=
  [','].intercalate (xs.map numberToString)

/-! ## calculateSimilarity -/

/-- The function `calculateSimilarity(text1, text2)`. -/
def calculateSimilarity (lower : Str → Str) (text1 text2 : Str) : ℚ :=
  if text1.isEmpty || text2.isEmpty then 0
  else
    let words1 := split (lower text1)
    let words2 := split (lower text2)
    if words1.length == 0 || words2.length == 0 then 0
    else
      let intersection := words1.filter (fun word => decide (word ∈ words2))
      let union := newSet (words1 ++ words2)
      (intersection.length : ℚ) / (union.length : ℚ)

/-! ## Stored documents -/

/-- The sub-document `verificationResult` of a transaction; `none` is an
absent (undefined) property. -/
structure VerificationResult where
  verificationAttempts : Option Nat := none
  lastVerificationAttempt : Option Nat := none
  voiceVerificationStatus : Option String := none
deriving DecidableEq, Repr

/-- A document of the `Transaction` collection, with the properties that the
voice-captcha controller reads or writes and, after them, the properties that
`completeTransaction` gives to the record it creates. -/
structure Transaction where
  id : Nat
  status : String
  lastVerificationField : Option String := none
  verificationAttempts : Option Nat := none
  verificationResult : Option VerificationResult := none
  userId : Option Nat := none
  type : String := ""
  amount : ℚ := 0
  recipient : Option Nat := none
  recipientAccountNumber : Option String := none
  recipientName : Option String := none
deriving DecidableEq, Repr

/-- A document of the `User` collection.  `id`, `voiceEmbedding`, `balance`,
`accountNumber` and `name` are the properties that the controllers work with:
the identifier `_id`, an array of numbers, a number and two strings.  The
schema is not part of the repository; `fields` lists every other property of
the document by name, the eight knowledge fields among them, each with its
value, which is taken to be a string (the code calls `trim` on the knowledge
fields); a property that is not listed is undefined. -/
structure User where
  id : Nat
  voiceEmbedding : Option (List ℚ) := none
  fields : List (String × Str) := []
  balance : ℚ := 0
  accountNumber : String := ""
  name : String := ""
deriving DecidableEq, Repr

/-- The two collections the controller works on. -/
structure Db where
  users : List User
  transactions : List Transaction
deriving DecidableEq, Repr

/-- The property access `user[name]`, as the text that `toString()` makes of
the value: a string is itself, the number `balance` is its decimal text, the
array `voiceEmbedding` is its elements separated by commas, and `_id`, also
under its alias `id`, is its 24 hexadecimal digits.  `none` is a value that is
undefined or, for `balance`, the falsy number `0`; so `(user.get name).getD []`
is the value of `(user[name] || "").toString()`. -/
def User.get (u : User) (name : String) : Option Str :=
  if name = "name" then some u.name.toList
  else if name = "accountNumber" then some u.accountNumber.toList
  else if name = "balance" then
    if u.balance = 0 then none else some (numberToString u.balance)
  else if name = "voiceEmbedding" then u.voiceEmbedding.map arrayToString
  else if name = "_id" ∨ name = "id" then some (objectIdToString u.id)
  else (u.fields.find? (fun kv => kv.1 == name)).map (fun kv => kv.2)

/-- The query `User.findById(userId)`. -/
def Db.findUser (db : Db) (userId : Nat) : Option User :=
  db.users.find? (fun u => u.id == userId)

/-- The query `Transaction.findById(transactionId)`. -/
def Db.findTransaction (db : Db) (transactionId : Nat) : Option Transaction :=
  db.transactions.find? (fun t => t.id == transactionId)

/-- The call `Transaction.findByIdAndUpdate(transactionId, update)`; it does
nothing when no document has that identifier. -/
def Db.findByIdAndUpdate (db : Db) (transactionId : Nat)
    (update : Transaction → Transaction) : Db :=
  { db with transactions :=
      db.transactions.map (fun t => if t.id == transactionId then update t else t) }

/-- The update `$set` of a property path that starts with `verificationResult.`:
the sub-document is created when it is absent. -/
def setVerificationResult (f : VerificationResult → VerificationResult)
    (t : Transaction) : Transaction :=
  { t with verificationResult := some (f (t.verificationResult.getD {})) }

/-- The expression `transaction.verificationResult?.verificationAttempts || 0`. -/
def storedAttempts (t : Transaction) : Nat :=
  match t.verificationResult with
  | none => 0
  | some r => r.verificationAttempts.getD 0

/-- What `verifyResponse` reads of the stored transactions: the identifier and
the stored attempt count of each. -/
def ledger (db : Db) : List (Nat × Nat) :=
  db.transactions.map (fun t => (t.id, storedAttempts t))

/-! ## Requests, collaborators and replies -/

/-- The parts of the request that `verifyResponse` reads: `req.body.userId`,
`req.body.field`, `req.body.transactionId` and the uploaded file `req.file`
(its path).  `none` is an absent property. -/
structure VerifyRequest where
  userId : Nat
  field : Option String := none
  transactionId : Option Nat := none
  file : Option String := none
deriving DecidableEq, Repr

/-- The object returned by the collaborator `verifyVoice(userId, path)`. -/
structure VoiceResult where
  success : Bool
  isMatch : Bool := false
  similarity : Option ℚ := none
  message : Option String := none
deriving DecidableEq

/-- What the request `axios.post(VOICE_SERVICE_URL + "/stt")` does: it throws,
or it returns a body with the properties `success` and `text`. -/
inductive SttReply where
  | error
  | data (success : Bool) (text : Option Str)
deriving DecidableEq

/-- The JSON body passed to `res.json`; `none` is a property that the body
does not have. -/
structure Body where
  success : Bool
  message : String
  attemptsLeft : Option Int := none
  currentAttempt : Option Nat := none
  isDenied : Option Bool := none
  voiceMatch : Option Bool := none
  contentMatch : Option Bool := none
  similarity : Option ℚ := none
  recognizedText : Option Str := none
  textSimilarity : Option ℚ := none
deriving DecidableEq

/-- The result of handling one request: the collections afterwards, the HTTP
status and body of the reply, whether `verifyVoice` and `convertSpeechToText`
were called, and whether the uploaded audio file was unlinked. -/
structure Outcome where
  db : Db
  status : Nat
  body : Body
  calledVerifyVoice : Bool := false
  calledStt : Bool := false
  audioDeleted : Bool := false
deriving DecidableEq

/-- The constant `MAX_ATTEMPTS`. -/
def MAX_ATTEMPTS : Int := 3

/-- The constant `MAX_TOTAL_ATTEMPTS` of `verifyResponse`. -/
def MAX_TOTAL_ATTEMPTS : Nat := 10

/-! ## convertSpeechToText -/

/-- The function `convertSpeechToText(audioPath)`, given what the
speech-to-text request does. -/
def convertSpeechToText : SttReply → Str
  | .error => []
  | .data true text => text.getD []
  | .data false _ => []

/-! ## verifyResponse -/

/-- Lines 179 to 316 of `verifyResponse`: the part that follows the attempt
tracking, with the values of `currentAttempt` and `attemptsLeft` computed
there. -/
def verifyWithAttempt (lower : Str → Str) (db : Db) (req : VerifyRequest) (user : User)
    (voiceResult : VoiceResult) (stt : SttReply) (now : Nat)
    (currentAttempt : Nat) (attemptsLeft : Int) : Outcome :=
  match req.field.filter (fun f => f != "") with
  | none =>
    { db := db, status := 400,
      body := { success := false, message := "Security question field not found" } }
  | some verificationField =>
    if attemptsLeft ≤ 0 then
      { db := db, status := 200,
        body := { success := false, message := "Maximum attempts reached. Transaction denied.",
                  attemptsLeft := some 0 } }
    else if !voiceResult.success then
      { db := db, status := 400,
        body := { success := false,
                  message :=
                    (voiceResult.message.filter (fun m => m != "")).getD "Voice verification failed",
                  attemptsLeft := some attemptsLeft },
        calledVerifyVoice := true, audioDeleted := true }
    else
      let spokenText := convertSpeechToText stt
      let expectedAnswer := trim ((user.get verificationField).getD [])
      let textSimilarity :=
        calculateSimilarity lower (lower (trim spokenText)) (lower expectedAnswer)
      let isVoiceMatch := voiceResult.success && voiceResult.isMatch
      let isContentMatch := decide (textSimilarity > 7 / 10)
      let overallSuccess := isVoiceMatch && isContentMatch
      let db1 :=
        match req.transactionId with
        | some id =>
          db.findByIdAndUpdate id (setVerificationResult fun r =>
            { r with verificationAttempts := some currentAttempt,
                     lastVerificationAttempt := some now })
        | none => db
      if overallSuccess then
        let db2 :=
          match req.transactionId with
          | some id =>
            db1.findByIdAndUpdate id (setVerificationResult fun r =>
              { r with voiceVerificationStatus := some "passed" })
          | none => db1
        { db := db2, status := 200,
          body := { success := true, message := "Transaction approved",
                    attemptsLeft := some attemptsLeft, currentAttempt := some currentAttempt,
                    voiceMatch := some isVoiceMatch, contentMatch := some isContentMatch,
                    similarity := voiceResult.similarity, recognizedText := some spokenText,
                    textSimilarity := some textSimilarity },
          calledVerifyVoice := true, calledStt := true, audioDeleted := true }
      else if attemptsLeft > 0 then
        { db := db1, status := 200,
          body := { success := false,
                    message := "Verification failed. Attempts left: " ++ toString attemptsLeft,
                    attemptsLeft := some attemptsLeft, currentAttempt := some currentAttempt,
                    similarity := voiceResult.similarity, recognizedText := some spokenText,
                    voiceMatch := some isVoiceMatch, contentMatch := some isContentMatch,
                    textSimilarity := some textSimilarity, isDenied := some false },
          calledVerifyVoice := true, calledStt := true, audioDeleted := true }
      else
        let db2 :=
          match req.transactionId with
          | some id =>
            db1.findByIdAndUpdate id (fun t =>
              { setVerificationResult
                  (fun r => { r with voiceVerificationStatus := some "failed" }) t with
                status := "denied" })
          | none => db1
        { db := db2, status := 200,
          body := { success := false,
                    message := "Maximum 10 attempts reached. Transaction has been denied.",
                    attemptsLeft := some 0, currentAttempt := some currentAttempt,
                    isDenied := some true, similarity := voiceResult.similarity,
                    recognizedText := some spokenText },
          calledVerifyVoice := true, calledStt := true, audioDeleted := true }

/-- The handler `verifyResponse(req, res)` on its paths that throw nothing:
`voiceResult` and `stt` are what the voice-match and speech-to-text services
answer if they are called, `now` is the value of `new Date()`. -/
def verifyResponse (lower : Str → Str) (db : Db) (req : VerifyRequest)
    (voiceResult : VoiceResult) (stt : SttReply) (now : Nat) : Outcome :=
  match req.file with
  | none =>
    { db := db, status := 400,
      body := { success := false, message := "Audio response required" } }
  | some _ =>
    match db.findUser req.userId with
    | none =>
      { db := db, status := 404, body := { success := false, message := "User not found" } }
    | some user =>
      if user.voiceEmbedding.isNone || (user.voiceEmbedding.getD []).length == 0 then
        { db := db, status := 400,
          body := { success := false,
                    message := "Voice profile not registered. Please register your voice first." } }
      else
        match req.transactionId.bind db.findTransaction with
        | some transaction =>
          let currentAttempt := storedAttempts transaction + 1
          if currentAttempt > MAX_TOTAL_ATTEMPTS then
            { db := db, status := 200,
              body := { success := false,
                        message := "Maximum attempts exceeded. Transaction denied.",
                        attemptsLeft := some 0, isDenied := some true } }
          else
            verifyWithAttempt lower db req user voiceResult stt now currentAttempt
              ((MAX_TOTAL_ATTEMPTS : Int) - (currentAttempt : Int))
        | none =>
          verifyWithAttempt lower db req user voiceResult stt now 0 MAX_ATTEMPTS

/-- One submission: a request together with what the collaborators answer
while it is handled. -/
structure Submission where
  req : VerifyRequest
  voiceResult : VoiceResult
  stt : SttReply
  now : Nat := 0

/-- Handles the submissions one after the other, each on the collections left
by the one before; returns the final collections and every outcome. -/
def submitAll (lower : Str → Str) : Db → List Submission → Db × List Outcome
  | db, [] => (db, [])
  | db, s :: rest =>
    let o := verifyResponse lower db s.req s.voiceResult s.stt s.now
    let r := submitAll lower o.db rest
    (r.1, o :: r.2)

/-- The submission was evaluated: the handler obtained the voice verdict and
the transcript and computed the verdict from them. -/
def Outcome.evaluated (o : Outcome) : Bool := o.calledStt

/-! ## generateSecurityQuestion -/

/-- An entry of the catalog `securityFields`. -/
structure SecurityField where
  field : String
  question : String
deriving DecidableEq, Repr

/-- The catalog `securityFields` of `generateSecurityQuestion`. -/
def securityFields : List SecurityField :=
  [ { field := "nickname", question := "What is your nickname?" },
    { field := "shoeSize", question := "What is your shoe size?" },
    { field := "favoriteColor", question := "What is your favorite color?" },
    { field := "birthPlace", question := "Where were you born?" },
    { field := "petName", question := "What is your pet's name?" },
    { field := "motherMaidenName", question := "What is your mother's maiden name?" },
    { field := "firstSchool", question := "What is the name of your first school?" },
    { field := "childhoodFriend", question := "Who was your childhood friend?" } ]

/-- The test `user[item.field] && user[item.field].trim() !== ""`. -/
def hasValue (user : User) (item : SecurityField) : Bool :=
  match user.get item.field with
  | some value => !value.isEmpty && trim value != []
  | none => false

/-- The list `availableFields`: the catalog entries that have a value on the
user. -/
def availableFields (user : User) : List SecurityField :=
  securityFields.filter (hasValue user)

/-- The parts of the request that `generateSecurityQuestion` reads. -/
structure QuestionRequest where
  userId : Nat
  transactionId : Option Nat := none
deriving DecidableEq, Repr

/-- The JSON body sent by `generateSecurityQuestion`. -/
structure QuestionBody where
  success : Bool
  message : Option String := none
  question : Option String := none
  field : Option String := none
deriving DecidableEq, Repr

/-- The result of `generateSecurityQuestion`: the collections afterwards and
the reply. -/
structure QuestionOutcome where
  db : Db
  status : Nat
  body : QuestionBody
deriving DecidableEq

/-- The handler `generateSecurityQuestion(req, res)`; `random` is the value of
`Math.random()`.  An index outside the list makes `randomField` undefined, the
access `randomField.field` throws and the `catch` block answers with status
500. -/
def generateSecurityQuestion (db : Db) (req : QuestionRequest) (random : ℚ) : QuestionOutcome :=
  match db.findUser req.userId with
  | none =>
    { db := db, status := 404, body := { success := false, message := some "User not found" } }
  | some user =>
    if user.voiceEmbedding.isNone || (user.voiceEmbedding.getD []).length == 0 then
      { db := db, status := 400,
        body := { success := false,
                  message := some "Voice profile not set up. Please register your voice first." } }
    else
      let available := availableFields user
      if available.length == 0 then
        { db := db, status := 400,
          body := { success := false,
                    message := some "No security questions set up. Please update your profile." } }
      else
        let index : Int := ⌊random * (available.length : ℚ)⌋
        match (if 0 ≤ index then available.get? index.toNat else none) with
        | none =>
          { db := db, status := 500,
            body := { success := false,
                      message := some "Cannot read properties of undefined (reading 'field')" } }
        | some randomField =>
          let db1 :=
            match req.transactionId with
            | some id =>
              db.findByIdAndUpdate id (fun t =>
                { t with lastVerificationField := some randomField.field,
                         verificationAttempts := some 0 })
            | none => db
          { db := db1, status := 200,
            body := { success := true, question := some randomField.question,
                      field := some randomField.field } }

/-! ## The client's handling of the reply -/

/-- What the component `VoiceCaptcha` does with the reply of the verification
request: it reports an error, reports success, reports a denial, or asks for a
new question. -/
inductive ClientStep where
  | error (message : String)
  | verified (message : String)
  | denied
  | retry
deriving DecidableEq, Repr

/-- Lines 100 to 153 of the function `verifyResponse` of the component
`VoiceCaptcha`: the handling of the HTTP status and the body of the reply.  A
status outside 200 to 299 is thrown as an error and reported by the `catch`
block through `onVerificationComplete(false, error.message)`. -/
def VoiceCaptcha.verifyResponse (status : Nat) (data : Body) : ClientStep :=
  if !(decide (200 ≤ status) && decide (status ≤ 299)) then
    ClientStep.error (if data.message == "" then "Verification failed." else data.message)
  else if data.success then
    ClientStep.verified (if data.message == "" then "Voice verification passed" else data.message)
  else if data.isDenied == some true then ClientStep.denied
  else if (match data.attemptsLeft with | some n => decide (n > 0) | none => false) then
    ClientStep.retry
  else ClientStep.denied

/-! ## completeTransaction -/

/-- The parts of the request that `completeTransaction` reads; `none` is an
absent property.  `recipient` is an account number. -/
structure CompleteRequest where
  userId : Option Nat := none
  type : Option String := none
  amount : Option ℚ := none
  recipient : Option String := none
deriving DecidableEq, Repr

/-- The JSON body sent by `completeTransaction`. -/
structure CompleteBody where
  success : Bool
  message : String
  newBalance : Option ℚ := none
  transaction : Option Transaction := none
deriving DecidableEq, Repr

/-- The result of `completeTransaction`: the collections afterwards and the
reply. -/
structure CompleteOutcome where
  db : Db
  status : Nat
  body : CompleteBody
deriving DecidableEq

/-- The query `User.findOne({ accountNumber: recipient })`. -/
def Db.findByAccountNumber (db : Db) (accountNumber : String) : Option User :=
  db.users.find? (fun u => u.accountNumber == accountNumber)

/-- The call `user.save()` after an assignment to `user.balance`: the stored
document of that user gets the new balance. -/
def Db.saveBalance (db : Db) (userId : Nat) (balance : ℚ) : Db :=
  { db with users := db.users.map (fun u => if u.id == userId then { u with balance := balance } else u) }

/-- An identifier that no stored transaction has. -/
def Db.freshId (db : Db) : Nat :=
  (db.transactions.foldl (fun m t => Nat.max m t.id) 0) + 1

/-- The call `Transaction.create(record)`: the record is stored under a fresh
identifier. -/
def Db.create (db : Db) (record : Transaction) : Db :=
  { db with transactions := db.transactions ++ [record] }

/-- Lines 126 to 144 of `completeTransaction`: the user is saved with the
balance `balance`, the record is created and the reply is sent. -/
def commitTransaction (db : Db) (user : User) (balance : ℚ) (type : String) (amount : ℚ)
    (recipientUser : Option User) : CompleteOutcome :=
  let db1 := if balance = user.balance then db else db.saveBalance user.id balance
  let record : Transaction :=
    { id := db1.freshId, status := "completed", userId := some user.id, type := type,
      amount := amount, recipient := recipientUser.map (fun r => r.id),
      recipientAccountNumber :=
        (recipientUser.map (fun r => r.accountNumber)).filter (fun a => a != ""),
      recipientName := (recipientUser.map (fun r => r.name)).filter (fun n => n != "") }
  { db := db1.create record, status := 200,
    body := { success := true, message := type ++ " completed successfully",
              newBalance := some balance, transaction := some record } }

/-- The handler `completeTransaction(req, res)` on its paths that throw nothing.
The amount and the balances are finite doubles and the new balances are the
rounded sums and differences `addNumber` and `subNumber`; a falsy `amount` is
an absent one or `0`. -/
def completeTransaction (db : Db) (req : CompleteRequest) : CompleteOutcome :=
  match req.userId, req.type.filter (fun t => t != ""), req.amount.filter (fun a => a != 0) with
  | some userId, some type, some amount =>
    match db.findUser userId with
    | none =>
      { db := db, status := 404, body := { success := false, message := "User not found" } }
    | some user =>
      if type = "transfer" then
        match req.recipient.filter (fun r => r != "") with
        | none =>
          { db := db, status := 400, body := { success := false, message := "Missing recipient" } }
        | some recipient =>
          match db.findByAccountNumber recipient with
          | none =>
            { db := db, status := 404,
              body := { success := false, message := "Recipient not found" } }
          | some recipientUser =>
            let db1 := db.saveBalance recipientUser.id (addNumber recipientUser.balance amount)
            commitTransaction db1 user (subNumber user.balance amount) type amount
              (some recipientUser)
      else if type = "deposit" then
        commitTransaction db user (addNumber user.balance amount) type amount none
      else if type = "withdraw" then
        if user.balance < amount then
          { db := db, status := 400,
            body := { success := false, message := "Insufficient funds" } }
        else
          commitTransaction db user (subNumber user.balance amount) type amount none
      else
        commitTransaction db user user.balance type amount none
  | _, _, _ =>
    { db := db, status := 400,
      body := { success := false, message := "Missing required data" } }

/-! ## The validation endpoints -/

/-- The handler `transferMoney(req, res)`: it reads `userId`, `recipient` and
`amount` of the request and writes nothing. -/
def transferMoney (db : Db) (req : CompleteRequest) : CompleteOutcome :=
  match req.userId, req.amount.filter (fun a => a != 0),
      req.recipient.filter (fun r => r != "") with
  | some userId, some amount, some recipient =>
    match db.findUser userId with
    | none =>
      { db := db, status := 404, body := { success := false, message := "User not found" } }
    | some sender =>
      if sender.balance < amount then
        { db := db, status := 400,
          body := { success := false, message := "Insufficient balance" } }
      else
        match db.findByAccountNumber recipient with
        | none =>
          { db := db, status := 404,
            body := { success := false, message := "Recipient not found" } }
        | some _ =>
          { db := db, status := 200,
            body := { success := true,
                      message := "Transfer validation passed. Proceed with voice verification." } }
  | _, _, _ =>
    { db := db, status := 400, body := { success := false, message := "Missing data" } }

/-- The handler `deposit(req, res)`. -/
def deposit (db : Db) (req : CompleteRequest) : CompleteOutcome :=
  match req.userId, req.amount.filter (fun a => a != 0) with
  | some _, some _ =>
    { db := db, status := 200,
      body := { success := true,
                message := "Deposit validation passed. Proceed with voice verification." } }
  | _, _ =>
    { db := db, status := 400, body := { success := false, message := "Missing data" } }

/-- The handler `withdraw(req, res)`. -/
def withdraw (db : Db) (req : CompleteRequest) : CompleteOutcome :=
  match req.userId, req.amount.filter (fun a => a != 0) with
  | some userId, some amount =>
    match db.findUser userId with
    | none =>
      { db := db, status := 404, body := { success := false, message := "User not found" } }
    | some user =>
      if user.balance < amount then
        { db := db, status := 400,
          body := { success := false, message := "Insufficient funds" } }
      else
        { db := db, status := 200,
          body := { success := true,
                    message := "Withdrawal validation passed. Proceed with voice verification." } }
  | _, _ =>
    { db := db, status := 400, body := { success := false, message := "Missing data" } }

/-! ## The client's choice of a question -/

/-- The catalog `QUESTION_TEMPLATES` of the page `Transfer`. -/
def QUESTION_TEMPLATES : List SecurityField :=
  [ { field := "nickname", question := "What is your nickname?" },
    { field := "shoeSize", question := "What is your shoe size?" },
    { field := "favoriteColor", question := "What is your favorite color?" },
    { field := "birthPlace", question := "What is your birth place?" },
    { field := "petName", question := "What is your pet's name?" },
    { field := "motherMaidenName", question := "What is your mother's maiden name?" },
    { field := "firstSchool", question := "What is the name of your first school?" },
    { field := "childhoodFriend", question := "Who was your best childhood friend?" } ]

/-- The list `filledFields` of `getRandomQuestion`: the templates `q` for which
`userProfile[q.field]` is truthy, that is a string that is not empty. -/
def filledFields (userProfile : User) : List SecurityField :=
  QUESTION_TEMPLATES.filter (fun q =>
    match userProfile.get q.field with
    | some value => !value.isEmpty
    | none => false)

/-- The function `getRandomQuestion()` of the page `Transfer`; `random` is the
value of `Math.random()`, and `none` stands for `null` and `undefined`. -/
def getRandomQuestion (userProfile : Option User) (random : ℚ) : Option SecurityField :=
  match userProfile with
  | none => none
  | some profile =>
    let filled := filledFields profile
    if filled.length == 0 then none
    else
      let index : Int := ⌊random * (filled.length : ℚ)⌋
      if 0 ≤ index then filled.get? index.toNat else none

/-! ## Two calls of verifyResponse in flight -/

/-- Lines 124 to 177 of `verifyResponse`: the checks and the reads of the store
that come before `await verifyVoice(...)`.  The result is the reply, when one
is sent there, or else the values of the local variables `user`,
`currentAttempt` and `attemptsLeft` with which the call goes on. -/
def trackAttempt (db : Db) (req : VerifyRequest) : Outcome ⊕ (User × Nat × Int) :=
  match req.file with
  | none =>
    Sum.inl { db := db, status := 400,
              body := { success := false, message := "Audio response required" } }
  | some _ =>
    match db.findUser req.userId with
    | none =>
      Sum.inl { db := db, status := 404,
                body := { success := false, message := "User not found" } }
    | some user =>
      if user.voiceEmbedding.isNone || (user.voiceEmbedding.getD []).length == 0 then
        Sum.inl { db := db, status := 400,
                  body := { success := false,
                            message :=
                              "Voice profile not registered. Please register your voice first." } }
      else
        match req.transactionId.bind db.findTransaction with
        | some transaction =>
          let currentAttempt := storedAttempts transaction + 1
          if currentAttempt > MAX_TOTAL_ATTEMPTS then
            Sum.inl { db := db, status := 200,
                      body := { success := false,
                                message := "Maximum attempts exceeded. Transaction denied.",
                                attemptsLeft := some 0, isDenied := some true } }
          else
            Sum.inr (user, currentAttempt, (MAX_TOTAL_ATTEMPTS : Int) - (currentAttempt : Int))
        | none => Sum.inr (user, 0, MAX_ATTEMPTS)

/-- The rest of a call of `verifyResponse` that has passed lines 124 to 177 with
the result `tracked`, run on the store `db` as it is by then.  A reply that was
already sent writes nothing. -/
def resumeAttempt (lower : Str → Str) (db : Db) (s : Submission)
    (tracked : Outcome ⊕ (User × Nat × Int)) : Outcome :=
  match tracked with
  | Sum.inl reply => { reply with db := db }
  | Sum.inr (user, currentAttempt, attemptsLeft) =>
    verifyWithAttempt lower db s.req user s.voiceResult s.stt s.now currentAttempt attemptsLeft

/-- Two calls of `verifyResponse` that are in flight together: both pass lines
124 to 177 on the store `db` while they wait for the collaborators, then the
first call runs to its end and the second call runs to its end on the store
that the first one has left.  Returns both outcomes; the store at the end is
the one of the second outcome. -/
def verifyResponseInterleaved (lower : Str → Str) (db : Db) (s1 s2 : Submission) :
    Outcome × Outcome :=
  let tracked1 := trackAttempt db s1.req
  let tracked2 := trackAttempt db s2.req
  let o1 := resumeAttempt lower db s1 tracked1
  let o2 := resumeAttempt lower o1.db s2 tracked2
  (o1, o2)

/-- Every stored attempt count is below the ceiling `MAX_TOTAL_ATTEMPTS`.  A
transaction starts without a stored count, and the only write of the count
(line 229) stores the attempt number of an evaluated submission. -/
def countsBelowCeiling (db : Db) : Bool :=
  db.transactions.all (fun t => decide (storedAttempts t < MAX_TOTAL_ATTEMPTS))

/-! ## Concrete data used by the examples -/

/-- A user with a voice profile whose nickname is `Max`. -/
def userMax : User :=
  { id := 1, voiceEmbedding := some [1, 2, 3],
    fields := [("nickname", "Max".toList), ("petName", "rex rex".toList)] }

/-- One user and one pending transaction whose attempt count is `n`. -/
def dbAt (n : Nat) : Db :=
  { users := [userMax],
    transactions :=
      [{ id := 7, status := "pending",
         verificationResult := some { verificationAttempts := some n } }] }

/-- A fresh pending transaction: nothing stored under `verificationResult`. -/
def db0 : Db :=
  { users := [userMax], transactions := [{ id := 7, status := "pending" }] }

/-- A request for transaction 7 of user 1 on the nickname question. -/
def reqNick : VerifyRequest :=
  { userId := 1, field := some "nickname", transactionId := some 7, file := some "uploads/a.webm" }

/-- The voice matches and the transcript is `max`. -/
def goodAnswer : Submission :=
  { req := reqNick, voiceResult := { success := true, isMatch := true, similarity := some (9 / 10) },
    stt := .data true (some "max".toList) }

/-- The voice does not match. -/
def wrongVoice : Submission :=
  { req := reqNick, voiceResult := { success := true, isMatch := false },
    stt := .data true (some "banana".toList) }

/-- The voice-match service fails. -/
def voiceDown : Submission :=
  { req := reqNick, voiceResult := { success := false, message := some "Voice service unavailable" },
    stt := .error }

/-- A transaction whose verification has been approved, after one attempt. -/
def dbApproved : Db :=
  { users := [userMax],
    transactions :=
      [{ id := 7, status := "pending",
         verificationResult :=
           some { verificationAttempts := some 1, voiceVerificationStatus := some "passed" } }] }

/-- A transaction whose status is `denied`, with four attempts stored. -/
def dbDenied : Db :=
  { users := [userMax],
    transactions :=
      [{ id := 7, status := "denied",
         verificationResult :=
           some { verificationAttempts := some 4, voiceVerificationStatus := some "failed" } }] }

/-- A pending transaction bound to the nickname question, with five attempts
stored under `verificationResult` and a top-level `verificationAttempts` that
is not set. -/
def dbBound : Db :=
  { users := [userMax],
    transactions :=
      [{ id := 7, status := "pending", lastVerificationField := some "nickname",
         verificationResult := some { verificationAttempts := some 5 } }] }

/-- A request for transaction 7 that names the pet-name question. -/
def reqPet : VerifyRequest :=
  { userId := 1, field := some "petName", transactionId := some 7, file := some "uploads/a.webm" }

/-- A request with audio for transaction 7 that names no question. -/
def reqNoField : VerifyRequest :=
  { userId := 1, transactionId := some 7, file := some "uploads/a.webm" }

/-- An account holder with a balance of 500. -/
def alice : User :=
  { id := 1, voiceEmbedding := some [1, 2, 3], fields := [("nickname", "Max".toList)],
    balance := 500, accountNumber := "ACC1", name := "Alice" }

/-- The store of `alice` with one deposit of 100 whose voice verification was
denied. -/
def dbBankDenied : Db :=
  { users := [alice],
    transactions :=
      [{ id := 7, status := "denied", userId := some 1, type := "deposit", amount := 100,
         verificationResult :=
           some { verificationAttempts := some 9, voiceVerificationStatus := some "failed" } }] }

/-- The store of `alice` without any transaction: no verification was ever
started. -/
def dbBankEmpty : Db :=
  { users := [alice], transactions := [] }

/-- A completion request for a deposit of 100 by `alice`. -/
def depositRequest : CompleteRequest :=
  { userId := some 1, type := some "deposit", amount := some 100 }

/-- The voice matches and the transcript is `rex`, for the pet-name question. -/
def petAnswer : Submission :=
  { req := reqPet, voiceResult := { success := true, isMatch := true },
    stt := .data true (some "rex".toList) }

/-- The store in which every transaction is bound to the field `bound`. -/
def rebind (db : Db) (bound : Option String) : Db :=
  { db with transactions := db.transactions.map (fun t => { t with lastVerificationField := bound }) }

/-- A transaction document with its bound field and its top-level
`verificationAttempts` blanked: what `generateSecurityQuestion` leaves alone. -/
def unbound (t : Transaction) : Transaction :=
  { t with lastVerificationField := none, verificationAttempts := none }

/-- A question request of user 1 for transaction 7. -/
def reqQuestion : QuestionRequest :=
  { userId := 1, transactionId := some 7 }

/-- A second account holder, with a balance of 50. -/
def bob : User :=
  { id := 2, voiceEmbedding := some [4, 5, 6], fields := [("nickname", "Bobby".toList)],
    balance := 50, accountNumber := "ACC2", name := "Bob" }

/-- The store of `alice` and `bob`, without transactions. -/
def dbBank : Db :=
  { users := [alice, bob], transactions := [] }

/-- A completion request of `alice` for a withdrawal of -100. -/
def negativeWithdrawal : CompleteRequest :=
  { userId := some 1, type := some "withdraw", amount := some (-100) }

/-- A completion request of `alice`, whose balance is 500, for a transfer of 700
to `bob`. -/
def overdrawingTransfer : CompleteRequest :=
  { userId := some 1, type := some "transfer", amount := some 700, recipient := some "ACC2" }

/-- A completion request of `alice` for a transfer of 100 to her own account. -/
def selfTransfer : CompleteRequest :=
  { userId := some 1, type := some "transfer", amount := some 100, recipient := some "ACC1" }

/-- A completion request of `alice` for a transfer of 100 to `bob`. -/
def transferToBob : CompleteRequest :=
  { userId := some 1, type := some "transfer", amount := some 100, recipient := some "ACC2" }

/-- The sum of all account balances. -/
def totalBalance (db : Db) : ℚ :=
  (db.users.map (fun u => u.balance)).sum

/-- A profile whose nickname is made of three blanks. -/
def blankProfile : User :=
  { id := 3, voiceEmbedding := some [1], fields := [("nickname", "   ".toList)] }

/-- A request with audio for the nickname question that names no
transaction. -/
def reqNoTransaction : VerifyRequest :=
  { userId := 1, field := some "nickname", file := some "uploads/a.webm" }

/-- A submission without a transaction in a voice that does not match. -/
def wrongVoiceNoTransaction : Submission :=
  { req := reqNoTransaction, voiceResult := { success := true, isMatch := false },
    stt := .data true (some "banana".toList) }

/-- The store that holds only `blankProfile`. -/
def dbBlank : Db :=
  { users := [blankProfile], transactions := [] }

/-- A question request of the user of `blankProfile`. -/
def reqBlank : QuestionRequest :=
  { userId := 3 }

/-- A request that names the property `name`, which is not a knowledge field,
without a transaction. -/
def reqName : VerifyRequest :=
  { userId := 1, field := some "name", file := some "uploads/a.webm" }

/-- The transcript `alice`, in the matching voice, for the property `name`. -/
def nameAnswer : Submission :=
  { req := reqName, voiceResult := { success := true, isMatch := true },
    stt := .data true (some "alice".toList) }

/-- An account holder whose balance is `2 ^ 53`. -/
def carol : User :=
  { id := 4, voiceEmbedding := some [1, 2, 3], balance := 9007199254740992,
    accountNumber := "ACC4", name := "Carol" }

/-- The store of `carol`, without transactions. -/
def dbLarge : Db :=
  { users := [carol], transactions := [] }

/-- A request to complete a deposit of 1 for `carol`. -/
def depositOne : CompleteRequest :=
  { userId := some 4, type := some "deposit", amount := some 1 }

/-! ## The coefficient of the specification -/

/-- The set `T(s)` of the specification: the distinct lower-cased
white-space-delimited tokens of `s`. -/
def tokenSet (lower : Str → Str) (s : Str) : Finset Str :=
  ((split (lower s)).filter (fun w => !w.isEmpty)).toFinset

/-- The coefficient of the specification: `|T(a) ∩ T(b)| / |T(a) ∪ T(b)|`, and
`0` when either set is empty. -/
def tokenSetCoefficient (lower : Str → Str) (a b : Str) : ℚ :=
  if tokenSet lower a = ∅ ∨ tokenSet lower b = ∅ then 0
  else ((tokenSet lower a ∩ tokenSet lower b).card : ℚ) /
    ((tokenSet lower a ∪ tokenSet lower b).card : ℚ)

/-! ## Lemmas on split and trim -/

/-- Where an empty piece can come from: the string is empty or starts with
white space while no piece has been started, or it ends with white space. -/
theorem nil_mem_splitAux (s cur : Str) (inSep : Bool) (h : [] ∈ splitAux s cur inSep) :
    (cur = [] ∧ (s = [] ∨ (inSep = false ∧ ∃ c cs, s = c :: cs ∧ isWhiteSpace c = true))) ∨
    ∃ c, s.getLast? = some c ∧ isWhiteSpace c = true := by
  induction s generalizing cur inSep with
  | nil =>
    left
    simp only [splitAux, List.mem_singleton] at h
    exact ⟨List.reverse_eq_nil_iff.mp h.symm, Or.inl rfl⟩
  | cons c cs ih =>
    by_cases hc : isWhiteSpace c = true
    · cases inSep with
      | true =>
        simp only [splitAux, hc, if_true] at h
        rcases ih cur true h with ⟨hcur, h1 | ⟨h1, -⟩⟩ | ⟨d, hd, hw⟩
        · right; exact ⟨c, by simp [h1], hc⟩
        · cases h1
        · right
          refine ⟨d, ?_, hw⟩
          cases cs with
          | nil => simp at hd
          | cons x xs => simpa [List.getLast?_cons_cons] using hd
      | false =>
        simp only [splitAux, hc, if_true, Bool.false_eq_true, if_false, List.mem_cons] at h
        rcases h with h | h
        · left
          exact ⟨List.reverse_eq_nil_iff.mp h.symm, Or.inr ⟨rfl, c, cs, rfl, hc⟩⟩
        · rcases ih [] true h with ⟨-, h1 | ⟨h1, -⟩⟩ | ⟨d, hd, hw⟩
          · right; exact ⟨c, by simp [h1], hc⟩
          · cases h1
          · right
            refine ⟨d, ?_, hw⟩
            cases cs with
            | nil => simp at hd
            | cons x xs => simpa [List.getLast?_cons_cons] using hd
    · simp only [splitAux, hc, if_false, Bool.false_eq_true] at h
      rcases ih (c :: cur) false h with ⟨hcur, -⟩ | ⟨d, hd, hw⟩
      · cases hcur
      · right
        refine ⟨d, ?_, hw⟩
        cases cs with
        | nil => simp at hd
        | cons x xs => simpa [List.getLast?_cons_cons] using hd

/-- A non-empty string that neither starts nor ends with white space has no
empty piece. -/
theorem nil_not_mem_split (s : Str) (hne : s ≠ [])
    (hhead : ∀ c, s.head? = some c → isWhiteSpace c = false)
    (hlast : ∀ c, s.getLast? = some c → isWhiteSpace c = false) : [] ∉ split s := by
  intro h
  rcases nil_mem_splitAux s [] false h with ⟨-, h1 | ⟨-, c, cs, hs, hc⟩⟩ | ⟨c, hc, hw⟩
  · exact hne h1
  · rw [hhead c (by rw [hs]; rfl)] at hc; cases hc
  · rw [hlast c hc] at hw; cases hw

/-- The first character left by `dropWhile p` does not satisfy `p`. -/
theorem head_dropWhile (p : Char → Bool) (l : Str) (c : Char)
    (h : (l.dropWhile p).head? = some c) : p c = false := by
  induction l with
  | nil => simp at h
  | cons x xs ih =>
    by_cases hx : p x = true
    · rw [List.dropWhile_cons_of_pos hx] at h; exact ih h
    · rw [List.dropWhile_cons_of_neg hx] at h
      simp at h
      rw [← h]; simpa using hx

/-- The last character left by `dropWhile p` is the last character of the list. -/
theorem getLast_dropWhile (p : Char → Bool) (l : Str) (c : Char)
    (h : (l.dropWhile p).getLast? = some c) : l.getLast? = some c := by
  induction l with
  | nil => simp at h
  | cons x xs ih =>
    by_cases hx : p x = true
    · rw [List.dropWhile_cons_of_pos hx] at h
      have := ih h
      cases xs with
      | nil => simp at this
      | cons y ys => simpa [List.getLast?_cons_cons] using this
    · rw [List.dropWhile_cons_of_neg hx] at h; exact h

/-- A trimmed string that is not empty has no empty piece. -/
theorem nil_not_mem_split_trim (s : Str) (hne : trim s ≠ []) : [] ∉ split (trim s) := by
  apply nil_not_mem_split _ hne
  · intro c hc
    unfold trim at hc
    rw [List.head?_reverse] at hc
    have := getLast_dropWhile _ _ _ hc
    rw [List.getLast?_reverse] at this
    exact head_dropWhile _ _ _ this
  · intro c hc
    unfold trim at hc
    rw [List.getLast?_reverse] at hc
    exact head_dropWhile _ _ _ hc

/-- A string without white space is its own single piece. -/
theorem splitAux_no_whiteSpace (s cur : Str) (inSep : Bool)
    (h : ∀ c ∈ s, isWhiteSpace c = false) : splitAux s cur inSep = [cur.reverse ++ s] := by
  induction s generalizing cur inSep with
  | nil => simp [splitAux]
  | cons c cs ih =>
    have hc : isWhiteSpace c = false := h c (List.mem_cons_self _ _)
    have hcs : ∀ d ∈ cs, isWhiteSpace d = false := fun d hd => h d (List.mem_cons_of_mem _ hd)
    simp only [splitAux, hc, Bool.false_eq_true, if_false]
    rw [ih (c :: cur) false hcs]
    simp

/-- The same for `split`. -/
theorem split_no_whiteSpace (s : Str) (h : ∀ c ∈ s, isWhiteSpace c = false) :
    split s = [s] := by
  unfold split
  rw [splitAux_no_whiteSpace s [] false h]
  simp

/-! ## Lemmas on rounding -/

/-- An integer rounds to itself. -/
theorem roundHalfEven_intCast (m : ℤ) : roundHalfEven (m : ℚ) = m := by
  simp [roundHalfEven]

/-- The binade of `x`, from its bounds. -/
theorem log_eq_of_bounds (x : ℚ) (e : ℤ) (h1 : (2 : ℚ) ^ e ≤ |x|) (h2 : |x| < (2 : ℚ) ^ (e + 1)) :
    Int.log 2 |x| = e := by
  have hpos : 0 < |x| := lt_of_lt_of_le (by positivity) h1
  have ha : e ≤ Int.log 2 |x| := (Int.zpow_le_iff_le_log (by norm_num) hpos).mp (by exact_mod_cast h1)
  have hb : Int.log 2 |x| < e + 1 :=
    (Int.lt_zpow_iff_log_lt (by norm_num) hpos).mp (by exact_mod_cast h2)
  omega

/-- The value of `roundDouble` on a number whose binade is known. -/
theorem roundDouble_of_bounds (x : ℚ) (e : ℤ) (he : -1022 ≤ e) (h1 : (2 : ℚ) ^ e ≤ |x|)
    (h2 : |x| < (2 : ℚ) ^ (e + 1)) :
    roundDouble x = (roundHalfEven (x / (2 : ℚ) ^ (e - 52)) : ℚ) * (2 : ℚ) ^ (e - 52) := by
  have hpos : 0 < |x| := lt_of_lt_of_le (by positivity) h1
  have hx : x ≠ 0 := abs_pos.mp hpos
  unfold roundDouble
  rw [if_neg hx, log_eq_of_bounds x e h1 h2, max_eq_left he]

/-- An integer of magnitude at most `2 ^ 53` is a double. -/
theorem roundDouble_intCast (n : ℤ) (h : |n| ≤ 2 ^ 53) : roundDouble (n : ℚ) = n := by
  by_cases hn : n = 0
  · simp [hn, roundDouble]
  have hpos : (0 : ℚ) < |(n : ℚ)| := abs_pos.mpr (by exact_mod_cast hn)
  have h1le : (1 : ℚ) ≤ |(n : ℚ)| := by
    have : (1 : ℤ) ≤ |n| := Int.one_le_abs hn
    exact_mod_cast this
  have hq : |(n : ℚ)| ≤ 2 ^ 53 := by exact_mod_cast h
  have he0 : 0 ≤ Int.log 2 |(n : ℚ)| :=
    (Int.zpow_le_iff_le_log (by norm_num) hpos).mp (by simpa using h1le)
  have he53 : Int.log 2 |(n : ℚ)| ≤ 53 := by
    by_contra hcon
    have h54 : (54 : ℤ) ≤ Int.log 2 |(n : ℚ)| := by omega
    have := (Int.zpow_le_iff_le_log (b := 2) (by norm_num) hpos).mpr h54
    have h2 : ((2 : ℕ) : ℚ) ^ (54 : ℤ) = 2 ^ 54 := by norm_num
    rw [h2] at this
    have : (2 : ℚ) ^ 54 ≤ 2 ^ 53 := le_trans this hq
    norm_num at this
  have hlow := Int.zpow_log_le_self (b := 2) (by norm_num) hpos
  set e := Int.log 2 |(n : ℚ)| with hedef
  have hround : ∀ m : ℤ, (n : ℚ) / (2 : ℚ) ^ (e - 52) = m → roundDouble (n : ℚ) = n := by
    intro m hm
    unfold roundDouble
    rw [if_neg (by exact_mod_cast hn), ← hedef, max_eq_left (by omega)]
    simp only []
    rw [hm, roundHalfEven_intCast, ← hm]
    have : (2 : ℚ) ^ (e - 52) ≠ 0 := by positivity
    field_simp
  by_cases h52 : e ≤ 52
  · obtain ⟨k, hk⟩ : ∃ k : ℕ, (52 - e) = k := ⟨(52 - e).toNat, by omega⟩
    apply hround (n * 2 ^ k)
    have he : e - 52 = -(k : ℤ) := by omega
    rw [he, zpow_neg, zpow_natCast]
    push_cast
    field_simp
  · have he : e = 53 := by omega
    rw [he] at hlow
    have hlow' : (2 : ℚ) ^ 53 ≤ |(n : ℚ)| := by
      have h2 : ((2 : ℕ) : ℚ) ^ (53 : ℤ) = 2 ^ 53 := by norm_num
      rw [h2] at hlow
      exact hlow
    have habs : |n| = 2 ^ 53 := by
      have : (2 : ℤ) ^ 53 ≤ |n| := by exact_mod_cast hlow'
      omega
    rcases abs_eq (by norm_num : (0 : ℤ) ≤ 2 ^ 53) |>.mp habs with h' | h'
    · apply hround (2 ^ 52)
      rw [he, h']
      norm_num
    · apply hround (-2 ^ 52)
      rw [he, h']
      norm_num

/-- The sum of two integers is exact up to `2 ^ 53`. -/
theorem addNumber_intCast (m n : ℤ) (h : |m + n| ≤ 2 ^ 53) :
    addNumber (m : ℚ) (n : ℚ) = ((m + n : ℤ) : ℚ) := by
  unfold addNumber
  rw [← Int.cast_add]
  exact roundDouble_intCast (m + n) h

/-- The difference of two integers is exact up to `2 ^ 53`. -/
theorem subNumber_intCast (m n : ℤ) (h : |m - n| ≤ 2 ^ 53) :
    subNumber (m : ℚ) (n : ℚ) = ((m - n : ℤ) : ℚ) := by
  unfold subNumber
  rw [← Int.cast_sub]
  exact roundDouble_intCast (m - n) h

/-- The integer that `roundHalfEven` gives is within one half of the number. -/
theorem roundHalfEven_sub_le (y : ℚ) : |(roundHalfEven y : ℚ) - y| ≤ 1 / 2 := by
  have h0 : (0 : ℚ) ≤ y - ⌊y⌋ := by linarith [Int.floor_le y]
  have h1 : y - ⌊y⌋ < 1 := by linarith [Int.lt_floor_add_one y]
  unfold roundHalfEven
  simp only []
  split
  · next h => rw [abs_le]; constructor <;> linarith
  · split
    · next h => push_cast; rw [abs_le]; constructor <;> linarith
    · next hle hge =>
      have hfrac : y - ⌊y⌋ = 1 / 2 := le_antisymm (not_lt.mp hge) (not_lt.mp hle)
      split
      · rw [abs_le]; constructor <;> linarith
      · push_cast; rw [abs_le]; constructor <;> linarith

/-- The rounding error of a number in the normal range is at most its
`2 ^ 53`-th part. -/
theorem roundDouble_sub_le (x : ℚ) (h : (2 : ℚ) ^ (-1022 : ℤ) ≤ |x|) :
    |roundDouble x - x| ≤ |x| / 2 ^ 53 := by
  have hpos : 0 < |x| := lt_of_lt_of_le (by positivity) h
  have hx : x ≠ 0 := abs_pos.mp hpos
  have he : (-1022 : ℤ) ≤ Int.log 2 |x| :=
    (Int.zpow_le_iff_le_log (by norm_num) hpos).mp (by exact_mod_cast h)
  have hlow : (2 : ℚ) ^ Int.log 2 |x| ≤ |x| := by
    have := Int.zpow_log_le_self (b := 2) (by norm_num) hpos
    exact_mod_cast this
  unfold roundDouble
  rw [if_neg hx, max_eq_left he]
  simp only []
  set e := Int.log 2 |x|
  have hu : (0 : ℚ) < 2 ^ (e - 52) := by positivity
  have hr := roundHalfEven_sub_le (x / 2 ^ (e - 52))
  have heq : (roundHalfEven (x / 2 ^ (e - 52)) : ℚ) * 2 ^ (e - 52) - x =
      ((roundHalfEven (x / 2 ^ (e - 52)) : ℚ) - x / 2 ^ (e - 52)) * 2 ^ (e - 52) := by
    field_simp
  rw [heq, abs_mul, abs_of_pos hu]
  have hsplit : (2 : ℚ) ^ (e - 52) = 2 ^ e / 2 ^ 52 := by
    rw [zpow_sub₀ (by norm_num)]
    norm_num
  calc |(roundHalfEven (x / 2 ^ (e - 52)) : ℚ) - x / 2 ^ (e - 52)| * 2 ^ (e - 52)
      ≤ 1 / 2 * 2 ^ (e - 52) := by
        exact mul_le_mul_of_nonneg_right hr (le_of_lt hu)
    _ = 2 ^ e / 2 ^ 53 := by rw [hsplit]; ring
    _ ≤ |x| / 2 ^ 53 := by
        apply div_le_div_of_nonneg_right hlow
        positivity

/-- The sum `2 ^ 53 + 1` is not a double: it rounds to `2 ^ 53`. -/
theorem addNumber_large : addNumber 9007199254740992 1 = 9007199254740992 := by
  unfold addNumber
  rw [roundDouble_of_bounds _ 53 (by norm_num) (by norm_num [abs_of_pos])
    (by norm_num [abs_of_pos])]
  have hf : ⌊((9007199254740992 : ℚ) + 1) / 2 ^ ((53 : ℤ) - 52)⌋ = 4503599627370496 := by
    rw [Int.floor_eq_iff]
    norm_num
  have hr : roundHalfEven (((9007199254740992 : ℚ) + 1) / 2 ^ ((53 : ℤ) - 52)) =
      4503599627370496 := by
    unfold roundHalfEven
    simp only [hf]
    norm_num
  rw [hr]
  norm_num

/-! ## Lemmas on calculateSimilarity -/

/-- The value of `calculateSimilarity` on two non-empty strings, from the two
counts it divides. -/
theorem calculateSimilarity_of_counts (lower : Str → Str) (a b : Str) (n m : Nat)
    (ha : a ≠ []) (hb : b ≠ [])
    (hn : ((split (lower a)).filter (fun w => decide (w ∈ split (lower b)))).length = n)
    (hm : (newSet (split (lower a) ++ split (lower b))).length = m) :
    calculateSimilarity lower a b = (n : ℚ) / (m : ℚ) := by
  have ha' : a.isEmpty = false := by cases a <;> simp_all
  have hb' : b.isEmpty = false := by cases b <;> simp_all
  unfold calculateSimilarity
  simp only [ha', hb', Bool.or_self, Bool.false_eq_true, if_false]
  split
  · next h =>
    have h0 : (split (lower a)).length = 0 ∨ (split (lower b)).length = 0 := by
      simpa using h
    have hn0 : n = 0 := by
      rcases h0 with h0 | h0
      · rw [List.length_eq_zero] at h0; rw [← hn, h0]; rfl
      · rw [List.length_eq_zero] at h0; rw [← hn, h0]; simp
    simp [hn0]
  · rw [hn, hm]

/-- An empty argument gives `0`. -/
theorem calculateSimilarity_empty (lower : Str → Str) (a b : Str) (h : a = [] ∨ b = []) :
    calculateSimilarity lower a b = 0 := by
  unfold calculateSimilarity
  rcases h with h | h <;> simp [h]

/-- Two strings without a common piece give `0`. -/
theorem calculateSimilarity_disjoint (lower : Str → Str) (a b : Str)
    (h : ∀ w ∈ split (lower a), w ∉ split (lower b)) :
    calculateSimilarity lower a b = 0 := by
  unfold calculateSimilarity
  have hf : (split (lower a)).filter (fun w => decide (w ∈ split (lower b))) = [] := by
    rw [List.filter_eq_nil_iff]
    intro w hw
    simpa using h w hw
  split
  · rfl
  · simp only []
    split
    · rfl
    · rw [hf]; simp

/-- The transcript `max` scores 1 against the nickname `Max`. -/
theorem goodAnswer_coefficient :
    calculateSimilarity toLowerCaseAscii
      (toLowerCaseAscii (trim (convertSpeechToText goodAnswer.stt)))
      (toLowerCaseAscii (trim ((userMax.get "nickname").getD []))) = 1 := by
  rw [calculateSimilarity_of_counts _ _ _ 1 1 (by decide) (by decide) (by decide) (by decide)]
  norm_num

/-- A non-empty string that lower-cases to a single word scores 1 against
itself. -/
theorem calculateSimilarity_same_word (lower : Str → Str) (a : Str) (ha : a ≠ [])
    (hw : ∀ c ∈ lower a, isWhiteSpace c = false) : calculateSimilarity lower a a = 1 := by
  rw [calculateSimilarity_of_counts lower a a 1 1 ha ha]
  · norm_num
  · rw [split_no_whiteSpace (lower a) hw]
    simp
  · rw [split_no_whiteSpace (lower a) hw]
    simp [newSet]

/-! ## Lemmas on verifyResponse -/

/-- When a submission is evaluated, the reply's `success` is the conjunction
computed on lines 219 to 221. -/
theorem verifyWithAttempt_success (lower : Str → Str) (db : Db) (req : VerifyRequest)
    (user : User) (vr : VoiceResult) (stt : SttReply) (now c : Nat) (a : Int) (f : String)
    (hf : req.field = some f)
    (hev : (verifyWithAttempt lower db req user vr stt now c a).evaluated = true) :
    (verifyWithAttempt lower db req user vr stt now c a).body.success =
      (vr.isMatch && decide (calculateSimilarity lower (lower (trim (convertSpeechToText stt)))
        (lower (trim ((user.get f).getD []))) > 7 / 10)) := by
  unfold verifyWithAttempt at hev ⊢
  rw [hf] at hev ⊢
  by_cases hne : (f != "") = true
  · simp only [Option.filter, hne, if_true] at hev ⊢
    by_cases ha : a ≤ 0
    · simp [ha, Outcome.evaluated] at hev
    · by_cases hs : vr.success = true
      · simp only [ha, hs, if_false, Bool.not_true, Bool.false_eq_true, Bool.true_and] at hev ⊢
        split
        · next h => simpa using h
        · next h =>
          split
          · simpa using h
          · simpa using h
      · simp [ha, hs, Outcome.evaluated] at hev
  · simp [Option.filter, hne, Outcome.evaluated] at hev

/-- The part after the attempt tracking evaluates a submission exactly when the
request names a field, an attempt is left and the voice-match service
succeeds. -/
theorem verifyWithAttempt_evaluated (lower : Str → Str) (db : Db) (req : VerifyRequest)
    (user : User) (vr : VoiceResult) (stt : SttReply) (now c : Nat) (a : Int) :
    (verifyWithAttempt lower db req user vr stt now c a).evaluated = true ↔
      (∃ f, req.field = some f ∧ f ≠ "") ∧ 0 < a ∧ vr.success = true := by
  unfold verifyWithAttempt
  cases hf : req.field with
  | none => simp [Option.filter, Outcome.evaluated]
  | some f =>
    by_cases hne : f = ""
    · simp [Option.filter, hne, Outcome.evaluated]
    · have hne' : (f != "") = true := by simpa using hne
      simp only [Option.filter, hne', if_true]
      by_cases ha : a ≤ 0
      · have : ¬ 0 < a := not_lt.mpr ha
        simp [ha, this, Outcome.evaluated]
      · have ha' : 0 < a := not_le.mp ha
        by_cases hs : vr.success = true
        · simp only [ha, hs, if_false, Bool.not_true, Bool.false_eq_true]
          split
          · simp [hne, ha', Outcome.evaluated]
          · split <;> simp [hne, ha', Outcome.evaluated]
        · simp [ha, hs, Outcome.evaluated]

/-- When a submission is evaluated, the reply carries the content verdict of
line 220. -/
theorem verifyWithAttempt_contentMatch (lower : Str → Str) (db : Db) (req : VerifyRequest)
    (user : User) (vr : VoiceResult) (stt : SttReply) (now c : Nat) (a : Int) (f : String)
    (hf : req.field = some f)
    (hev : (verifyWithAttempt lower db req user vr stt now c a).evaluated = true) :
    (verifyWithAttempt lower db req user vr stt now c a).body.contentMatch =
      some (decide (calculateSimilarity lower (lower (trim (convertSpeechToText stt)))
        (lower (trim ((user.get f).getD []))) > 7 / 10)) := by
  obtain ⟨⟨f', hf', hne⟩, ha, hs⟩ := (verifyWithAttempt_evaluated _ _ _ _ _ _ _ _ _).mp hev
  rw [hf] at hf'
  cases hf'
  have hne' : (f != "") = true := by simpa using hne
  have ha' : ¬ a ≤ 0 := not_le.mpr ha
  unfold verifyWithAttempt
  rw [hf]
  simp only [Option.filter, hne', if_true, ha', hs, if_false, Bool.not_true, Bool.false_eq_true]
  split
  · rfl
  · simp only [gt_iff_lt, ha, if_true]

/-- The paths of `verifyResponse`: either it replies early, without calling a
collaborator and without writing, or it continues with `verifyWithAttempt` on
the attempt number and the attempts left of lines 155 to 177. -/
theorem verifyResponse_cases (lower : Str → Str) (db : Db) (req : VerifyRequest)
    (vr : VoiceResult) (stt : SttReply) (now : Nat) :
    ((verifyResponse lower db req vr stt now).db = db ∧
      (verifyResponse lower db req vr stt now).evaluated = false ∧
      (verifyResponse lower db req vr stt now).calledVerifyVoice = false ∧
      (verifyResponse lower db req vr stt now).body.success = false) ∨
    ∃ user c a, db.findUser req.userId = some user ∧
      verifyResponse lower db req vr stt now = verifyWithAttempt lower db req user vr stt now c a ∧
      ((∃ t, req.transactionId.bind db.findTransaction = some t ∧ c = storedAttempts t + 1 ∧
          a = (MAX_TOTAL_ATTEMPTS : Int) - (c : Int)) ∨
        (req.transactionId.bind db.findTransaction = none ∧ c = 0 ∧ a = MAX_ATTEMPTS)) := by
  cases hfile : req.file with
  | none => left; simp [verifyResponse, hfile, Outcome.evaluated]
  | some path =>
    cases hu : db.findUser req.userId with
    | none => left; simp [verifyResponse, hfile, hu, Outcome.evaluated]
    | some user =>
      by_cases he : (user.voiceEmbedding.isNone || (user.voiceEmbedding.getD []).length == 0) = true
      · left; simp [verifyResponse, hfile, hu, he, Outcome.evaluated]
      · cases ht : req.transactionId.bind db.findTransaction with
        | none =>
          right
          refine ⟨user, 0, MAX_ATTEMPTS, rfl, ?_, Or.inr ⟨rfl, rfl, rfl⟩⟩
          simp only [verifyResponse, hfile, hu, he, ht, if_false, Bool.false_eq_true]
        | some t =>
          by_cases hc : storedAttempts t + 1 > MAX_TOTAL_ATTEMPTS
          · left; simp [verifyResponse, hfile, hu, he, ht, hc, Outcome.evaluated]
          · right
            refine ⟨user, storedAttempts t + 1, _, rfl, ?_, Or.inl ⟨t, rfl, rfl, rfl⟩⟩
            simp only [verifyResponse, hfile, hu, he, ht, hc, if_false, Bool.false_eq_true]

/-- An evaluated submission went through `verifyWithAttempt`, with the attempt
number and the attempts left computed on lines 155 to 177. -/
theorem verifyResponse_evaluated_inv (lower : Str → Str) (db : Db) (req : VerifyRequest)
    (vr : VoiceResult) (stt : SttReply) (now : Nat)
    (hev : (verifyResponse lower db req vr stt now).evaluated = true) :
    ∃ user c a, db.findUser req.userId = some user ∧
      verifyResponse lower db req vr stt now = verifyWithAttempt lower db req user vr stt now c a ∧
      ((∃ t, req.transactionId.bind db.findTransaction = some t ∧ c = storedAttempts t + 1 ∧
          a = (MAX_TOTAL_ATTEMPTS : Int) - (c : Int)) ∨
        (req.transactionId.bind db.findTransaction = none ∧ c = 0 ∧ a = MAX_ATTEMPTS)) := by
  rcases verifyResponse_cases lower db req vr stt now with ⟨-, h, -, -⟩ | h
  · rw [h] at hev; cases hev
  · exact h

/-- The same for the whole handler. -/
theorem verifyResponse_success (lower : Str → Str) (db : Db) (req : VerifyRequest)
    (vr : VoiceResult) (stt : SttReply) (now : Nat) (user : User) (f : String)
    (hu : db.findUser req.userId = some user) (hf : req.field = some f)
    (hev : (verifyResponse lower db req vr stt now).evaluated = true) :
    (verifyResponse lower db req vr stt now).body.success =
      (vr.isMatch && decide (calculateSimilarity lower (lower (trim (convertSpeechToText stt)))
        (lower (trim ((user.get f).getD []))) > 7 / 10)) := by
  obtain ⟨user', c, a, hu', heq, -⟩ := verifyResponse_evaluated_inv lower db req vr stt now hev
  rw [hu] at hu'
  cases hu'
  rw [heq] at hev ⊢
  exact verifyWithAttempt_success _ _ _ _ _ _ _ _ _ _ hf hev

/-- A well-formed submission for a user with a voice profile is evaluated when
the voice-match service succeeds and the transaction, if it is found, has a
stored attempt count below nine. -/
theorem verifyResponse_evaluated_of (lower : Str → Str) (db : Db) (req : VerifyRequest)
    (vr : VoiceResult) (stt : SttReply) (now : Nat) (user : User) (path f : String)
    (hfile : req.file = some path) (hu : db.findUser req.userId = some user)
    (he : (user.voiceEmbedding.isNone || (user.voiceEmbedding.getD []).length == 0) = false)
    (hf : req.field = some f) (hne : f ≠ "")
    (ht : ∀ t, req.transactionId.bind db.findTransaction = some t →
      storedAttempts t + 1 < MAX_TOTAL_ATTEMPTS)
    (hs : vr.success = true) :
    (verifyResponse lower db req vr stt now).evaluated = true := by
  cases htx : req.transactionId.bind db.findTransaction with
  | none =>
    simp only [verifyResponse, hfile, hu, he, htx, if_false, Bool.false_eq_true]
    rw [verifyWithAttempt_evaluated]
    exact ⟨⟨f, hf, hne⟩, by decide, hs⟩
  | some t =>
    have h := ht t htx
    have hc : ¬ storedAttempts t + 1 > MAX_TOTAL_ATTEMPTS := by omega
    simp only [verifyResponse, hfile, hu, he, htx, hc, if_false, Bool.false_eq_true]
    rw [verifyWithAttempt_evaluated]
    refine ⟨⟨f, hf, hne⟩, ?_, hs⟩
    have : ((storedAttempts t + 1 : Nat) : Int) < (MAX_TOTAL_ATTEMPTS : Int) := by exact_mod_cast h
    omega

/-! ## The effect of verifyResponse on the stored transactions -/

/-- Two updates of the same document are one update by the composition. -/
theorem findByIdAndUpdate_twice (db : Db) (id : Nat) (g h : Transaction → Transaction)
    (hg : ∀ t, (g t).id = t.id) :
    (db.findByIdAndUpdate id g).findByIdAndUpdate id h = db.findByIdAndUpdate id (h ∘ g) := by
  simp only [Db.findByIdAndUpdate, List.map_map]
  congr 1
  apply List.map_congr_left
  intro t _
  by_cases ht : (t.id == id) = true
  · simp [Function.comp, ht, hg]
  · simp [Function.comp, ht]

/-- Looking a document up after an update that keeps identifiers. -/
theorem findTransaction_findByIdAndUpdate (db : Db) (id id' : Nat) (g : Transaction → Transaction)
    (hg : ∀ t, (g t).id = t.id) :
    (db.findByIdAndUpdate id g).findTransaction id' =
      (db.findTransaction id').map (fun t => if t.id == id then g t else t) := by
  simp only [Db.findByIdAndUpdate, Db.findTransaction]
  rw [List.find?_map]
  have hp : ((fun t : Transaction => t.id == id') ∘
      fun t : Transaction => if (t.id == id) = true then g t else t) =
      fun t : Transaction => t.id == id' := by
    funext t
    simp only [Function.comp]
    split
    · rw [hg]
    · rfl
  rw [hp]

/-- A document found by identifier has that identifier. -/
theorem findTransaction_id (db : Db) (id : Nat) (t : Transaction)
    (h : db.findTransaction id = some t) : t.id = id := by
  have := List.find?_some h
  simpa using this

/-- The stored documents after `verifyWithAttempt`: nothing changes unless the
submission is evaluated for a request that names a transaction, and then that
transaction is updated by a function that keeps its identifier and its
`status` and sets its stored attempt count to `currentAttempt`. -/
theorem verifyWithAttempt_db (lower : Str → Str) (db : Db) (req : VerifyRequest)
    (user : User) (vr : VoiceResult) (stt : SttReply) (now c : Nat) (a : Int) :
    ∃ g : Transaction → Transaction,
      (∀ t, (g t).id = t.id ∧ (g t).status = t.status ∧ storedAttempts (g t) = c) ∧
      (verifyWithAttempt lower db req user vr stt now c a).db =
        if (verifyWithAttempt lower db req user vr stt now c a).evaluated = true then
          match req.transactionId with
          | some id => db.findByIdAndUpdate id g
          | none => db
        else db := by
  let g1 : Transaction → Transaction := setVerificationResult fun r =>
    { r with verificationAttempts := some c, lastVerificationAttempt := some now }
  let g2 : Transaction → Transaction := setVerificationResult fun r =>
    { r with voiceVerificationStatus := some "passed" }
  have hg1 : ∀ t, (g1 t).id = t.id ∧ (g1 t).status = t.status ∧ storedAttempts (g1 t) = c := by
    intro t
    simp [g1, setVerificationResult, storedAttempts]
  have hg21 : ∀ t, ((g2 ∘ g1) t).id = t.id ∧ ((g2 ∘ g1) t).status = t.status ∧
      storedAttempts ((g2 ∘ g1) t) = c := by
    intro t
    simp [g1, g2, setVerificationResult, storedAttempts]
  unfold verifyWithAttempt
  cases hf : req.field.filter (fun f => f != "") with
  | none => exact ⟨g1, hg1, by simp [Outcome.evaluated]⟩
  | some f =>
    by_cases ha : a ≤ 0
    · exact ⟨g1, hg1, by simp [ha, Outcome.evaluated]⟩
    · by_cases hs : vr.success = true
      · simp only [ha, hs, if_false, Bool.not_true, Bool.false_eq_true]
        split
        · refine ⟨g2 ∘ g1, hg21, ?_⟩
          cases hid : req.transactionId with
          | none => simp [Outcome.evaluated]
          | some id =>
            simp only [Outcome.evaluated, if_true]
            exact findByIdAndUpdate_twice db id g1 g2 (fun t => (hg1 t).1)
        · have ha' : a > 0 := not_le.mp ha
          simp only [ha', if_true]
          refine ⟨g1, hg1, ?_⟩
          cases hid : req.transactionId with
          | none => simp [Outcome.evaluated]
          | some id => simp [Outcome.evaluated, g1]
      · exact ⟨g1, hg1, by simp [ha, hs, Outcome.evaluated]⟩

/-- What an evaluated reply reports: the attempt number and the attempts left,
which are positive. -/
theorem verifyWithAttempt_reports (lower : Str → Str) (db : Db) (req : VerifyRequest)
    (user : User) (vr : VoiceResult) (stt : SttReply) (now c : Nat) (a : Int)
    (hev : (verifyWithAttempt lower db req user vr stt now c a).evaluated = true) :
    (verifyWithAttempt lower db req user vr stt now c a).body.currentAttempt = some c ∧
    (verifyWithAttempt lower db req user vr stt now c a).body.attemptsLeft = some a ∧
    (verifyWithAttempt lower db req user vr stt now c a).status = 200 ∧
    (verifyWithAttempt lower db req user vr stt now c a).body.isDenied ≠ some true := by
  obtain ⟨⟨f, hf, hne⟩, ha, hs⟩ := (verifyWithAttempt_evaluated _ _ _ _ _ _ _ _ _).mp hev
  have hne' : (f != "") = true := by simpa using hne
  have ha' : ¬ a ≤ 0 := not_le.mpr ha
  unfold verifyWithAttempt
  rw [hf]
  simp only [Option.filter, hne', if_true, ha', hs, if_false, Bool.not_true, Bool.false_eq_true]
  split
  · simp
  · simp only [gt_iff_lt, ha, if_true]
    simp

/-- A failure of the voice-match service: nothing is written, nothing is
evaluated, and the reply, when the service was called, is an HTTP 400 error. -/
theorem verifyWithAttempt_voice_failure (lower : Str → Str) (db : Db) (req : VerifyRequest)
    (user : User) (vr : VoiceResult) (stt : SttReply) (now c : Nat) (a : Int)
    (hs : vr.success = false) :
    (verifyWithAttempt lower db req user vr stt now c a).db = db ∧
    (verifyWithAttempt lower db req user vr stt now c a).evaluated = false ∧
    (verifyWithAttempt lower db req user vr stt now c a).body.success = false ∧
    ((verifyWithAttempt lower db req user vr stt now c a).calledVerifyVoice = true →
      (verifyWithAttempt lower db req user vr stt now c a).status = 400) := by
  unfold verifyWithAttempt
  cases hf : req.field.filter (fun f => f != "") with
  | none => simp [Outcome.evaluated]
  | some f =>
    by_cases ha : a ≤ 0
    · simp [ha, Outcome.evaluated]
    · simp [ha, hs, Outcome.evaluated]

/-- The same for the whole handler. -/
theorem verifyResponse_voice_failure (lower : Str → Str) (db : Db) (req : VerifyRequest)
    (vr : VoiceResult) (stt : SttReply) (now : Nat) (hs : vr.success = false) :
    (verifyResponse lower db req vr stt now).db = db ∧
    (verifyResponse lower db req vr stt now).evaluated = false ∧
    (verifyResponse lower db req vr stt now).body.success = false ∧
    ((verifyResponse lower db req vr stt now).calledVerifyVoice = true →
      (verifyResponse lower db req vr stt now).status = 400) := by
  rcases verifyResponse_cases lower db req vr stt now with ⟨h1, h2, h3, h4⟩ | ⟨user, c, a, -, heq, -⟩
  · exact ⟨h1, h2, h4, fun h => by rw [h3] at h; cases h⟩
  · rw [heq]
    exact verifyWithAttempt_voice_failure lower db req user vr stt now c a hs

/-- The stored documents after `verifyResponse`: nothing changes unless the
submission is evaluated for a request that names a transaction; then that
transaction is updated by a function that keeps its identifier and its
`status` and sets its stored attempt count to the reported attempt number,
which is the count stored before plus one. -/
theorem verifyResponse_db (lower : Str → Str) (db : Db) (req : VerifyRequest)
    (vr : VoiceResult) (stt : SttReply) (now : Nat) :
    ∃ (g : Transaction → Transaction) (c : Nat),
      (∀ t, (g t).id = t.id ∧ (g t).status = t.status ∧ storedAttempts (g t) = c) ∧
      (∀ t, req.transactionId.bind db.findTransaction = some t →
        (verifyResponse lower db req vr stt now).evaluated = true → c = storedAttempts t + 1) ∧
      ((verifyResponse lower db req vr stt now).evaluated = true →
        (verifyResponse lower db req vr stt now).body.currentAttempt = some c) ∧
      (verifyResponse lower db req vr stt now).db =
        if (verifyResponse lower db req vr stt now).evaluated = true then
          match req.transactionId with
          | some id => db.findByIdAndUpdate id g
          | none => db
        else db := by
  rcases verifyResponse_cases lower db req vr stt now with ⟨h1, h2, -, -⟩ | ⟨user, c, a, -, heq, hc⟩
  · refine ⟨setVerificationResult fun r => { r with verificationAttempts := some 0 }, 0,
      ?_, ?_, ?_, ?_⟩
    · intro t
      simp [setVerificationResult, storedAttempts]
    · intro t _ h; rw [h2] at h; cases h
    · intro h; rw [h2] at h; cases h
    · rw [h1, h2]; simp
  · obtain ⟨g, hg, hdb⟩ := verifyWithAttempt_db lower db req user vr stt now c a
    refine ⟨g, c, hg, ?_, ?_, ?_⟩
    · intro t ht _
      rcases hc with ⟨t', ht', hc', -⟩ | ⟨hnone, -, -⟩
      · rw [ht] at ht'; cases ht'; exact hc'
      · rw [ht] at hnone; cases hnone
    · intro h
      rw [heq] at h ⊢
      exact (verifyWithAttempt_reports lower db req user vr stt now c a h).1
    · rw [heq]; exact hdb

/-- An evaluated submission on an existing transaction reports the stored
attempt count plus one and stores it. -/
theorem verifyResponse_stores_attempt (lower : Str → Str) (db : Db) (req : VerifyRequest)
    (vr : VoiceResult) (stt : SttReply) (now id : Nat) (t : Transaction)
    (hid : req.transactionId = some id) (ht : db.findTransaction id = some t)
    (hev : (verifyResponse lower db req vr stt now).evaluated = true) :
    (verifyResponse lower db req vr stt now).body.currentAttempt = some (storedAttempts t + 1) ∧
    ((verifyResponse lower db req vr stt now).db.findTransaction id).map storedAttempts =
      some (storedAttempts t + 1) := by
  obtain ⟨g, c, hg, hc, hcur, hdb⟩ := verifyResponse_db lower db req vr stt now
  have hbind : req.transactionId.bind db.findTransaction = some t := by
    rw [hid]; exact ht
  have hc' := hc t hbind hev
  refine ⟨by rw [hcur hev, hc'], ?_⟩
  rw [hdb, if_pos hev, hid]
  simp only []
  rw [findTransaction_findByIdAndUpdate db id id g (fun t => (hg t).1), ht]
  have hidt := findTransaction_id db id t ht
  simp [hidt, (hg t).2.2, hc']

/-- The handler never writes the `status` of a transaction: the branch of lines
296 to 316 that would set it to `denied` is not reached, because line 186
returns whenever no attempt is left. -/
theorem verifyResponse_status_unchanged (lower : Str → Str) (db : Db) (req : VerifyRequest)
    (vr : VoiceResult) (stt : SttReply) (now : Nat) :
    (verifyResponse lower db req vr stt now).db.transactions.map (fun t => t.status) =
      db.transactions.map (fun t => t.status) ∧
    (verifyResponse lower db req vr stt now).db.users = db.users := by
  obtain ⟨g, c, hg, -, -, hdb⟩ := verifyResponse_db lower db req vr stt now
  rw [hdb]
  split
  · cases req.transactionId with
    | none => exact ⟨rfl, rfl⟩
    | some id =>
      refine ⟨?_, rfl⟩
      simp only [Db.findByIdAndUpdate, List.map_map]
      apply List.map_congr_left
      intro t _
      simp only [Function.comp]
      split
      · exact (hg t).2.1
      · rfl
  · exact ⟨rfl, rfl⟩

/-! ## What verifyResponse reads of the stored transactions -/

/-- The stored attempt count of a transaction, read from the ledger. -/
theorem findTransaction_ledger (db : Db) (id : Nat) :
    (db.findTransaction id).map storedAttempts =
      ((ledger db).find? (fun p => p.1 == id)).map (fun p => p.2) := by
  simp only [ledger, Db.findTransaction]
  rw [List.find?_map, Option.map_map]
  rfl

/-- The ledger after an update that keeps identifiers and sets the stored
attempt count to `c`. -/
theorem ledger_findByIdAndUpdate (db : Db) (id c : Nat) (g : Transaction → Transaction)
    (hg : ∀ t, (g t).id = t.id ∧ storedAttempts (g t) = c) :
    ledger (db.findByIdAndUpdate id g) =
      (ledger db).map (fun p => if p.1 == id then (p.1, c) else p) := by
  simp only [ledger, Db.findByIdAndUpdate, List.map_map]
  apply List.map_congr_left
  intro t _
  simp only [Function.comp]
  split
  · rw [(hg t).1, (hg t).2]
  · rfl

/-- The reply of `verifyWithAttempt` and its calls do not depend on the stored
documents. -/
theorem verifyWithAttempt_reply (lower : Str → Str) (db db' : Db) (req : VerifyRequest)
    (user : User) (vr : VoiceResult) (stt : SttReply) (now c : Nat) (a : Int) :
    (verifyWithAttempt lower db req user vr stt now c a).status =
      (verifyWithAttempt lower db' req user vr stt now c a).status ∧
    (verifyWithAttempt lower db req user vr stt now c a).body =
      (verifyWithAttempt lower db' req user vr stt now c a).body ∧
    (verifyWithAttempt lower db req user vr stt now c a).calledVerifyVoice =
      (verifyWithAttempt lower db' req user vr stt now c a).calledVerifyVoice ∧
    (verifyWithAttempt lower db req user vr stt now c a).calledStt =
      (verifyWithAttempt lower db' req user vr stt now c a).calledStt ∧
    (verifyWithAttempt lower db req user vr stt now c a).audioDeleted =
      (verifyWithAttempt lower db' req user vr stt now c a).audioDeleted := by
  unfold verifyWithAttempt
  cases req.field.filter (fun f => f != "") with
  | none => exact ⟨rfl, rfl, rfl, rfl, rfl⟩
  | some f =>
    simp only []
    split
    · exact ⟨rfl, rfl, rfl, rfl, rfl⟩
    · split
      · exact ⟨rfl, rfl, rfl, rfl, rfl⟩
      · split
        · exact ⟨rfl, rfl, rfl, rfl, rfl⟩
        · split <;> exact ⟨rfl, rfl, rfl, rfl, rfl⟩

/-- The ledger after `verifyWithAttempt` is a function of the ledger before. -/
theorem verifyWithAttempt_ledger (lower : Str → Str) (db db' : Db) (req : VerifyRequest)
    (user : User) (vr : VoiceResult) (stt : SttReply) (now c : Nat) (a : Int)
    (hl : ledger db = ledger db') :
    ledger (verifyWithAttempt lower db req user vr stt now c a).db =
      ledger (verifyWithAttempt lower db' req user vr stt now c a).db := by
  obtain ⟨g, hg, hdb⟩ := verifyWithAttempt_db lower db req user vr stt now c a
  obtain ⟨g', hg', hdb'⟩ := verifyWithAttempt_db lower db' req user vr stt now c a
  have hev : (verifyWithAttempt lower db req user vr stt now c a).evaluated =
      (verifyWithAttempt lower db' req user vr stt now c a).evaluated :=
    (verifyWithAttempt_reply lower db db' req user vr stt now c a).2.2.2.1
  rw [hdb, hdb', hev]
  split
  · cases req.transactionId with
    | none => exact hl
    | some id =>
      simp only []
      rw [ledger_findByIdAndUpdate db id c g (fun t => ⟨(hg t).1, (hg t).2.2⟩),
        ledger_findByIdAndUpdate db' id c g' (fun t => ⟨(hg' t).1, (hg' t).2.2⟩), hl]
  · exact hl

/-- The reply of `verifyResponse` is a function of the users and of the ledger:
two stores with the same users whose transactions have the same identifiers
and stored attempt counts get the same reply, and their ledgers agree again
afterwards. -/
theorem verifyResponse_reads_ledger (lower : Str → Str) (db db' : Db) (req : VerifyRequest)
    (vr : VoiceResult) (stt : SttReply) (now : Nat)
    (hu : db.users = db'.users) (hl : ledger db = ledger db') :
    (verifyResponse lower db req vr stt now).status =
      (verifyResponse lower db' req vr stt now).status ∧
    (verifyResponse lower db req vr stt now).body =
      (verifyResponse lower db' req vr stt now).body ∧
    (verifyResponse lower db req vr stt now).evaluated =
      (verifyResponse lower db' req vr stt now).evaluated ∧
    (verifyResponse lower db req vr stt now).calledVerifyVoice =
      (verifyResponse lower db' req vr stt now).calledVerifyVoice ∧
    ledger (verifyResponse lower db req vr stt now).db =
      ledger (verifyResponse lower db' req vr stt now).db := by
  have hfu : db'.findUser req.userId = db.findUser req.userId := by
    simp [Db.findUser, hu]
  have hst : (req.transactionId.bind db.findTransaction).map storedAttempts =
      (req.transactionId.bind db'.findTransaction).map storedAttempts := by
    cases req.transactionId with
    | none => rfl
    | some id =>
      simp only [Option.bind]
      rw [findTransaction_ledger, findTransaction_ledger, hl]
  cases hfile : req.file with
  | none => simp [verifyResponse, hfile, Outcome.evaluated, hl]
  | some path =>
    cases hus : db.findUser req.userId with
    | none =>
      rw [hus] at hfu
      simp [verifyResponse, hfile, hus, hfu, Outcome.evaluated, hl]
    | some user =>
      rw [hus] at hfu
      by_cases he : (user.voiceEmbedding.isNone || (user.voiceEmbedding.getD []).length == 0) = true
      · simp [verifyResponse, hfile, hus, hfu, he, Outcome.evaluated, hl]
      · cases ht : req.transactionId.bind db.findTransaction with
        | none =>
          cases ht' : req.transactionId.bind db'.findTransaction with
          | none =>
            simp only [verifyResponse, hfile, hus, hfu, he, ht, ht', if_false, Bool.false_eq_true,
              Outcome.evaluated]
            have hr := verifyWithAttempt_reply lower db db' req user vr stt now 0 MAX_ATTEMPTS
            exact ⟨hr.1, hr.2.1, hr.2.2.2.1, hr.2.2.1,
              verifyWithAttempt_ledger lower db db' req user vr stt now 0 MAX_ATTEMPTS hl⟩
          | some t' => rw [ht, ht'] at hst; cases hst
        | some t =>
          cases ht' : req.transactionId.bind db'.findTransaction with
          | none => rw [ht, ht'] at hst; cases hst
          | some t' =>
            rw [ht, ht'] at hst
            have hsame : storedAttempts t' = storedAttempts t := by
              simp only [Option.map] at hst
              exact (Option.some.inj hst).symm
            by_cases hc : storedAttempts t + 1 > MAX_TOTAL_ATTEMPTS
            · simp [verifyResponse, hfile, hus, hfu, he, ht, ht', hsame, hc, Outcome.evaluated, hl]
            · simp only [verifyResponse, hfile, hus, hfu, he, ht, ht', hsame, hc, if_false,
                Bool.false_eq_true, Outcome.evaluated]
              have hr := verifyWithAttempt_reply lower db db' req user vr stt now
                (storedAttempts t + 1)
                ((MAX_TOTAL_ATTEMPTS : Int) - ((storedAttempts t + 1 : Nat) : Int))
              exact ⟨hr.1, hr.2.1, hr.2.2.2.1, hr.2.2.1,
                verifyWithAttempt_ledger lower db db' req user vr stt now _ _ hl⟩

/-- When a submission is evaluated, the reply carries the coefficient of line
213: the transcript against the stored value of the field named in the
request. -/
theorem verifyWithAttempt_textSimilarity (lower : Str → Str) (db : Db) (req : VerifyRequest)
    (user : User) (vr : VoiceResult) (stt : SttReply) (now c : Nat) (a : Int) (f : String)
    (hf : req.field = some f)
    (hev : (verifyWithAttempt lower db req user vr stt now c a).evaluated = true) :
    (verifyWithAttempt lower db req user vr stt now c a).body.textSimilarity =
      some (calculateSimilarity lower (lower (trim (convertSpeechToText stt)))
        (lower (trim ((user.get f).getD [])))) ∧
    (verifyWithAttempt lower db req user vr stt now c a).body.recognizedText =
      some (convertSpeechToText stt) := by
  obtain ⟨⟨f', hf', hne⟩, ha, hs⟩ := (verifyWithAttempt_evaluated _ _ _ _ _ _ _ _ _).mp hev
  rw [hf] at hf'
  cases hf'
  have hne' : (f != "") = true := by simpa using hne
  have ha' : ¬ a ≤ 0 := not_le.mpr ha
  unfold verifyWithAttempt
  rw [hf]
  simp only [Option.filter, hne', if_true, ha', hs, if_false, Bool.not_true, Bool.false_eq_true]
  split
  · simp
  · simp only [gt_iff_lt, ha, if_true]
    simp

/-- The same for the whole handler. -/
theorem verifyResponse_textSimilarity (lower : Str → Str) (db : Db) (req : VerifyRequest)
    (vr : VoiceResult) (stt : SttReply) (now : Nat) (user : User) (f : String)
    (hu : db.findUser req.userId = some user) (hf : req.field = some f)
    (hev : (verifyResponse lower db req vr stt now).evaluated = true) :
    (verifyResponse lower db req vr stt now).body.textSimilarity =
      some (calculateSimilarity lower (lower (trim (convertSpeechToText stt)))
        (lower (trim ((user.get f).getD [])))) ∧
    (verifyResponse lower db req vr stt now).body.recognizedText =
      some (convertSpeechToText stt) := by
  obtain ⟨user', c, a, hu', heq, -⟩ := verifyResponse_evaluated_inv lower db req vr stt now hev
  rw [hu] at hu'
  cases hu'
  rw [heq] at hev ⊢
  exact verifyWithAttempt_textSimilarity _ _ _ _ _ _ _ _ _ _ hf hev

/-- When a submission is evaluated, the reply carries the content verdict of
line 220, for the whole handler. -/
theorem verifyResponse_contentMatch (lower : Str → Str) (db : Db) (req : VerifyRequest)
    (vr : VoiceResult) (stt : SttReply) (now : Nat) (user : User) (f : String)
    (hu : db.findUser req.userId = some user) (hf : req.field = some f)
    (hev : (verifyResponse lower db req vr stt now).evaluated = true) :
    (verifyResponse lower db req vr stt now).body.contentMatch =
      some (decide (calculateSimilarity lower (lower (trim (convertSpeechToText stt)))
        (lower (trim ((user.get f).getD []))) > 7 / 10)) := by
  obtain ⟨user', c, a, hu', heq, -⟩ := verifyResponse_evaluated_inv lower db req vr stt now hev
  rw [hu] at hu'
  cases hu'
  rw [heq] at hev ⊢
  exact verifyWithAttempt_contentMatch _ _ _ _ _ _ _ _ _ _ hf hev

/-- Binding the transactions to another field changes neither the users nor
the ledger. -/
theorem rebind_users_ledger (db : Db) (bound : Option String) :
    (rebind db bound).users = db.users ∧ ledger (rebind db bound) = ledger db := by
  refine ⟨rfl, ?_⟩
  simp only [ledger, rebind, List.map_map]
  apply List.map_congr_left
  intro t _
  rfl

/-- The transcript `rex` scores 1 against the pet name `rex rex`. -/
theorem petAnswer_coefficient :
    calculateSimilarity toLowerCaseAscii
      (toLowerCaseAscii (trim (convertSpeechToText petAnswer.stt)))
      (toLowerCaseAscii (trim ((userMax.get "petName").getD []))) = 1 := by
  rw [calculateSimilarity_of_counts _ _ _ 1 1 (by decide) (by decide) (by decide) (by decide)]
  norm_num

/-- The transcript `rex` scores 0 against the nickname `Max`. -/
theorem petAnswer_nickname_coefficient :
    calculateSimilarity toLowerCaseAscii
      (toLowerCaseAscii (trim (convertSpeechToText petAnswer.stt)))
      (toLowerCaseAscii (trim ((userMax.get "nickname").getD []))) = 0 := by
  rw [calculateSimilarity_of_counts _ _ _ 0 2 (by decide) (by decide) (by decide) (by decide)]
  norm_num

/-- The transcript `alice` scores 1 against the property `name` of `alice`. -/
theorem nameAnswer_coefficient :
    calculateSimilarity toLowerCaseAscii
      (toLowerCaseAscii (trim (convertSpeechToText nameAnswer.stt)))
      (toLowerCaseAscii (trim ((alice.get "name").getD []))) = 1 := by
  rw [calculateSimilarity_of_counts _ _ _ 1 1 (by decide) (by decide) (by decide) (by decide)]
  norm_num

/-- Only the approval has `success = true`: its message is
`Transaction approved`. -/
theorem verifyWithAttempt_approved (lower : Str → Str) (db : Db) (req : VerifyRequest)
    (user : User) (vr : VoiceResult) (stt : SttReply) (now c : Nat) (a : Int)
    (h : (verifyWithAttempt lower db req user vr stt now c a).body.success = true) :
    (verifyWithAttempt lower db req user vr stt now c a).body.message = "Transaction approved" ∧
    (verifyWithAttempt lower db req user vr stt now c a).evaluated = true := by
  unfold verifyWithAttempt at h ⊢
  cases hf : req.field.filter (fun f => f != "") with
  | none => rw [hf] at h; simp at h
  | some f =>
    rw [hf] at h
    simp only [] at h ⊢
    by_cases ha : a ≤ 0
    · simp [ha] at h
    · by_cases hs : vr.success = true
      · simp only [ha, hs, if_false, Bool.not_true, Bool.false_eq_true] at h ⊢
        split
        · simp [Outcome.evaluated]
        · next hno =>
          rw [if_neg hno] at h
          split at h <;> simp at h
      · simp [ha, hs] at h

/-- The same for the whole handler. -/
theorem verifyResponse_approved (lower : Str → Str) (db : Db) (req : VerifyRequest)
    (vr : VoiceResult) (stt : SttReply) (now : Nat)
    (h : (verifyResponse lower db req vr stt now).body.success = true) :
    (verifyResponse lower db req vr stt now).body.message = "Transaction approved" ∧
    (verifyResponse lower db req vr stt now).evaluated = true := by
  rcases verifyResponse_cases lower db req vr stt now with ⟨-, -, -, h4⟩ | ⟨user, c, a, -, heq, -⟩
  · rw [h4] at h; cases h
  · rw [heq] at h ⊢
    exact verifyWithAttempt_approved lower db req user vr stt now c a h

/-! ## The exit paths of verifyResponse -/

/-- The four exits of `verifyWithAttempt`: the request names no field (line
179), no attempt is left (line 186), the voice-match service fails (line 197),
or the submission is evaluated. -/
theorem verifyWithAttempt_paths (lower : Str → Str) (db : Db) (req : VerifyRequest)
    (user : User) (vr : VoiceResult) (stt : SttReply) (now c : Nat) (a : Int) :
    (req.field.filter (fun f => f != "") = none ∧
      verifyWithAttempt lower db req user vr stt now c a =
        { db := db, status := 400,
          body := { success := false, message := "Security question field not found" } }) ∨
    (req.field.filter (fun f => f != "") ≠ none ∧ a ≤ 0 ∧
      verifyWithAttempt lower db req user vr stt now c a =
        { db := db, status := 200,
          body := { success := false, message := "Maximum attempts reached. Transaction denied.",
                    attemptsLeft := some 0 } }) ∨
    (req.field.filter (fun f => f != "") ≠ none ∧ 0 < a ∧ vr.success = false ∧
      verifyWithAttempt lower db req user vr stt now c a =
        { db := db, status := 400,
          body := { success := false,
                    message :=
                      (vr.message.filter (fun m => m != "")).getD "Voice verification failed",
                    attemptsLeft := some a },
          calledVerifyVoice := true, audioDeleted := true }) ∨
    (req.field.filter (fun f => f != "") ≠ none ∧ 0 < a ∧ vr.success = true ∧
      (verifyWithAttempt lower db req user vr stt now c a).evaluated = true ∧
      (verifyWithAttempt lower db req user vr stt now c a).calledVerifyVoice = true ∧
      (verifyWithAttempt lower db req user vr stt now c a).audioDeleted = true) := by
  unfold verifyWithAttempt
  cases hf : req.field.filter (fun f => f != "") with
  | none => left; exact ⟨rfl, rfl⟩
  | some f =>
    right
    by_cases ha : a ≤ 0
    · left
      simp [ha]
    · right
      have ha' : 0 < a := not_le.mp ha
      by_cases hs : vr.success = true
      · right
        simp only [ha, hs, if_false, Bool.not_true, Bool.false_eq_true]
        refine ⟨by simp, ha', trivial, ?_⟩
        split
        · simp [Outcome.evaluated]
        · split <;> simp [Outcome.evaluated]
      · left
        have hs' : vr.success = false := by simpa using hs
        simp [ha, hs', ha']

/-- The five exits of `verifyResponse` before and at the attempt tracking: no
audio (line 126), no user (line 135), no voice profile (line 143), attempts
exceeded (line 166), or the rest of the handler with the attempt number and
the attempts left of lines 155 to 177. -/
theorem verifyResponse_paths (lower : Str → Str) (db : Db) (req : VerifyRequest)
    (vr : VoiceResult) (stt : SttReply) (now : Nat) :
    (req.file = none ∧
      verifyResponse lower db req vr stt now =
        { db := db, status := 400,
          body := { success := false, message := "Audio response required" } }) ∨
    (req.file ≠ none ∧ db.findUser req.userId = none ∧
      verifyResponse lower db req vr stt now =
        { db := db, status := 404, body := { success := false, message := "User not found" } }) ∨
    (∃ user, req.file ≠ none ∧ db.findUser req.userId = some user ∧
      (user.voiceEmbedding.isNone || (user.voiceEmbedding.getD []).length == 0) = true ∧
      verifyResponse lower db req vr stt now =
        { db := db, status := 400,
          body := { success := false,
                    message := "Voice profile not registered. Please register your voice first." } }) ∨
    (∃ user t, req.file ≠ none ∧ db.findUser req.userId = some user ∧
      (user.voiceEmbedding.isNone || (user.voiceEmbedding.getD []).length == 0) = false ∧
      req.transactionId.bind db.findTransaction = some t ∧
      storedAttempts t + 1 > MAX_TOTAL_ATTEMPTS ∧
      verifyResponse lower db req vr stt now =
        { db := db, status := 200,
          body := { success := false, message := "Maximum attempts exceeded. Transaction denied.",
                    attemptsLeft := some 0, isDenied := some true } }) ∨
    (∃ user c a, req.file ≠ none ∧ db.findUser req.userId = some user ∧
      (user.voiceEmbedding.isNone || (user.voiceEmbedding.getD []).length == 0) = false ∧
      verifyResponse lower db req vr stt now = verifyWithAttempt lower db req user vr stt now c a ∧
      ((∃ t, req.transactionId.bind db.findTransaction = some t ∧ c = storedAttempts t + 1 ∧
          c ≤ MAX_TOTAL_ATTEMPTS ∧ a = (MAX_TOTAL_ATTEMPTS : Int) - (c : Int)) ∨
        (req.transactionId.bind db.findTransaction = none ∧ c = 0 ∧ a = MAX_ATTEMPTS))) := by
  cases hfile : req.file with
  | none => left; simp [verifyResponse, hfile]
  | some path =>
    right
    cases hu : db.findUser req.userId with
    | none => left; simp [verifyResponse, hfile, hu]
    | some user =>
      right
      by_cases he : (user.voiceEmbedding.isNone || (user.voiceEmbedding.getD []).length == 0) = true
      · left
        exact ⟨user, by simp, rfl, he, by simp [verifyResponse, hfile, hu, he]⟩
      · right
        have he' : (user.voiceEmbedding.isNone || (user.voiceEmbedding.getD []).length == 0)
            = false := Bool.eq_false_iff.mpr he
        cases ht : req.transactionId.bind db.findTransaction with
        | none =>
          right
          refine ⟨user, 0, MAX_ATTEMPTS, by simp, rfl, he', ?_, Or.inr ⟨rfl, rfl, rfl⟩⟩
          simp only [verifyResponse, hfile, hu, he, ht, if_false, Bool.false_eq_true]
        | some t =>
          by_cases hc : storedAttempts t + 1 > MAX_TOTAL_ATTEMPTS
          · left
            exact ⟨user, t, by simp, rfl, he', rfl, hc,
              by simp [verifyResponse, hfile, hu, he, ht, hc]⟩
          · right
            refine ⟨user, storedAttempts t + 1, _, by simp, rfl, he', ?_,
              Or.inl ⟨t, rfl, rfl, by omega, rfl⟩⟩
            simp only [verifyResponse, hfile, hu, he, ht, hc, if_false, Bool.false_eq_true]

/-- A submission is evaluated exactly when it has audio, its user exists and has
a voice profile, it names a field, the transaction, if one is found, has fewer
than nine attempts stored, and the voice-match service succeeds.  The answer
of the speech-to-text service plays no part. -/
theorem verifyResponse_evaluated_iff (lower : Str → Str) (db : Db) (req : VerifyRequest)
    (vr : VoiceResult) (stt : SttReply) (now : Nat) :
    (verifyResponse lower db req vr stt now).evaluated = true ↔
      req.file ≠ none ∧
      (∃ user, db.findUser req.userId = some user ∧
        (user.voiceEmbedding.isNone || (user.voiceEmbedding.getD []).length == 0) = false) ∧
      (∃ f, req.field = some f ∧ f ≠ "") ∧
      (∀ t, req.transactionId.bind db.findTransaction = some t →
        storedAttempts t + 1 < MAX_TOTAL_ATTEMPTS) ∧
      vr.success = true := by
  constructor
  · intro hev
    rcases verifyResponse_paths lower db req vr stt now with
      ⟨-, h⟩ | ⟨-, -, h⟩ | ⟨_, -, -, -, h⟩ | ⟨_, _, -, -, -, -, -, h⟩ |
      ⟨user, c, a, hfile, hu, he, heq, hc⟩
    · rw [h] at hev; cases hev
    · rw [h] at hev; cases hev
    · rw [h] at hev; cases hev
    · rw [h] at hev; cases hev
    · rw [heq] at hev
      obtain ⟨hf, ha, hs⟩ := (verifyWithAttempt_evaluated _ _ _ _ _ _ _ _ _).mp hev
      refine ⟨hfile, ⟨user, hu, he⟩, hf, ?_, hs⟩
      intro t ht
      rcases hc with ⟨t', ht', hc', -, ha'⟩ | ⟨hnone, -, -⟩
      · rw [ht] at ht'
        cases ht'
        have h10 : ((10 : Nat) : Int) - ((storedAttempts t + 1 : Nat) : Int) > 0 := by
          rw [ha', hc'] at ha
          exact ha
        simp only [MAX_TOTAL_ATTEMPTS]
        omega
      · rw [ht] at hnone; cases hnone
  · rintro ⟨hfile, ⟨user, hu, he⟩, ⟨f, hf, hne⟩, ht, hs⟩
    cases hp : req.file with
    | none => exact absurd hp hfile
    | some path =>
      exact verifyResponse_evaluated_of lower db req vr stt now user path f hp hu he hf hne ht hs

/-- An update under an identifier that no stored transaction has changes
nothing. -/
theorem findByIdAndUpdate_of_not_found (db : Db) (id : Nat) (g : Transaction → Transaction)
    (h : db.findTransaction id = none) : db.findByIdAndUpdate id g = db := by
  have hall : ∀ t ∈ db.transactions, ¬ (t.id == id) = true := by
    intro t ht
    have := List.find?_eq_none.mp h t ht
    simpa using this
  have hmap : db.transactions.map (fun t => if (t.id == id) = true then g t else t) =
      db.transactions := by
    conv_rhs => rw [← List.map_id db.transactions]
    apply List.map_congr_left
    intro t ht
    rw [if_neg (hall t ht)]
    rfl
  simp only [Db.findByIdAndUpdate, hmap]

/-- A request that names no stored transaction: nothing is written, no denial
is issued, and an evaluated submission reports attempt 0 with 3 attempts
left. -/
theorem verifyResponse_no_transaction (lower : Str → Str) (db : Db) (req : VerifyRequest)
    (vr : VoiceResult) (stt : SttReply) (now : Nat)
    (hnone : req.transactionId.bind db.findTransaction = none) :
    (verifyResponse lower db req vr stt now).db = db ∧
    (verifyResponse lower db req vr stt now).body.isDenied ≠ some true ∧
    ((verifyResponse lower db req vr stt now).evaluated = true →
      (verifyResponse lower db req vr stt now).body.currentAttempt = some 0 ∧
      (verifyResponse lower db req vr stt now).body.attemptsLeft = some 3) := by
  refine ⟨?_, ?_, ?_⟩
  · obtain ⟨g, c, -, -, -, hdb⟩ := verifyResponse_db lower db req vr stt now
    rw [hdb]
    split
    · cases hid : req.transactionId with
      | none => rfl
      | some id =>
        simp only []
        rw [hid] at hnone
        exact findByIdAndUpdate_of_not_found db id g hnone
    · rfl
  · rcases verifyResponse_paths lower db req vr stt now with
      ⟨-, h⟩ | ⟨-, -, h⟩ | ⟨_, -, -, -, h⟩ | ⟨_, t, -, -, -, ht, -, -⟩ |
      ⟨user, c, a, -, -, -, heq, -⟩
    · rw [h]; simp
    · rw [h]; simp
    · rw [h]; simp
    · rw [hnone] at ht; cases ht
    · rw [heq]
      rcases verifyWithAttempt_paths lower db req user vr stt now c a with
        ⟨-, h⟩ | ⟨-, -, h⟩ | ⟨-, -, -, h⟩ | ⟨-, -, -, hev, -, -⟩
      · rw [h]; simp
      · rw [h]; simp
      · rw [h]; simp
      · exact (verifyWithAttempt_reports lower db req user vr stt now c a hev).2.2.2
  · intro hev
    obtain ⟨user, c, a, -, heq, hc⟩ := verifyResponse_evaluated_inv lower db req vr stt now hev
    rw [heq] at hev ⊢
    obtain ⟨h1, h2, -, -⟩ := verifyWithAttempt_reports lower db req user vr stt now c a hev
    rcases hc with ⟨t, ht, -, -⟩ | ⟨-, hc0, ha⟩
    · rw [hnone] at ht; cases ht
    · rw [h1, h2, hc0, ha]
      exact ⟨rfl, rfl⟩

/-! ## Two calls in flight -/

/-- The handler is its first part followed by the rest: `trackAttempt` either
is the reply of `verifyResponse`, or gives the attempt number and the attempts
left with which `verifyResponse` goes on; the attempt number is the stored
count plus one when the transaction is found. -/
theorem trackAttempt_spec (db : Db) (req : VerifyRequest) :
    (∃ reply, trackAttempt db req = Sum.inl reply ∧ reply.db = db ∧ reply.evaluated = false ∧
      ∀ (lower : Str → Str) (vr : VoiceResult) (stt : SttReply) (now : Nat),
        verifyResponse lower db req vr stt now = reply) ∨
    (∃ user c a, trackAttempt db req = Sum.inr (user, c, a) ∧
      (∀ t, req.transactionId.bind db.findTransaction = some t → c = storedAttempts t + 1) ∧
      ∀ (lower : Str → Str) (vr : VoiceResult) (stt : SttReply) (now : Nat),
        verifyResponse lower db req vr stt now =
          verifyWithAttempt lower db req user vr stt now c a) := by
  cases hfile : req.file with
  | none =>
    left
    refine ⟨verifyResponse (fun x => x) db req { success := false } SttReply.error 0,
      ?_, ?_, ?_, ?_⟩
    · simp only [trackAttempt, verifyResponse, hfile]
    · simp only [verifyResponse, hfile]
    · simp only [verifyResponse, Outcome.evaluated, hfile]
    · intro _ _ _ _
      simp only [verifyResponse, hfile]
  | some path =>
    cases hu : db.findUser req.userId with
    | none =>
      left
      refine ⟨verifyResponse (fun x => x) db req { success := false } SttReply.error 0,
        ?_, ?_, ?_, ?_⟩
      · simp only [trackAttempt, verifyResponse, hfile, hu]
      · simp only [verifyResponse, hfile, hu]
      · simp only [verifyResponse, Outcome.evaluated, hfile, hu]
      · intro _ _ _ _
        simp only [verifyResponse, hfile, hu]
    | some user =>
      by_cases he : (user.voiceEmbedding.isNone || (user.voiceEmbedding.getD []).length == 0) = true
      · left
        refine ⟨verifyResponse (fun x => x) db req { success := false } SttReply.error 0,
          ?_, ?_, ?_, ?_⟩
        · simp only [trackAttempt, verifyResponse, hfile, hu, he, if_true]
        · simp only [verifyResponse, hfile, hu, he, if_true]
        · simp only [verifyResponse, Outcome.evaluated, hfile, hu, he, if_true]
        · intro _ _ _ _
          simp only [verifyResponse, hfile, hu, he, if_true]
      · cases ht : req.transactionId.bind db.findTransaction with
        | none =>
          right
          refine ⟨user, 0, MAX_ATTEMPTS, ?_, ?_, ?_⟩
          · simp only [trackAttempt, hfile, hu, he, ht, if_false, Bool.false_eq_true]
          · intro t h; cases h
          · intro lower vr stt now
            simp only [verifyResponse, hfile, hu, he, ht, if_false, Bool.false_eq_true]
        | some t =>
          by_cases hc : storedAttempts t + 1 > MAX_TOTAL_ATTEMPTS
          · left
            refine ⟨verifyResponse (fun x => x) db req { success := false } SttReply.error 0,
              ?_, ?_, ?_, ?_⟩
            · simp only [trackAttempt, verifyResponse, hfile, hu, he, ht, hc, if_true, if_false, Bool.false_eq_true]
            · simp only [verifyResponse, hfile, hu, he, ht, hc, if_true, if_false, Bool.false_eq_true]
            · simp only [verifyResponse, Outcome.evaluated, hfile, hu, he, ht, hc, if_true, if_false, Bool.false_eq_true]
            · intro _ _ _ _
              simp only [verifyResponse, hfile, hu, he, ht, hc, if_true, if_false, Bool.false_eq_true]
          · right
            refine ⟨user, storedAttempts t + 1,
              (MAX_TOTAL_ATTEMPTS : Int) - ((storedAttempts t + 1 : Nat) : Int), ?_, ?_, ?_⟩
            · simp only [trackAttempt, hfile, hu, he, ht, hc, if_false, Bool.false_eq_true]
            · intro t' h; cases h; rfl
            · intro lower vr stt now
              simp only [verifyResponse, hfile, hu, he, ht, hc, if_false, Bool.false_eq_true]

/-- Run on the store it started from, the rest of a call gives the outcome of
`verifyResponse`. -/
theorem verifyResponse_eq_resume (lower : Str → Str) (db : Db) (s : Submission) :
    resumeAttempt lower db s (trackAttempt db s.req) =
      verifyResponse lower db s.req s.voiceResult s.stt s.now := by
  rcases trackAttempt_spec db s.req with ⟨reply, h1, h2, -, h4⟩ | ⟨user, c, a, h1, -, h3⟩
  · rw [h1, h4 lower s.voiceResult s.stt s.now]
    simp only [resumeAttempt]
    rw [← h2]
  · rw [h1, h3 lower s.voiceResult s.stt s.now]
    rfl

/-! ## The stored counts stay below the ceiling -/

/-- An update that stores a count below the ceiling keeps every count below it. -/
theorem countsBelowCeiling_findByIdAndUpdate (db : Db) (id c : Nat) (g : Transaction → Transaction)
    (hinv : countsBelowCeiling db = true) (hg : ∀ t, storedAttempts (g t) = c)
    (hc : c < MAX_TOTAL_ATTEMPTS) : countsBelowCeiling (db.findByIdAndUpdate id g) = true := by
  simp only [countsBelowCeiling, Db.findByIdAndUpdate, List.all_eq_true, List.mem_map,
    decide_eq_true_eq] at hinv ⊢
  rintro t ⟨t0, ht0, rfl⟩
  split
  · rw [hg]; exact hc
  · exact hinv t0 ht0

/-- The rest of the handler keeps every stored count below the ceiling, when an
attempt is left only for an attempt number below the ceiling. -/
theorem countsBelowCeiling_verifyWithAttempt (lower : Str → Str) (db : Db) (req : VerifyRequest)
    (user : User) (vr : VoiceResult) (stt : SttReply) (now c : Nat) (a : Int)
    (hinv : countsBelowCeiling db = true) (hca : 0 < a → c < MAX_TOTAL_ATTEMPTS) :
    countsBelowCeiling (verifyWithAttempt lower db req user vr stt now c a).db = true := by
  obtain ⟨g, hg, hdb⟩ := verifyWithAttempt_db lower db req user vr stt now c a
  rw [hdb]
  split
  · next hev =>
    obtain ⟨-, ha, -⟩ := (verifyWithAttempt_evaluated _ _ _ _ _ _ _ _ _).mp hev
    cases req.transactionId with
    | none => exact hinv
    | some id =>
      exact countsBelowCeiling_findByIdAndUpdate db id c g hinv (fun t => (hg t).2.2) (hca ha)
  · exact hinv

/-- The attempt number and the attempts left that `trackAttempt` hands on: an
attempt is left only for an attempt number below the ceiling. -/
theorem trackAttempt_bound (db : Db) (req : VerifyRequest) (user : User) (c : Nat) (a : Int)
    (h : trackAttempt db req = Sum.inr (user, c, a)) : 0 < a → c < MAX_TOTAL_ATTEMPTS := by
  unfold trackAttempt at h
  split at h
  · cases h
  · split at h
    · cases h
    · split at h
      · cases h
      · split at h
        · simp only [] at h
          split at h
          · cases h
          · simp only [Sum.inr.injEq, Prod.mk.injEq] at h
            obtain ⟨-, hc, ha⟩ := h
            intro hpos
            rw [← ha] at hpos
            rw [← hc]
            simp only [MAX_TOTAL_ATTEMPTS] at hpos ⊢
            omega
        · simp only [Sum.inr.injEq, Prod.mk.injEq] at h
          obtain ⟨-, hc, -⟩ := h
          intro _
          rw [← hc]
          decide

/-- A call resumed on any store keeps every stored count below the ceiling. -/
theorem countsBelowCeiling_resumeAttempt (lower : Str → Str) (db db' : Db) (s : Submission)
    (hinv : countsBelowCeiling db' = true) :
    countsBelowCeiling (resumeAttempt lower db' s (trackAttempt db s.req)).db = true := by
  cases h : trackAttempt db s.req with
  | inl reply => exact hinv
  | inr r =>
    obtain ⟨user, c, a⟩ := r
    simp only [resumeAttempt]
    exact countsBelowCeiling_verifyWithAttempt lower db' s.req user s.voiceResult s.stt s.now c a
      hinv (trackAttempt_bound db s.req user c a h)

/-- The handler keeps every stored count below the ceiling. -/
theorem countsBelowCeiling_verifyResponse (lower : Str → Str) (db : Db) (req : VerifyRequest)
    (vr : VoiceResult) (stt : SttReply) (now : Nat) (hinv : countsBelowCeiling db = true) :
    countsBelowCeiling (verifyResponse lower db req vr stt now).db = true := by
  have h := countsBelowCeiling_resumeAttempt lower db db
    { req := req, voiceResult := vr, stt := stt, now := now } hinv
  rw [verifyResponse_eq_resume] at h
  exact h

/-- An update that keeps the stored count keeps every count below the ceiling. -/
theorem countsBelowCeiling_generateSecurityQuestion (db : Db) (req : QuestionRequest) (r : ℚ)
    (hinv : countsBelowCeiling db = true) :
    countsBelowCeiling (generateSecurityQuestion db req r).db = true := by
  unfold generateSecurityQuestion
  split
  · exact hinv
  · split
    · exact hinv
    · simp only []
      split
      · exact hinv
      · split
        · exact hinv
        · simp only []
          cases req.transactionId with
          | none => exact hinv
          | some id =>
            simp only [countsBelowCeiling, Db.findByIdAndUpdate, List.all_eq_true, List.mem_map,
              decide_eq_true_eq] at hinv ⊢
            rintro t ⟨t0, ht0, rfl⟩
            split
            · exact hinv t0 ht0
            · exact hinv t0 ht0

/-- The record that `commitTransaction` creates has no stored attempt count. -/
theorem countsBelowCeiling_commitTransaction (db : Db) (user : User) (b : ℚ) (type : String)
    (amount : ℚ) (r : Option User) :
    countsBelowCeiling (commitTransaction db user b type amount r).db = countsBelowCeiling db := by
  unfold commitTransaction
  simp only [countsBelowCeiling, Db.create]
  split <;>
    simp [Db.saveBalance, storedAttempts, MAX_TOTAL_ATTEMPTS]

/-- The handler `completeTransaction` keeps every stored count below the
ceiling. -/
theorem countsBelowCeiling_completeTransaction (db : Db) (req : CompleteRequest)
    (hinv : countsBelowCeiling db = true) :
    countsBelowCeiling (completeTransaction db req).db = true := by
  unfold completeTransaction
  split
  · split
    · exact hinv
    · split
      · split
        · exact hinv
        · split
          · exact hinv
          · simp only []
            rw [countsBelowCeiling_commitTransaction]
            exact hinv
      · split
        · rw [countsBelowCeiling_commitTransaction]; exact hinv
        · split
          · split
            · exact hinv
            · rw [countsBelowCeiling_commitTransaction]; exact hinv
          · rw [countsBelowCeiling_commitTransaction]; exact hinv
  · exact hinv

/-! ## Lemmas on generateSecurityQuestion -/

/-- A catalog entry has a value on the user exactly when the user's property of
that name is a string that is not blank. -/
theorem hasValue_iff (user : User) (item : SecurityField) :
    hasValue user item = true ↔ ∃ value, user.get item.field = some value ∧ trim value ≠ [] := by
  unfold hasValue
  cases h : user.get item.field with
  | none => simp
  | some value =>
    constructor
    · intro hv
      refine ⟨value, rfl, ?_⟩
      simp only [Bool.and_eq_true, bne_iff_ne, ne_eq] at hv
      exact hv.2
    · rintro ⟨v, hv, hne⟩
      cases hv
      simp only [Bool.and_eq_true, bne_iff_ne, ne_eq]
      refine ⟨?_, hne⟩
      cases value with
      | nil => exact absurd rfl hne
      | cons c cs => rfl

/-- The index `Math.floor(Math.random() * n)` lies in the list when the draw is
in `[0, 1)` and the list is not empty. -/
theorem floor_index_lt (r : ℚ) (n : Nat) (hr0 : 0 ≤ r) (hr1 : r < 1) (hn : 0 < n) :
    0 ≤ ⌊r * (n : ℚ)⌋ ∧ ⌊r * (n : ℚ)⌋.toNat < n := by
  have hn' : (0 : ℚ) < (n : ℚ) := by exact_mod_cast hn
  have h0 : 0 ≤ ⌊r * (n : ℚ)⌋ := Int.floor_nonneg.mpr (mul_nonneg hr0 (le_of_lt hn'))
  have h1 : ⌊r * (n : ℚ)⌋ < (n : Int) := by
    rw [Int.floor_lt]
    have : r * (n : ℚ) < 1 * (n : ℚ) := mul_lt_mul_of_pos_right hr1 hn'
    simpa using this
  refine ⟨h0, ?_⟩
  omega

/-! ## Lemmas on completeTransaction -/

/-- Looking a user up by identifier after a balance was saved. -/
theorem findUser_saveBalance (db : Db) (id id' : Nat) (b : ℚ) :
    (db.saveBalance id b).findUser id' =
      (db.findUser id').map (fun u => if u.id == id then { u with balance := b } else u) := by
  simp only [Db.saveBalance, Db.findUser]
  rw [List.find?_map]
  have hp : ((fun u : User => u.id == id') ∘
      fun u : User => if (u.id == id) = true then { u with balance := b } else u) =
      fun u : User => u.id == id' := by
    funext u
    simp only [Function.comp]
    split <;> rfl
  rw [hp]

/-- Looking a user up by account number after a balance was saved. -/
theorem findByAccountNumber_saveBalance (db : Db) (id : Nat) (account : String) (b : ℚ) :
    (db.saveBalance id b).findByAccountNumber account =
      (db.findByAccountNumber account).map
        (fun u => if u.id == id then { u with balance := b } else u) := by
  simp only [Db.saveBalance, Db.findByAccountNumber]
  rw [List.find?_map]
  have hp : ((fun u : User => u.accountNumber == account) ∘
      fun u : User => if (u.id == id) = true then { u with balance := b } else u) =
      fun u : User => u.accountNumber == account := by
    funext u
    simp only [Function.comp]
    split <;> rfl
  rw [hp]

/-- A user found by identifier has that identifier. -/
theorem findUser_id (db : Db) (id : Nat) (u : User) (h : db.findUser id = some u) : u.id = id := by
  have := List.find?_some h
  simpa using this

/-- What `commitTransaction` does: one record with status `completed` is added,
the users are those of the store with the balance of `user` saved when it
changed, and the reply is a success that carries the balance and the record. -/
theorem commitTransaction_spec (db : Db) (user : User) (b : ℚ) (type : String) (amount : ℚ)
    (r : Option User) :
    ∃ record : Transaction,
      record.status = "completed" ∧ record.type = type ∧ record.amount = amount ∧
      record.userId = some user.id ∧
      (commitTransaction db user b type amount r).db.transactions = db.transactions ++ [record] ∧
      (commitTransaction db user b type amount r).db.users =
        (if b = user.balance then db else db.saveBalance user.id b).users ∧
      (commitTransaction db user b type amount r).status = 200 ∧
      (commitTransaction db user b type amount r).body.success = true ∧
      (commitTransaction db user b type amount r).body.newBalance = some b ∧
      (commitTransaction db user b type amount r).body.transaction = some record := by
  unfold commitTransaction
  refine ⟨_, rfl, rfl, rfl, rfl, ?_, ?_, rfl, rfl, rfl, rfl⟩
  · simp only [Db.create]
    split <;> rfl
  · simp only [Db.create]

/-- The balance of `user` after `commitTransaction`, when the stored document of
`user` had the balance that `user.balance` started from. -/
theorem commitTransaction_balance (db : Db) (user u0 : User) (b : ℚ) (type : String) (amount : ℚ)
    (r : Option User) (hu : db.findUser user.id = some u0) (hb : u0.balance = user.balance) :
    ((commitTransaction db user b type amount r).db.findUser user.id).map (fun u => u.balance) =
      some b := by
  obtain ⟨record, -, -, -, -, -, husers, -⟩ := commitTransaction_spec db user b type amount r
  have hfind : ∀ d : Db, d.users = (commitTransaction db user b type amount r).db.users →
      (commitTransaction db user b type amount r).db.findUser user.id = d.findUser user.id := by
    intro d hd
    simp only [Db.findUser, hd]
  by_cases hsame : b = user.balance
  · rw [if_pos hsame] at husers
    rw [hfind db husers.symm, hu, hsame, ← hb]
    rfl
  · rw [if_neg hsame] at husers
    rw [hfind (db.saveBalance user.id b) husers.symm, findUser_saveBalance, hu]
    have hid := findUser_id db user.id u0 hu
    simp [hid]

/-- A request that is answered with a success has an amount that is not 0. -/
theorem completeTransaction_amount_ne_zero (db : Db) (req : CompleteRequest) (a : ℚ)
    (hA : req.amount = some a) (hsucc : (completeTransaction db req).body.success = true) :
    a ≠ 0 := by
  intro ha
  have hAf : req.amount.filter (fun a => a != 0) = none := by
    simp [hA, Option.filter, ha]
  unfold completeTransaction at hsucc
  rw [hAf] at hsucc
  cases hU : req.userId <;> cases hT : req.type.filter (fun t => t != "") <;>
    simp [hU, hT] at hsucc

/-- The deposit branch of `completeTransaction`. -/
theorem completeTransaction_deposit (db : Db) (req : CompleteRequest) (userId : Nat) (a : ℚ)
    (user : User) (hU : req.userId = some userId) (hA : req.amount = some a) (ha : a ≠ 0)
    (hT : req.type = some "deposit") (hu : db.findUser userId = some user) :
    completeTransaction db req =
      commitTransaction db user (addNumber user.balance a) "deposit" a none := by
  have hAf : req.amount.filter (fun a => a != 0) = some a := by
    simp [hA, Option.filter, ha]
  have hTf : req.type.filter (fun t => t != "") = some "deposit" := by
    rw [hT]; decide
  unfold completeTransaction
  rw [hU, hTf, hAf]
  simp [hu]

/-- The withdrawal branch of `completeTransaction`. -/
theorem completeTransaction_withdraw (db : Db) (req : CompleteRequest) (userId : Nat) (a : ℚ)
    (user : User) (hU : req.userId = some userId) (hA : req.amount = some a) (ha : a ≠ 0)
    (hT : req.type = some "withdraw") (hu : db.findUser userId = some user) :
    completeTransaction db req =
      if user.balance < a then
        { db := db, status := 400, body := { success := false, message := "Insufficient funds" } }
      else commitTransaction db user (subNumber user.balance a) "withdraw" a none := by
  have hAf : req.amount.filter (fun a => a != 0) = some a := by
    simp [hA, Option.filter, ha]
  have hTf : req.type.filter (fun t => t != "") = some "withdraw" := by
    rw [hT]; decide
  unfold completeTransaction
  rw [hU, hTf, hAf]
  simp [hu]

/-- The transfer branch of `completeTransaction`. -/
theorem completeTransaction_transfer (db : Db) (req : CompleteRequest) (userId : Nat) (a : ℚ)
    (user : User) (hU : req.userId = some userId) (hA : req.amount = some a) (ha : a ≠ 0)
    (hT : req.type = some "transfer") (hu : db.findUser userId = some user) :
    completeTransaction db req =
      match req.recipient.filter (fun r => r != "") with
      | none =>
        { db := db, status := 400, body := { success := false, message := "Missing recipient" } }
      | some recipient =>
        match db.findByAccountNumber recipient with
        | none =>
          { db := db, status := 404,
            body := { success := false, message := "Recipient not found" } }
        | some recipientUser =>
          commitTransaction (db.saveBalance recipientUser.id (addNumber recipientUser.balance a))
            user (subNumber user.balance a) "transfer" a (some recipientUser) := by
  have hAf : req.amount.filter (fun a => a != 0) = some a := by
    simp [hA, Option.filter, ha]
  have hTf : req.type.filter (fun t => t != "") = some "transfer" := by
    rw [hT]; decide
  unfold completeTransaction
  rw [hU, hTf, hAf]
  simp [hu]

/-! ## Claims C1 to C5: the content coefficient and the verdict -/

/-- C1: `calculateSimilarity` is not the token-set quotient of the
specification.  On the transcript `max max` and the answer `Max` the code
counts the common word once per occurrence in the transcript and returns
`2 / 1 = 2`, while `|T(a) ∩ T(b)| / |T(a) ∪ T(b)|` is `1`: a repeated word
changes the result. -/
theorem calculateSimilarity_repeated_word :
    calculateSimilarity toLowerCaseAscii "max max".toList "Max".toList = 2 ∧
    tokenSetCoefficient toLowerCaseAscii "max max".toList "Max".toList = 1 ∧
    calculateSimilarity toLowerCaseAscii "max".toList "Max".toList = 1 := by
  refine ⟨?_, ?_, ?_⟩
  · rw [calculateSimilarity_of_counts _ _ _ 2 1 (by decide) (by decide) (by decide) (by decide)]
    norm_num
  · have h1 : tokenSet toLowerCaseAscii "max max".toList = {"max".toList} := by decide
    have h2 : tokenSet toLowerCaseAscii "Max".toList = {"max".toList} := by decide
    unfold tokenSetCoefficient
    rw [h1, h2]
    simp
  · rw [calculateSimilarity_of_counts _ _ _ 1 1 (by decide) (by decide) (by decide) (by decide)]
    norm_num

/-- C2: for every submission that `verifyResponse` evaluates, the reply has
`success = true` exactly when the voice verdict `isMatch` is true and the
content coefficient is strictly greater than `0.7`; a coefficient of exactly
`0.7`, or a voice verdict that is false, gives `success = false`. -/
theorem verifyResponse_success_iff (lower : Str → Str) (db : Db) (req : VerifyRequest)
    (vr : VoiceResult) (stt : SttReply) (now : Nat) (user : User) (f : String)
    (hu : db.findUser req.userId = some user) (hf : req.field = some f)
    (hev : (verifyResponse lower db req vr stt now).evaluated = true) :
    ((verifyResponse lower db req vr stt now).body.success = true ↔
      vr.isMatch = true ∧
        calculateSimilarity lower (lower (trim (convertSpeechToText stt)))
          (lower (trim ((user.get f).getD []))) > 7 / 10) ∧
    (calculateSimilarity lower (lower (trim (convertSpeechToText stt)))
        (lower (trim ((user.get f).getD []))) = 7 / 10 →
      (verifyResponse lower db req vr stt now).body.success = false) ∧
    (vr.isMatch = false → (verifyResponse lower db req vr stt now).body.success = false) ∧
    (calculateSimilarity lower (lower (trim (convertSpeechToText stt)))
        (lower (trim ((user.get f).getD []))) ≤ 7 / 10 →
      (verifyResponse lower db req vr stt now).body.success = false) := by
  rw [verifyResponse_success lower db req vr stt now user f hu hf hev]
  refine ⟨by simp, ?_, ?_, ?_⟩
  · intro h
    simp [h]
  · intro h
    simp [h]
  · intro h
    simp [not_lt.mpr h]

/-- Witness of C2: the transcript `max` spoken in the matching voice for the
nickname `Max` on a fresh transaction is evaluated, and it is approved because
the voice matches and the coefficient `1` exceeds `0.7`. -/
theorem verifyResponse_success_iff_witness :
    (verifyResponse toLowerCaseAscii db0 reqNick goodAnswer.voiceResult goodAnswer.stt 0).evaluated
        = true ∧
    (verifyResponse toLowerCaseAscii db0 reqNick goodAnswer.voiceResult goodAnswer.stt
        0).body.success = true :=
  have hev : (verifyResponse toLowerCaseAscii db0 reqNick goodAnswer.voiceResult goodAnswer.stt
      0).evaluated = true :=
    verifyResponse_evaluated_of toLowerCaseAscii db0 reqNick goodAnswer.voiceResult goodAnswer.stt 0
      userMax "uploads/a.webm" "nickname" (by decide) (by decide) (by decide) (by decide)
      (by decide) (by decide) (by decide)
  ⟨hev, (verifyResponse_success_iff toLowerCaseAscii db0 reqNick goodAnswer.voiceResult
    goodAnswer.stt 0 userMax "nickname" (by decide) (by decide) hev).1.mpr
      ⟨by decide, by rw [goodAnswer_coefficient]; norm_num⟩⟩

/-- C3: `calculateSimilarity` is not symmetric.  With the repeated word on the
left the code returns `2`, with the arguments exchanged it returns `1`. -/
theorem calculateSimilarity_not_symmetric :
    calculateSimilarity toLowerCaseAscii "rex rex".toList "rex".toList = 2 ∧
    calculateSimilarity toLowerCaseAscii "rex".toList "rex rex".toList = 1 ∧
    calculateSimilarity toLowerCaseAscii "rex rex".toList "rex".toList ≠
      calculateSimilarity toLowerCaseAscii "rex".toList "rex rex".toList := by
  have h1 : calculateSimilarity toLowerCaseAscii "rex rex".toList "rex".toList = 2 := by
    rw [calculateSimilarity_of_counts _ _ _ 2 1 (by decide) (by decide) (by decide) (by decide)]
    norm_num
  have h2 : calculateSimilarity toLowerCaseAscii "rex".toList "rex rex".toList = 1 := by
    rw [calculateSimilarity_of_counts _ _ _ 1 1 (by decide) (by decide) (by decide) (by decide)]
    norm_num
  refine ⟨h1, h2, ?_⟩
  rw [h1, h2]
  norm_num

/-- C4: a transcript whose tokens are those of the answer up to letter case
does not always score `1`.  For the answer `Rex Rex`, in which a word occurs
twice, the transcript `rex rex` scores `2 / 1 = 2`. -/
theorem calculateSimilarity_equal_tokens_repeated :
    split (toLowerCaseAscii "rex rex".toList) = split (toLowerCaseAscii "Rex Rex".toList) ∧
    calculateSimilarity toLowerCaseAscii "rex rex".toList "Rex Rex".toList = 2 ∧
    calculateSimilarity toLowerCaseAscii "rex rex".toList "Rex Rex".toList ≠ 1 := by
  have h : calculateSimilarity toLowerCaseAscii "rex rex".toList "Rex Rex".toList = 2 := by
    rw [calculateSimilarity_of_counts _ _ _ 2 1 (by decide) (by decide) (by decide) (by decide)]
    norm_num
  refine ⟨by decide, h, ?_⟩
  rw [h]
  norm_num

/-- Where `calculateSimilarity` does return `0`: when either string is empty;
when no piece of the first string occurs among the pieces of the second; and
when the two strings share no token and the first string has no empty piece
(it has none when it is not empty and neither starts nor ends with white space,
see `nil_not_mem_split`).  And an evaluated submission whose trimmed transcript
or trimmed stored answer is empty has no content match, so it is not
approved. -/
theorem calculateSimilarity_zero :
    (∀ (lower : Str → Str) (a b : Str), a = [] ∨ b = [] → calculateSimilarity lower a b = 0) ∧
    (∀ (lower : Str → Str) (a b : Str), (∀ w ∈ split (lower a), w ∉ split (lower b)) →
      calculateSimilarity lower a b = 0) ∧
    (∀ (lower : Str → Str) (a b : Str), [] ∉ split (lower a) →
      Disjoint (tokenSet lower a) (tokenSet lower b) → calculateSimilarity lower a b = 0) ∧
    (∀ (lower : Str → Str) (db : Db) (req : VerifyRequest) (vr : VoiceResult) (stt : SttReply)
        (now : Nat) (user : User) (f : String),
      lower [] = [] → db.findUser req.userId = some user → req.field = some f →
      (verifyResponse lower db req vr stt now).evaluated = true →
      trim (convertSpeechToText stt) = [] ∨ trim ((user.get f).getD []) = [] →
      (verifyResponse lower db req vr stt now).body.contentMatch = some false ∧
      (verifyResponse lower db req vr stt now).body.success = false) := by
  refine ⟨calculateSimilarity_empty, calculateSimilarity_disjoint, ?_, ?_⟩
  · intro lower a b hnil hdisj
    apply calculateSimilarity_disjoint
    intro w hwa hwb
    have hw : w ≠ [] := fun h => hnil (h ▸ hwa)
    have hw' : (!w.isEmpty) = true := by cases w <;> simp_all
    have h1 : w ∈ tokenSet lower a := by
      simp only [tokenSet, List.mem_toFinset, List.mem_filter]
      exact ⟨hwa, hw'⟩
    have h2 : w ∈ tokenSet lower b := by
      simp only [tokenSet, List.mem_toFinset, List.mem_filter]
      exact ⟨hwb, hw'⟩
    exact Finset.disjoint_left.mp hdisj h1 h2
  intro lower db req vr stt now user f hlow hu hf hev hempty
  have h0 : calculateSimilarity lower (lower (trim (convertSpeechToText stt)))
      (lower (trim ((user.get f).getD []))) = 0 := by
    apply calculateSimilarity_empty
    rcases hempty with h | h
    · left; rw [h, hlow]
    · right; rw [h, hlow]
  have hs := verifyResponse_success lower db req vr stt now user f hu hf hev
  obtain ⟨user', c, a, hu', heq, -⟩ := verifyResponse_evaluated_inv lower db req vr stt now hev
  rw [hu] at hu'
  cases hu'
  rw [heq] at hev
  have hc := verifyWithAttempt_contentMatch lower db req user vr stt now c a f hf hev
  rw [← heq] at hc
  rw [hs, hc, h0]
  norm_num

/-- Examples of the coefficient `0`: an empty transcript scores `0`; `banana`
and `max`, and `red apple` and `green pear`, share no token and score `0`; and
when the speech-to-text service fails, the transcript is empty and the
submission in the matching voice is evaluated without a content match. -/
theorem calculateSimilarity_zero_witness :
    calculateSimilarity toLowerCaseAscii [] "max".toList = 0 ∧
    calculateSimilarity toLowerCaseAscii "banana".toList "max".toList = 0 ∧
    calculateSimilarity toLowerCaseAscii "red apple".toList "green pear".toList = 0 ∧
    (verifyResponse toLowerCaseAscii db0 reqNick goodAnswer.voiceResult SttReply.error 0).evaluated
      = true ∧
    (verifyResponse toLowerCaseAscii db0 reqNick goodAnswer.voiceResult SttReply.error
      0).body.contentMatch = some false ∧
    (verifyResponse toLowerCaseAscii db0 reqNick goodAnswer.voiceResult SttReply.error
      0).body.success = false :=
  have hev : (verifyResponse toLowerCaseAscii db0 reqNick goodAnswer.voiceResult SttReply.error
      0).evaluated = true :=
    verifyResponse_evaluated_of toLowerCaseAscii db0 reqNick goodAnswer.voiceResult SttReply.error 0
      userMax "uploads/a.webm" "nickname" (by decide) (by decide) (by decide) (by decide)
      (by decide) (by decide) (by decide)
  ⟨calculateSimilarity_zero.1 toLowerCaseAscii [] "max".toList (Or.inl rfl),
    calculateSimilarity_zero.2.1 toLowerCaseAscii "banana".toList "max".toList (by decide),
    calculateSimilarity_zero.2.2.1 toLowerCaseAscii "red apple".toList "green pear".toList
      (by decide) (by decide),
    hev,
    calculateSimilarity_zero.2.2.2 toLowerCaseAscii db0 reqNick goodAnswer.voiceResult
      SttReply.error 0 userMax "nickname" (by decide) (by decide) (by decide) hev
      (Or.inl (by decide))⟩

/-- C5: `calculateSimilarity` does not return `0` for every two strings that
share no token.  `split` gives a string that begins or ends with white space
an empty piece, and `calculateSimilarity` counts the empty piece as a word.
The strings ` a` and ` b` share no token, but the result is `1 / 3`, not `0`;
the string of one blank has no token, but against itself the result is `2`,
not `0`, because the test of line 39 for an array without words never holds.
Without the leading blank the result is `0`. -/
theorem calculateSimilarity_counts_empty_piece :
    split " a".toList = ["".toList, "a".toList] ∧
    tokenSet toLowerCaseAscii " a".toList = {"a".toList} ∧
    tokenSet toLowerCaseAscii " b".toList = {"b".toList} ∧
    Disjoint (tokenSet toLowerCaseAscii " a".toList) (tokenSet toLowerCaseAscii " b".toList) ∧
    calculateSimilarity toLowerCaseAscii " a".toList " b".toList = 1 / 3 ∧
    calculateSimilarity toLowerCaseAscii " a".toList " b".toList ≠ 0 ∧
    tokenSet toLowerCaseAscii " ".toList = ∅ ∧
    (split " ".toList).length = 2 ∧
    calculateSimilarity toLowerCaseAscii " ".toList " ".toList = 2 ∧
    calculateSimilarity toLowerCaseAscii "a".toList "b".toList = 0 := by
  have h1 : calculateSimilarity toLowerCaseAscii " a".toList " b".toList = 1 / 3 := by
    rw [calculateSimilarity_of_counts _ _ _ 1 3 (by decide) (by decide) (by decide) (by decide)]
    norm_num
  have h2 : calculateSimilarity toLowerCaseAscii " ".toList " ".toList = 2 := by
    rw [calculateSimilarity_of_counts _ _ _ 2 1 (by decide) (by decide) (by decide) (by decide)]
    norm_num
  have h3 : calculateSimilarity toLowerCaseAscii "a".toList "b".toList = 0 := by
    rw [calculateSimilarity_of_counts _ _ _ 0 2 (by decide) (by decide) (by decide) (by decide)]
    norm_num
  refine ⟨by decide, by decide, by decide, by decide, h1, ?_, by decide, by decide, h2, h3⟩
  rw [h1]
  norm_num

/-! ## Claims C6 to C10: the attempt ledger -/

/-- C6: on a transaction whose stored attempt count starts at 0, nine
submissions in a voice that does not match are evaluated and report the
attempt numbers 1 to 9, but the tenth submission, in the matching voice with
the right answer, is not evaluated: it is answered `success = false` with
`attemptsLeft = 0` and no attempt number, no collaborator is called, and the
stored count stays 9. -/
theorem tenth_submission_not_evaluated :
    (submitAll toLowerCaseAscii db0 (List.replicate 9 wrongVoice ++ [goodAnswer])).2.map
        (fun o => (o.evaluated, o.body.currentAttempt)) =
      [(true, some 1), (true, some 2), (true, some 3), (true, some 4), (true, some 5),
       (true, some 6), (true, some 7), (true, some 8), (true, some 9), (false, none)] ∧
    ((submitAll toLowerCaseAscii db0 (List.replicate 9 wrongVoice ++ [goodAnswer])).1.findTransaction
        7).map storedAttempts = some 9 ∧
    verifyResponse toLowerCaseAscii (dbAt 9) goodAnswer.req goodAnswer.voiceResult goodAnswer.stt 0 =
      { db := dbAt 9, status := 200,
        body := { success := false, message := "Maximum attempts reached. Transaction denied.",
                  attemptsLeft := some 0 },
        calledVerifyVoice := false, calledStt := false, audioDeleted := false } := by
  refine ⟨by decide, by decide, by decide⟩

/-- C7: after ten failed submissions on a transaction whose stored attempt
count starts at 0, the stored `status` is still `pending`, not `denied`: the
tenth submission is answered by the guard of line 186, whose reply has no
`isDenied`, leaves the stored count at 9 and writes neither status. -/
theorem ten_failures_not_denied :
    ((submitAll toLowerCaseAscii db0 (List.replicate 10 wrongVoice)).1.findTransaction 7).map
        (fun t => (t.status, storedAttempts t,
          t.verificationResult.bind (fun r => r.voiceVerificationStatus))) =
      some ("pending", 9, none) ∧
    (submitAll toLowerCaseAscii db0 (List.replicate 10 wrongVoice)).2.map
        (fun o => (o.body.attemptsLeft, o.body.isDenied)) =
      [(some 9, some false), (some 8, some false), (some 7, some false), (some 6, some false),
       (some 5, some false), (some 4, some false), (some 3, some false), (some 2, some false),
       (some 1, some false), (some 0, none)] ∧
    (verifyResponse toLowerCaseAscii (dbAt 9) wrongVoice.req wrongVoice.voiceResult wrongVoice.stt
        0).db = dbAt 9 := by
  refine ⟨by decide, by decide, by decide⟩

/-- C8, as the code has it: for every evaluated submission on an existing
transaction that is handled without another call in between, the reported
attempt number is the stored attempt count plus one and the count stored
afterwards is that number, whatever the verdict; and no submission, evaluated
or not, and no sequence of submissions handled one after the other lowers the
stored count of any transaction. -/
theorem attempt_count_increments (lower : Str → Str) (db : Db) :
    (∀ (req : VerifyRequest) (vr : VoiceResult) (stt : SttReply) (now id : Nat) (t : Transaction),
      req.transactionId = some id → db.findTransaction id = some t →
      (verifyResponse lower db req vr stt now).evaluated = true →
      (verifyResponse lower db req vr stt now).body.currentAttempt = some (storedAttempts t + 1) ∧
      ((verifyResponse lower db req vr stt now).db.findTransaction id).map storedAttempts =
        some (storedAttempts t + 1)) ∧
    (∀ (subs : List Submission) (id : Nat) (t : Transaction), db.findTransaction id = some t →
      ∃ t', (submitAll lower db subs).1.findTransaction id = some t' ∧
        storedAttempts t ≤ storedAttempts t') := by
  constructor
  · intro req vr stt now id t hid ht hev
    exact verifyResponse_stores_attempt lower db req vr stt now id t hid ht hev
  · intro subs
    induction subs generalizing db with
    | nil => intro id t ht; exact ⟨t, ht, le_refl _⟩
    | cons s rest ih =>
      intro id t ht
      simp only [submitAll]
      obtain ⟨g, c, hg, hc, -, hdb⟩ := verifyResponse_db lower db s.req s.voiceResult s.stt s.now
      have hstep : ∃ t1, (verifyResponse lower db s.req s.voiceResult s.stt s.now).db.findTransaction
          id = some t1 ∧ storedAttempts t ≤ storedAttempts t1 := by
        rw [hdb]
        by_cases hev : (verifyResponse lower db s.req s.voiceResult s.stt s.now).evaluated = true
        · rw [if_pos hev]
          cases hid : s.req.transactionId with
          | none => exact ⟨t, ht, le_refl _⟩
          | some id' =>
            simp only []
            rw [findTransaction_findByIdAndUpdate db id' id g (fun t => (hg t).1), ht]
            by_cases heq : (t.id == id') = true
            · have h1 : t.id = id' := by simpa using heq
              refine ⟨g t, by simp [h1], ?_⟩
              have h2 : t.id = id := findTransaction_id db id t ht
              have hbind : s.req.transactionId.bind db.findTransaction = some t := by
                rw [hid]; simp only [Option.bind]; rw [← h1, h2]; exact ht
              rw [(hg t).2.2, hc t hbind hev]
              omega
            · have h1 : ¬ t.id = id' := by simpa using heq
              exact ⟨t, by simp [h1], le_refl _⟩
        · rw [if_neg hev]
          exact ⟨t, ht, le_refl _⟩
      obtain ⟨t1, ht1, hle1⟩ := hstep
      obtain ⟨t2, ht2, hle2⟩ := ih _ id t1 ht1
      exact ⟨t2, ht2, le_trans hle1 hle2⟩

/-- Witness of C8 as amended: the fourth attempt on a transaction with three
attempts stored, in a voice that does not match, is evaluated, reports attempt
4 and stores 4. -/
theorem attempt_count_increments_witness :
    (verifyResponse toLowerCaseAscii (dbAt 3) reqNick wrongVoice.voiceResult wrongVoice.stt
        0).evaluated = true ∧
    (verifyResponse toLowerCaseAscii (dbAt 3) reqNick wrongVoice.voiceResult wrongVoice.stt
        0).body.currentAttempt = some 4 ∧
    ((verifyResponse toLowerCaseAscii (dbAt 3) reqNick wrongVoice.voiceResult wrongVoice.stt
        0).db.findTransaction 7).map storedAttempts = some 4 :=
  ⟨by decide,
    (attempt_count_increments toLowerCaseAscii (dbAt 3)).1 reqNick wrongVoice.voiceResult
      wrongVoice.stt 0 7
      { id := 7, status := "pending", verificationResult := some { verificationAttempts := some 3 } }
      (by decide) (by decide) (by decide)⟩

/-- C8 fails on the code when calls overlap: a call reads the stored count 0 of
the fresh transaction, two other calls are handled and leave the count 2, and
then the first call goes on.  It is evaluated, reports the attempt number 1,
which is not the count stored before it plus one, and writes 1, so the stored
count decreases from 2 to 1. -/
theorem stale_attempt_counterexample :
    ((submitAll toLowerCaseAscii db0 [wrongVoice, wrongVoice]).1.findTransaction 7).map
      storedAttempts = some 2 ∧
    (resumeAttempt toLowerCaseAscii (submitAll toLowerCaseAscii db0 [wrongVoice, wrongVoice]).1
      wrongVoice (trackAttempt db0 wrongVoice.req)).evaluated = true ∧
    (resumeAttempt toLowerCaseAscii (submitAll toLowerCaseAscii db0 [wrongVoice, wrongVoice]).1
      wrongVoice (trackAttempt db0 wrongVoice.req)).body.currentAttempt = some 1 ∧
    ((resumeAttempt toLowerCaseAscii (submitAll toLowerCaseAscii db0 [wrongVoice, wrongVoice]).1
      wrongVoice (trackAttempt db0 wrongVoice.req)).db.findTransaction 7).map storedAttempts =
      some 1 := by
  refine ⟨by decide, by decide, by decide, by decide⟩

/-- C9, as the code has it: a submission during which the voice-match service
fails is not counted.  Every such submission leaves the stored documents as
they were, is not evaluated, is answered `success = false`, with HTTP status
400 when the service was called; so the attempt count and the status of a
transaction whose every submission hits a voice-service failure never
change. -/
theorem voice_failure_not_counted (lower : Str → Str) (db : Db) (subs : List Submission)
    (h : ∀ s ∈ subs, s.voiceResult.success = false) :
    (submitAll lower db subs).1 = db ∧
    ∀ o ∈ (submitAll lower db subs).2,
      o.db = db ∧ o.evaluated = false ∧ o.body.success = false ∧
      (o.calledVerifyVoice = true → o.status = 400) := by
  induction subs with
  | nil => exact ⟨rfl, fun o ho => by simp [submitAll] at ho⟩
  | cons s rest ih =>
    have hs := h s (List.mem_cons_self _ _)
    have hrest := ih (fun x hx => h x (List.mem_cons_of_mem _ hx))
    have hv := verifyResponse_voice_failure lower db s.req s.voiceResult s.stt s.now hs
    simp only [submitAll]
    rw [hv.1]
    refine ⟨hrest.1, ?_⟩
    intro o ho
    rcases List.mem_cons.mp ho with ho | ho
    · rw [ho]; exact hv
    · exact hrest.2 o ho

/-- Witness of C9 as amended: ten submissions during which the voice-match
service is down leave the fresh transaction as it was. -/
theorem voice_failure_not_counted_witness :
    (∀ s ∈ List.replicate 10 voiceDown, s.voiceResult.success = false) ∧
    (submitAll toLowerCaseAscii db0 (List.replicate 10 voiceDown)).1 = db0 :=
  ⟨by decide,
    (voice_failure_not_counted toLowerCaseAscii db0 (List.replicate 10 voiceDown) (by decide)).1⟩

/-- C9 fails on the code: the voice-match service is called and fails, the
reply is an HTTP 400 error that announces nine attempts left, and the stored
attempt count of the transaction is still 0, not 1; after ten such submissions
it is still 0 and the transaction is not denied. -/
theorem voice_failure_counted_counterexample :
    voiceDown.voiceResult.success = false ∧
    (verifyResponse toLowerCaseAscii db0 voiceDown.req voiceDown.voiceResult voiceDown.stt
      0).calledVerifyVoice = true ∧
    (verifyResponse toLowerCaseAscii db0 voiceDown.req voiceDown.voiceResult voiceDown.stt
      0).status = 400 ∧
    (verifyResponse toLowerCaseAscii db0 voiceDown.req voiceDown.voiceResult voiceDown.stt
      0).body.attemptsLeft = some 9 ∧
    (db0.findTransaction 7).map storedAttempts = some 0 ∧
    ((verifyResponse toLowerCaseAscii db0 voiceDown.req voiceDown.voiceResult voiceDown.stt
      0).db.findTransaction 7).map storedAttempts = some 0 ∧
    ((submitAll toLowerCaseAscii db0 (List.replicate 10 voiceDown)).1.findTransaction 7).map
      (fun t => (t.status, storedAttempts t)) = some ("pending", 0) ∧
    (submitAll toLowerCaseAscii db0 (List.replicate 10 voiceDown)).2.map
      (fun o => o.body.isDenied) = List.replicate 10 none := by
  refine ⟨by decide, by decide, by decide, by decide, by decide, by decide, by decide, by decide⟩

/-- C10, as the code has it: `verifyResponse` reads of a stored transaction
only its identifier and its stored attempt count.  Two stores with the same
users whose transactions agree on these two, whatever their `status` and
verification status, get the same reply to the same submission, the same
collaborators are called, and the attempt counts stored afterwards agree
again. -/
theorem verifyResponse_ignores_status (lower : Str → Str) (db db' : Db) (req : VerifyRequest)
    (vr : VoiceResult) (stt : SttReply) (now : Nat)
    (hu : db.users = db'.users) (hl : ledger db = ledger db') :
    (verifyResponse lower db req vr stt now).status =
      (verifyResponse lower db' req vr stt now).status ∧
    (verifyResponse lower db req vr stt now).body =
      (verifyResponse lower db' req vr stt now).body ∧
    (verifyResponse lower db req vr stt now).evaluated =
      (verifyResponse lower db' req vr stt now).evaluated ∧
    (verifyResponse lower db req vr stt now).calledVerifyVoice =
      (verifyResponse lower db' req vr stt now).calledVerifyVoice ∧
    ledger (verifyResponse lower db req vr stt now).db =
      ledger (verifyResponse lower db' req vr stt now).db :=
  verifyResponse_reads_ledger lower db db' req vr stt now hu hl

/-- Witness of C10 as amended: the approved transaction and a pending
transaction with the same stored attempt count get the same reply to the same
submission. -/
theorem verifyResponse_ignores_status_witness :
    dbApproved.users = (dbAt 1).users ∧ ledger dbApproved = ledger (dbAt 1) ∧
    (verifyResponse toLowerCaseAscii dbApproved reqNick goodAnswer.voiceResult goodAnswer.stt
        0).body =
      (verifyResponse toLowerCaseAscii (dbAt 1) reqNick goodAnswer.voiceResult goodAnswer.stt
        0).body :=
  ⟨by decide, by decide,
    (verifyResponse_ignores_status toLowerCaseAscii dbApproved (dbAt 1) reqNick
      goodAnswer.voiceResult goodAnswer.stt 0 (by decide) (by decide)).2.1⟩

/-- C10 fails on the code.  A further submission for the transaction whose
verification is already approved is evaluated and raises its stored attempt
count from 1 to 2; a further submission for the transaction whose status is
`denied`, in the matching voice with the right answer, is evaluated, approved
and raises the stored count from 4 to 5. -/
theorem terminal_state_counterexample :
    (dbApproved.findTransaction 7).map
        (fun t => (t.verificationResult.bind (fun r => r.voiceVerificationStatus),
          storedAttempts t)) = some (some "passed", 1) ∧
    (verifyResponse toLowerCaseAscii dbApproved wrongVoice.req wrongVoice.voiceResult wrongVoice.stt
      0).evaluated = true ∧
    ((verifyResponse toLowerCaseAscii dbApproved wrongVoice.req wrongVoice.voiceResult
      wrongVoice.stt 0).db.findTransaction 7).map storedAttempts = some 2 ∧
    (dbDenied.findTransaction 7).map (fun t => (t.status, storedAttempts t)) =
      some ("denied", 4) ∧
    (verifyResponse toLowerCaseAscii dbDenied goodAnswer.req goodAnswer.voiceResult goodAnswer.stt
      0).evaluated = true ∧
    (verifyResponse toLowerCaseAscii dbDenied goodAnswer.req goodAnswer.voiceResult goodAnswer.stt
      0).body.success = true ∧
    ((verifyResponse toLowerCaseAscii dbDenied goodAnswer.req goodAnswer.voiceResult
      goodAnswer.stt 0).db.findTransaction 7).map storedAttempts = some 5 := by
  have hev : (verifyResponse toLowerCaseAscii dbDenied goodAnswer.req goodAnswer.voiceResult
      goodAnswer.stt 0).evaluated = true :=
    verifyResponse_evaluated_of toLowerCaseAscii dbDenied goodAnswer.req goodAnswer.voiceResult
      goodAnswer.stt 0 userMax "uploads/a.webm" "nickname" (by decide) (by decide) (by decide)
      (by decide) (by decide) (by decide) (by decide)
  refine ⟨by decide, by decide, by decide, by decide, hev, ?_, ?_⟩
  · rw [verifyResponse_success toLowerCaseAscii dbDenied goodAnswer.req goodAnswer.voiceResult
      goodAnswer.stt 0 userMax "nickname" (by decide) (by decide) hev, goodAnswer_coefficient]
    norm_num [goodAnswer]
  · exact (verifyResponse_stores_attempt toLowerCaseAscii dbDenied goodAnswer.req
      goodAnswer.voiceResult goodAnswer.stt 0 7
      { id := 7, status := "denied",
        verificationResult :=
          some { verificationAttempts := some 4, voiceVerificationStatus := some "failed" } }
      (by decide) (by decide) hev).2

/-! ## Claims C11 to C20: completion, challenge selection and error paths -/

/-- C11: `completeTransaction` applies the financial effect without any voice
verification.  A deposit of 100 is completed for the user whose only
transaction was denied, and for the user for whom no verification was ever
started: the reply is a success, the balance goes from 500 to 600 and a record
with status `completed` is created, while the denied transaction stays
denied. -/
theorem completeTransaction_without_verification :
    (dbBankDenied.findTransaction 7).map (fun t => t.status) = some "denied" ∧
    (completeTransaction dbBankDenied depositRequest).status = 200 ∧
    (completeTransaction dbBankDenied depositRequest).body.success = true ∧
    (completeTransaction dbBankDenied depositRequest).body.newBalance = some 600 ∧
    ((completeTransaction dbBankDenied depositRequest).db.findUser 1).map (fun u => u.balance) =
      some 600 ∧
    (completeTransaction dbBankDenied depositRequest).db.transactions.map
      (fun t => (t.id, t.status)) = [(7, "denied"), (8, "completed")] ∧
    (completeTransaction dbBankEmpty depositRequest).body.success = true ∧
    ((completeTransaction dbBankEmpty depositRequest).db.findUser 1).map (fun u => u.balance) =
      some 600 ∧
    (completeTransaction dbBankEmpty depositRequest).db.transactions.map
      (fun t => (t.id, t.status)) = [(1, "completed")] := by
  have hb : addNumber (500 : ℚ) 100 = 600 := by
    have h := addNumber_intCast 500 100 (by norm_num)
    norm_num at h
    exact h
  have hne : ¬ ((600 : ℚ) = 500) := by norm_num
  refine ⟨by decide, ?_, ?_, ?_, ?_, ?_, ?_, ?_, ?_⟩ <;>
    simp [completeTransaction, commitTransaction, dbBankDenied, dbBankEmpty, depositRequest,
      alice, Db.findUser, Db.saveBalance, Db.create, Db.freshId, Option.filter, hb, hne]

/-- C12, as the code has it: the expected answer that the transcript is
compared with is the user's stored value for the field named in the request,
which can be any property of the user document, a knowledge field or, for
example, `name` or `accountNumber`.  For every evaluated submission the
reported coefficient is the one of the transcript against that value, and the
field bound to the transaction is not read: binding the transactions to any
other field leaves the reply as it is. -/
theorem expected_answer_from_request (lower : Str → Str) (db : Db) (req : VerifyRequest)
    (vr : VoiceResult) (stt : SttReply) (now : Nat) (user : User) (f : String)
    (hu : db.findUser req.userId = some user) (hf : req.field = some f)
    (hev : (verifyResponse lower db req vr stt now).evaluated = true) :
    (verifyResponse lower db req vr stt now).body.textSimilarity =
      some (calculateSimilarity lower (lower (trim (convertSpeechToText stt)))
        (lower (trim ((user.get f).getD [])))) ∧
    (verifyResponse lower db req vr stt now).body.contentMatch =
      some (decide (calculateSimilarity lower (lower (trim (convertSpeechToText stt)))
        (lower (trim ((user.get f).getD []))) > 7 / 10)) ∧
    (∀ bound : Option String,
      (verifyResponse lower (rebind db bound) req vr stt now).body =
        (verifyResponse lower db req vr stt now).body) ∧
    (f = "name" → user.get f = some user.name.toList) ∧
    (f = "accountNumber" → user.get f = some user.accountNumber.toList) ∧
    (f ∈ securityFields.map (fun q => q.field) →
      user.get f = (user.fields.find? (fun kv => kv.1 == f)).map (fun kv => kv.2)) := by
  refine ⟨(verifyResponse_textSimilarity lower db req vr stt now user f hu hf hev).1,
    verifyResponse_contentMatch lower db req vr stt now user f hu hf hev, ?_, ?_, ?_, ?_⟩
  · intro bound
    exact (verifyResponse_reads_ledger lower (rebind db bound) db req vr stt now
      (rebind_users_ledger db bound).1 (rebind_users_ledger db bound).2).2.1
  · intro h
    simp [User.get, h]
  · intro h
    simp [User.get, h]
  · intro h
    simp only [securityFields, List.map_cons, List.map_nil, List.mem_cons, List.mem_singleton,
      List.not_mem_nil, or_false] at h
    rcases h with h | h | h | h | h | h | h | h <;> simp [User.get, h]

/-- Witness of C12 as amended: on the transaction bound to the nickname
question, the request that names the pet-name question has the transcript `rex`
compared with the pet name `rex rex`: the coefficient is 1.  And the request
that names the property `name` has the transcript `alice` compared with the
name `Alice` of the user: the coefficient is 1. -/
theorem expected_answer_from_request_witness :
    (verifyResponse toLowerCaseAscii dbBound reqPet petAnswer.voiceResult petAnswer.stt
      0).evaluated = true ∧
    (verifyResponse toLowerCaseAscii dbBound reqPet petAnswer.voiceResult petAnswer.stt
      0).body.textSimilarity = some 1 ∧
    alice.get "name" = some "Alice".toList ∧
    (verifyResponse toLowerCaseAscii dbBank reqName nameAnswer.voiceResult nameAnswer.stt
      0).evaluated = true ∧
    (verifyResponse toLowerCaseAscii dbBank reqName nameAnswer.voiceResult nameAnswer.stt
      0).body.textSimilarity = some 1 :=
  have hev : (verifyResponse toLowerCaseAscii dbBound reqPet petAnswer.voiceResult petAnswer.stt
      0).evaluated = true :=
    verifyResponse_evaluated_of toLowerCaseAscii dbBound reqPet petAnswer.voiceResult petAnswer.stt
      0 userMax "uploads/a.webm" "petName" (by decide) (by decide) (by decide) (by decide)
      (by decide) (by decide) (by decide)
  have hev' : (verifyResponse toLowerCaseAscii dbBank reqName nameAnswer.voiceResult
      nameAnswer.stt 0).evaluated = true :=
    verifyResponse_evaluated_of toLowerCaseAscii dbBank reqName nameAnswer.voiceResult
      nameAnswer.stt 0 alice "uploads/a.webm" "name" (by decide) rfl (by decide) (by decide)
      (by decide) (by decide) (by decide)
  have h := expected_answer_from_request toLowerCaseAscii dbBank reqName nameAnswer.voiceResult
    nameAnswer.stt 0 alice "name" rfl (by decide) hev'
  ⟨hev, by
    rw [(expected_answer_from_request toLowerCaseAscii dbBound reqPet petAnswer.voiceResult
      petAnswer.stt 0 userMax "petName" (by decide) (by decide) hev).1, petAnswer_coefficient],
    h.2.2.2.1 rfl, hev', by rw [h.1, nameAnswer_coefficient]⟩

/-- C12 fails on the code.  Transaction 7 is bound to the nickname question,
whose stored answer is `Max`.  The submission with the transcript `rex` that
names the pet-name question is compared with the pet name and approved
(coefficient 1); the same submission naming the nickname question is compared
with the nickname and fails (coefficient 0).  The field supplied in the
request decides which profile value is compared. -/
theorem bound_field_counterexample :
    (dbBound.findTransaction 7).bind (fun t => t.lastVerificationField) = some "nickname" ∧
    (verifyResponse toLowerCaseAscii dbBound reqPet petAnswer.voiceResult petAnswer.stt
      0).body.textSimilarity = some 1 ∧
    (verifyResponse toLowerCaseAscii dbBound reqPet petAnswer.voiceResult petAnswer.stt
      0).body.success = true ∧
    (verifyResponse toLowerCaseAscii dbBound reqNick petAnswer.voiceResult petAnswer.stt
      0).body.textSimilarity = some 0 ∧
    (verifyResponse toLowerCaseAscii dbBound reqNick petAnswer.voiceResult petAnswer.stt
      0).body.success = false := by
  have hev1 : (verifyResponse toLowerCaseAscii dbBound reqPet petAnswer.voiceResult petAnswer.stt
      0).evaluated = true :=
    verifyResponse_evaluated_of toLowerCaseAscii dbBound reqPet petAnswer.voiceResult petAnswer.stt
      0 userMax "uploads/a.webm" "petName" (by decide) (by decide) (by decide) (by decide)
      (by decide) (by decide) (by decide)
  have hev2 : (verifyResponse toLowerCaseAscii dbBound reqNick petAnswer.voiceResult petAnswer.stt
      0).evaluated = true :=
    verifyResponse_evaluated_of toLowerCaseAscii dbBound reqNick petAnswer.voiceResult petAnswer.stt
      0 userMax "uploads/a.webm" "nickname" (by decide) (by decide) (by decide) (by decide)
      (by decide) (by decide) (by decide)
  refine ⟨by decide, ?_, ?_, ?_, ?_⟩
  · rw [(verifyResponse_textSimilarity toLowerCaseAscii dbBound reqPet petAnswer.voiceResult
      petAnswer.stt 0 userMax "petName" (by decide) (by decide) hev1).1, petAnswer_coefficient]
  · rw [verifyResponse_success toLowerCaseAscii dbBound reqPet petAnswer.voiceResult
      petAnswer.stt 0 userMax "petName" (by decide) (by decide) hev1, petAnswer_coefficient]
    norm_num [petAnswer]
  · rw [(verifyResponse_textSimilarity toLowerCaseAscii dbBound reqNick petAnswer.voiceResult
      petAnswer.stt 0 userMax "nickname" (by decide) (by decide) hev2).1,
      petAnswer_nickname_coefficient]
  · rw [verifyResponse_success toLowerCaseAscii dbBound reqNick petAnswer.voiceResult
      petAnswer.stt 0 userMax "nickname" (by decide) (by decide) hev2,
      petAnswer_nickname_coefficient]
    norm_num [petAnswer]

/-- C13: for every user with a voice profile and every draw `r` in `[0, 1)`:
if one of the 8 catalog fields has a non-blank value on the profile,
`generateSecurityQuestion` answers with a catalog entry, its field and its own
prompt, and that field has a non-blank value on the profile; if no catalog
field has one, it answers with status 400, sends no question and leaves the
stored documents as they are. -/
theorem generateSecurityQuestion_selects (db : Db) (req : QuestionRequest) (r : ℚ) (user : User)
    (hu : db.findUser req.userId = some user)
    (hv : (user.voiceEmbedding.isNone || (user.voiceEmbedding.getD []).length == 0) = false)
    (hr0 : 0 ≤ r) (hr1 : r < 1) :
    securityFields.length = 8 ∧
    ((∃ item ∈ securityFields, ∃ value, user.get item.field = some value ∧ trim value ≠ []) →
      ∃ item ∈ securityFields, (∃ value, user.get item.field = some value ∧ trim value ≠ []) ∧
        (generateSecurityQuestion db req r).status = 200 ∧
        (generateSecurityQuestion db req r).body.success = true ∧
        (generateSecurityQuestion db req r).body.field = some item.field ∧
        (generateSecurityQuestion db req r).body.question = some item.question) ∧
    ((∀ item ∈ securityFields, ∀ value, user.get item.field = some value → trim value = []) →
      (generateSecurityQuestion db req r).status = 400 ∧
      (generateSecurityQuestion db req r).body.success = false ∧
      (generateSecurityQuestion db req r).body.question = none ∧
      (generateSecurityQuestion db req r).body.field = none ∧
      (generateSecurityQuestion db req r).db = db) := by
  refine ⟨rfl, ?_, ?_⟩
  · rintro ⟨item0, hmem0, hval0⟩
    have hne : availableFields user ≠ [] := by
      intro h
      have : item0 ∈ availableFields user := by
        simp only [availableFields, List.mem_filter]
        exact ⟨hmem0, (hasValue_iff user item0).mpr hval0⟩
      rw [h] at this
      cases this
    have hlen : 0 < (availableFields user).length := List.length_pos.mpr hne
    have hlen' : ((availableFields user).length == 0) = false := by
      simp only [beq_eq_false_iff_ne, ne_eq]
      omega
    obtain ⟨h0, h1⟩ := floor_index_lt r (availableFields user).length hr0 hr1 hlen
    obtain ⟨item, hitem⟩ : ∃ item, (availableFields user).get?
        ⌊r * ((availableFields user).length : ℚ)⌋.toNat = some item := by
      cases hg : (availableFields user).get? ⌊r * ((availableFields user).length : ℚ)⌋.toNat with
      | none => rw [List.get?_eq_none] at hg; omega
      | some item => exact ⟨item, rfl⟩
    have hmem : item ∈ availableFields user := List.get?_mem hitem
    simp only [availableFields, List.mem_filter] at hmem
    refine ⟨item, hmem.1, (hasValue_iff user item).mp hmem.2, ?_⟩
    simp only [generateSecurityQuestion, hu, hv, hlen', h0, hitem, if_true, if_false,
      Bool.false_eq_true]
    exact ⟨trivial, trivial, trivial, trivial⟩
  · intro hnone
    have hnil : availableFields user = [] := by
      simp only [availableFields, List.filter_eq_nil_iff]
      intro item hmem hval
      obtain ⟨value, hget, hne⟩ := (hasValue_iff user item).mp hval
      exact hne (hnone item hmem value hget)
    simp [generateSecurityQuestion, hu, hv, hnil]

/-- Witness of C13: for the user with the nickname `Max` and the pet name
`rex rex` and the draw `1 / 2`, a catalog entry of one of his non-blank fields
is sent with its prompt. -/
theorem generateSecurityQuestion_selects_witness :
    ∃ item ∈ securityFields, (∃ value, userMax.get item.field = some value ∧ trim value ≠ []) ∧
      (generateSecurityQuestion db0 reqQuestion (1 / 2)).status = 200 ∧
      (generateSecurityQuestion db0 reqQuestion (1 / 2)).body.success = true ∧
      (generateSecurityQuestion db0 reqQuestion (1 / 2)).body.field = some item.field ∧
      (generateSecurityQuestion db0 reqQuestion (1 / 2)).body.question = some item.question :=
  (generateSecurityQuestion_selects db0 reqQuestion (1 / 2) userMax (by decide) (by decide)
    (by norm_num) (by norm_num)).2.1
    ⟨{ field := "nickname", question := "What is your nickname?" }, by decide,
      "Max".toList, by decide, by decide⟩

/-- C14, as the code has it: selecting a challenge changes, of the stored
documents, only the transaction named in the request, and of that transaction
only the bound field `lastVerificationField`, which becomes the field sent in
the reply, and the top-level property `verificationAttempts`, which is set to
0.  Every other property, among them `status` and the sub-document
`verificationResult` with the attempt count that `verifyResponse` reads, is
left as it is, and a request that is answered with an error changes nothing. -/
theorem generateSecurityQuestion_frame (db : Db) (req : QuestionRequest) (r : ℚ) :
    (generateSecurityQuestion db req r).db.users = db.users ∧
    (generateSecurityQuestion db req r).db.transactions.map unbound =
      db.transactions.map unbound ∧
    ((generateSecurityQuestion db req r).body.success = false →
      (generateSecurityQuestion db req r).db = db) ∧
    (∀ id, req.transactionId ≠ some id →
      (generateSecurityQuestion db req r).db.findTransaction id = db.findTransaction id) ∧
    (∀ id t, req.transactionId = some id → db.findTransaction id = some t →
      (generateSecurityQuestion db req r).body.success = true →
      (generateSecurityQuestion db req r).db.findTransaction id =
        some { t with lastVerificationField := (generateSecurityQuestion db req r).body.field,
                      verificationAttempts := some 0 }) := by
  unfold generateSecurityQuestion
  cases hu : db.findUser req.userId with
  | none => simp
  | some user =>
    simp only []
    split
    · simp
    · split
      · simp
      · split
        · simp
        · next item hitem =>
          cases hid : req.transactionId with
          | none => simp
          | some id0 =>
            simp only []
            have hkeep : ∀ t : Transaction,
                ({ t with lastVerificationField := some item.field,
                          verificationAttempts := some 0 } : Transaction).id = t.id :=
              fun _ => rfl
            refine ⟨rfl, ?_, ?_, ?_, ?_⟩
            · simp only [Db.findByIdAndUpdate, List.map_map]
              apply List.map_congr_left
              intro t _
              simp only [Function.comp]
              split <;> rfl
            · intro h; cases h
            · intro id hne
              rw [findTransaction_findByIdAndUpdate db id0 id _ hkeep]
              cases hf : db.findTransaction id with
              | none => rfl
              | some t =>
                have hidt := findTransaction_id db id t hf
                have : ¬ t.id = id0 := by
                  intro h
                  exact hne (by rw [← h, hidt])
                simp [this]
            · intro id t hsome hf _
              have hid' : id = id0 := (Option.some.inj hsome).symm
              rw [hid'] at hf ⊢
              rw [findTransaction_findByIdAndUpdate db id0 id0 _ hkeep, hf]
              have hidt := findTransaction_id db id0 t hf
              simp [hidt]

/-- Witness of C14 as amended: after a question is selected for the bound
transaction with five attempts stored, the stored attempt count that
`verifyResponse` reads is still five. -/
theorem generateSecurityQuestion_frame_witness :
    (generateSecurityQuestion dbBound reqQuestion 0).db.transactions.map unbound =
      dbBound.transactions.map unbound ∧
    ((generateSecurityQuestion dbBound reqQuestion 0).db.transactions.map unbound).map
      storedAttempts = [5] :=
  ⟨(generateSecurityQuestion_frame dbBound reqQuestion 0).2.1,
    by rw [(generateSecurityQuestion_frame dbBound reqQuestion 0).2.1]; decide⟩

/-- C14 fails on the code: selecting a challenge for the fresh transaction
changes, besides the bound field, its top-level property
`verificationAttempts`, which goes from absent to 0. -/
theorem generateSecurityQuestion_counter_counterexample :
    (db0.findTransaction 7).map (fun t => (t.lastVerificationField, t.verificationAttempts)) =
      some (none, none) ∧
    (generateSecurityQuestion db0 reqQuestion 0).body.success = true ∧
    ((generateSecurityQuestion db0 reqQuestion 0).db.findTransaction 7).map
      (fun t => (t.lastVerificationField, t.verificationAttempts)) =
      some (some "nickname", some 0) := by
  refine ⟨by decide, ?_, ?_⟩ <;>
    simp [generateSecurityQuestion, db0, reqQuestion, userMax, Db.findUser, availableFields,
      securityFields, hasValue, User.get, trim, isWhiteSpace, Db.findByIdAndUpdate,
      Db.findTransaction]

/-- C15: for every submission on an existing transaction, the value of
`attemptsLeft` in the reply, when the reply has one, is `max(0, 10 - n)` where
`n` is the stored attempt count plus one; it is not negative and at most 9. -/
theorem attemptsLeft_reported (lower : Str → Str) (db : Db) (req : VerifyRequest)
    (vr : VoiceResult) (stt : SttReply) (now id : Nat) (t : Transaction) (x : Int)
    (hid : req.transactionId = some id) (ht : db.findTransaction id = some t)
    (hx : (verifyResponse lower db req vr stt now).body.attemptsLeft = some x) :
    x = max 0 (10 - ((storedAttempts t + 1 : Nat) : Int)) ∧ 0 ≤ x ∧ x ≤ 9 := by
  have hbind : req.transactionId.bind db.findTransaction = some t := by
    rw [hid]; exact ht
  have hgoal : ∀ y : Int, (y = 0 ∧ 10 ≤ storedAttempts t + 1) ∨
      (y = 10 - ((storedAttempts t + 1 : Nat) : Int) ∧ storedAttempts t + 1 ≤ 10) →
      y = max 0 (10 - ((storedAttempts t + 1 : Nat) : Int)) ∧ 0 ≤ y ∧ y ≤ 9 := by
    intro y hy
    rcases hy with ⟨h1, h2⟩ | ⟨h1, h2⟩
    · refine ⟨?_, ?_, ?_⟩
      · rw [h1, max_eq_left]; omega
      · omega
      · omega
    · refine ⟨?_, ?_, ?_⟩
      · rw [h1, max_eq_right]; omega
      · omega
      · omega
  apply hgoal
  rcases verifyResponse_paths lower db req vr stt now with
    ⟨-, h⟩ | ⟨-, -, h⟩ | ⟨_, -, -, -, h⟩ | ⟨_, t', -, -, -, ht', hc, h⟩ |
    ⟨user, c, a, -, -, -, heq, hc⟩
  · rw [h] at hx; cases hx
  · rw [h] at hx; cases hx
  · rw [h] at hx; cases hx
  · rw [h] at hx
    rw [hbind] at ht'
    cases ht'
    simp only [MAX_TOTAL_ATTEMPTS] at hc
    left
    exact ⟨(Option.some.inj hx).symm, by omega⟩
  · rcases hc with ⟨t', ht', hc', hle, ha⟩ | ⟨hnone, -, -⟩
    · rw [hbind] at ht'
      cases ht'
      simp only [MAX_TOTAL_ATTEMPTS] at hle ha
      rw [heq] at hx
      rcases verifyWithAttempt_paths lower db req user vr stt now c a with
        ⟨-, h⟩ | ⟨-, ha0, h⟩ | ⟨-, -, -, h⟩ | ⟨-, -, -, hev, -, -⟩
      · rw [h] at hx; cases hx
      · rw [h] at hx
        have hx0 : x = 0 := (Option.some.inj hx).symm
        left
        refine ⟨hx0, ?_⟩
        rw [ha, hc'] at ha0
        omega
      · rw [h] at hx
        have hxa : x = a := (Option.some.inj hx).symm
        right
        refine ⟨?_, by omega⟩
        rw [hxa, ha, hc']
        rfl
      · rw [(verifyWithAttempt_reports lower db req user vr stt now c a hev).2.1] at hx
        have hxa : x = a := (Option.some.inj hx).symm
        right
        refine ⟨?_, by omega⟩
        rw [hxa, ha, hc']
        rfl
    · rw [hbind] at hnone; cases hnone

/-- Witness of C15: the voice-match service fails on the fresh transaction and
the reply reports nine attempts left. -/
theorem attemptsLeft_reported_witness :
    (verifyResponse toLowerCaseAscii db0 reqNick voiceDown.voiceResult voiceDown.stt
      0).body.attemptsLeft = some 9 ∧
    (9 : Int) = max 0 (10 - ((storedAttempts { id := 7, status := "pending" } + 1 : Nat) : Int)) :=
  ⟨by decide,
    (attemptsLeft_reported toLowerCaseAscii db0 reqNick voiceDown.voiceResult voiceDown.stt 0 7
      { id := 7, status := "pending" } 9 (by decide) (by decide) (by decide)).1⟩

/-- C16: when the stored attempt count of the transaction named in the request
is 10 or more, `verifyResponse` calls neither collaborator and leaves the
stored documents as they are; and for a submission with audio whose user
exists and has a voice profile the reply is the denial with `attemptsLeft` 0
and `isDenied` true. -/
theorem attempts_exceeded_precheck (lower : Str → Str) (db : Db) (req : VerifyRequest)
    (vr : VoiceResult) (stt : SttReply) (now id : Nat) (t : Transaction)
    (hid : req.transactionId = some id) (ht : db.findTransaction id = some t)
    (h10 : 10 ≤ storedAttempts t) :
    (verifyResponse lower db req vr stt now).db = db ∧
    (verifyResponse lower db req vr stt now).calledVerifyVoice = false ∧
    (verifyResponse lower db req vr stt now).calledStt = false ∧
    (verifyResponse lower db req vr stt now).body.success = false ∧
    (∀ user, req.file ≠ none → db.findUser req.userId = some user →
      (user.voiceEmbedding.isNone || (user.voiceEmbedding.getD []).length == 0) = false →
      verifyResponse lower db req vr stt now =
        { db := db, status := 200,
          body := { success := false, message := "Maximum attempts exceeded. Transaction denied.",
                    attemptsLeft := some 0, isDenied := some true } }) := by
  have hbind : req.transactionId.bind db.findTransaction = some t := by
    rw [hid]; exact ht
  rcases verifyResponse_paths lower db req vr stt now with
    ⟨hfile, h⟩ | ⟨-, hu, h⟩ | ⟨user, -, hu, he, h⟩ | ⟨user, t', -, hu, he, ht', hc, h⟩ |
    ⟨user, c, a, -, -, -, heq, hc⟩
  · rw [h]
    exact ⟨rfl, rfl, rfl, rfl, fun _ hf _ _ => absurd hfile hf⟩
  · rw [h]
    refine ⟨rfl, rfl, rfl, rfl, ?_⟩
    intro user _ hu' _
    rw [hu] at hu'; cases hu'
  · rw [h]
    refine ⟨rfl, rfl, rfl, rfl, ?_⟩
    intro user' _ hu' he'
    rw [hu] at hu'; cases hu'
    rw [he] at he'; cases he'
  · rw [h]
    exact ⟨rfl, rfl, rfl, rfl, fun _ _ _ _ => rfl⟩
  · rcases hc with ⟨t', ht', hc', hle, -⟩ | ⟨hnone, -, -⟩
    · rw [hbind] at ht'
      cases ht'
      simp only [MAX_TOTAL_ATTEMPTS] at hle
      omega
    · rw [hbind] at hnone; cases hnone

/-- Witness of C16: a submission in the matching voice with the right answer on
a transaction with ten attempts stored gets the denial. -/
theorem attempts_exceeded_precheck_witness :
    verifyResponse toLowerCaseAscii (dbAt 10) reqNick goodAnswer.voiceResult goodAnswer.stt 0 =
      { db := dbAt 10, status := 200,
        body := { success := false, message := "Maximum attempts exceeded. Transaction denied.",
                  attemptsLeft := some 0, isDenied := some true } } :=
  (attempts_exceeded_precheck toLowerCaseAscii (dbAt 10) reqNick goodAnswer.voiceResult
    goodAnswer.stt 0 7
    { id := 7, status := "pending", verificationResult := some { verificationAttempts := some 10 } }
    (by decide) (by decide) (by decide)).2.2.2.2 userMax (by decide) (by decide) (by decide)

/-- C17: on every store that the handlers can leave, that is with every stored
attempt count below the ceiling, a submission without audio is rejected with
status 400; a submission with audio for a user without a voice profile is
rejected with status 400; and a submission with audio that names no field, for
a user that exists, is rejected with status 400, with the message of the
missing field when the user has a voice profile.  In each of these
cases no collaborator is called and the stored documents, so the attempt count
and the status of every transaction, are left as they are.  The condition on
the store is kept by `verifyResponse`, also by a call that resumes on a later
store, by `generateSecurityQuestion` and by `completeTransaction`. -/
theorem validation_setup_rejections (lower : Str → Str) (db : Db) (req : VerifyRequest)
    (vr : VoiceResult) (stt : SttReply) (now : Nat) (hinv : countsBelowCeiling db = true) :
    (req.file = none →
      (verifyResponse lower db req vr stt now).status = 400 ∧
      (verifyResponse lower db req vr stt now).body.success = false ∧
      (verifyResponse lower db req vr stt now).body.message = "Audio response required") ∧
    (∀ user, req.file ≠ none → db.findUser req.userId = some user →
      (user.voiceEmbedding.isNone || (user.voiceEmbedding.getD []).length == 0) = true →
      (verifyResponse lower db req vr stt now).status = 400 ∧
      (verifyResponse lower db req vr stt now).body.success = false ∧
      (verifyResponse lower db req vr stt now).body.message =
        "Voice profile not registered. Please register your voice first.") ∧
    (∀ user, req.file ≠ none → db.findUser req.userId = some user →
      (user.voiceEmbedding.isNone || (user.voiceEmbedding.getD []).length == 0) = false →
      req.field.filter (fun f => f != "") = none →
      (verifyResponse lower db req vr stt now).status = 400 ∧
      (verifyResponse lower db req vr stt now).body.success = false ∧
      (verifyResponse lower db req vr stt now).body.message =
        "Security question field not found") ∧
    (∀ user, req.file ≠ none → db.findUser req.userId = some user →
      req.field.filter (fun f => f != "") = none →
      (verifyResponse lower db req vr stt now).status = 400 ∧
      (verifyResponse lower db req vr stt now).body.success = false) ∧
    (req.file = none ∨ req.field.filter (fun f => f != "") = none ∨
        (∃ user, db.findUser req.userId = some user ∧
          (user.voiceEmbedding.isNone || (user.voiceEmbedding.getD []).length == 0) = true) →
      (verifyResponse lower db req vr stt now).db = db ∧
      (verifyResponse lower db req vr stt now).calledVerifyVoice = false ∧
      (verifyResponse lower db req vr stt now).calledStt = false) ∧
    countsBelowCeiling (verifyResponse lower db req vr stt now).db = true ∧
    (∀ (db' : Db) (s : Submission), countsBelowCeiling db' = true →
      countsBelowCeiling (resumeAttempt lower db' s (trackAttempt db s.req)).db = true) ∧
    (∀ (q : QuestionRequest) (r : ℚ),
      countsBelowCeiling (generateSecurityQuestion db q r).db = true) ∧
    (∀ q : CompleteRequest, countsBelowCeiling (completeTransaction db q).db = true) := by
  have hprofile : ∀ user, req.file ≠ none → db.findUser req.userId = some user →
      (user.voiceEmbedding.isNone || (user.voiceEmbedding.getD []).length == 0) = true →
      (verifyResponse lower db req vr stt now).status = 400 ∧
      (verifyResponse lower db req vr stt now).body.success = false ∧
      (verifyResponse lower db req vr stt now).body.message =
        "Voice profile not registered. Please register your voice first." := by
    intro user hfile hu he
    cases hp : req.file with
    | none => exact absurd hp hfile
    | some path => simp [verifyResponse, hp, hu, he]
  have hfield : ∀ user, req.file ≠ none → db.findUser req.userId = some user →
      (user.voiceEmbedding.isNone || (user.voiceEmbedding.getD []).length == 0) = false →
      req.field.filter (fun f => f != "") = none →
      (verifyResponse lower db req vr stt now).status = 400 ∧
      (verifyResponse lower db req vr stt now).body.success = false ∧
      (verifyResponse lower db req vr stt now).body.message =
        "Security question field not found" := by
    intro user hfile hu he hnf
    rcases verifyResponse_paths lower db req vr stt now with
      ⟨hf, -⟩ | ⟨-, hu', -⟩ | ⟨user', -, hu', he', -⟩ | ⟨user', t, -, -, -, ht, hc, -⟩ |
      ⟨user', c, a, -, -, -, heq, -⟩
    · exact absurd hf hfile
    · rw [hu] at hu'; cases hu'
    · rw [hu] at hu'; cases hu'
      rw [he] at he'; cases he'
    · exfalso
      cases hid : req.transactionId with
      | none => rw [hid] at ht; cases ht
      | some id =>
        rw [hid] at ht
        have hmem : t ∈ db.transactions := List.mem_of_find?_eq_some ht
        simp only [countsBelowCeiling, List.all_eq_true, decide_eq_true_eq] at hinv
        have := hinv t hmem
        omega
    · rw [heq]
      rcases verifyWithAttempt_paths lower db req user' vr stt now c a with
        ⟨-, h⟩ | ⟨hf, -, -⟩ | ⟨hf, -, -, -⟩ | ⟨hf, -, -, -, -, -⟩
      · rw [h]; exact ⟨rfl, rfl, rfl⟩
      · exact absurd hnf hf
      · exact absurd hnf hf
      · exact absurd hnf hf
  refine ⟨?_, hprofile, hfield, ?_, ?_, countsBelowCeiling_verifyResponse lower db req vr stt now hinv,
    fun db' s h => countsBelowCeiling_resumeAttempt lower db db' s h,
    fun q r => countsBelowCeiling_generateSecurityQuestion db q r hinv,
    fun q => countsBelowCeiling_completeTransaction db q hinv⟩
  · intro hfile
    simp [verifyResponse, hfile]
  · intro user hfile hu hnf
    by_cases he : (user.voiceEmbedding.isNone || (user.voiceEmbedding.getD []).length == 0) = true
    · exact ⟨(hprofile user hfile hu he).1, (hprofile user hfile hu he).2.1⟩
    · have he' := Bool.eq_false_iff.mpr he
      exact ⟨(hfield user hfile hu he' hnf).1, (hfield user hfile hu he' hnf).2.1⟩
  · intro hcase
    rcases verifyResponse_paths lower db req vr stt now with
      ⟨-, h⟩ | ⟨-, -, h⟩ | ⟨user', -, -, -, h⟩ | ⟨user', t, -, -, -, -, -, h⟩ |
      ⟨user', c, a, hfile, hu, he, heq, -⟩
    · rw [h]; exact ⟨rfl, rfl, rfl⟩
    · rw [h]; exact ⟨rfl, rfl, rfl⟩
    · rw [h]; exact ⟨rfl, rfl, rfl⟩
    · rw [h]; exact ⟨rfl, rfl, rfl⟩
    · rw [heq]
      rcases hcase with hf | hnf | ⟨user'', hu'', he''⟩
      · exact absurd hf hfile
      · rcases verifyWithAttempt_paths lower db req user' vr stt now c a with
          ⟨-, h⟩ | ⟨hf, -, -⟩ | ⟨hf, -, -, -⟩ | ⟨hf, -, -, -, -, -⟩
        · rw [h]; exact ⟨rfl, rfl, rfl⟩
        · exact absurd hnf hf
        · exact absurd hnf hf
        · exact absurd hnf hf
      · rw [hu] at hu''; cases hu''
        rw [he] at he''; cases he''

/-- Witness of C17: on a transaction with nine attempts stored, the most that
the handler writes, a submission with audio that names no field is rejected
with status 400 and nothing is written. -/
theorem validation_setup_rejections_witness :
    countsBelowCeiling (dbAt 9) = true ∧
    (verifyResponse toLowerCaseAscii (dbAt 9) reqNoField goodAnswer.voiceResult goodAnswer.stt
      0).status = 400 ∧
    (verifyResponse toLowerCaseAscii (dbAt 9) reqNoField goodAnswer.voiceResult goodAnswer.stt
      0).body.success = false ∧
    (verifyResponse toLowerCaseAscii (dbAt 9) reqNoField goodAnswer.voiceResult goodAnswer.stt
      0).body.message = "Security question field not found" ∧
    (verifyResponse toLowerCaseAscii (dbAt 9) reqNoField goodAnswer.voiceResult goodAnswer.stt
      0).db = dbAt 9 :=
  have h := validation_setup_rejections toLowerCaseAscii (dbAt 9) reqNoField goodAnswer.voiceResult
    goodAnswer.stt 0 (by decide)
  have h3 := h.2.2.1 userMax (by decide) (by decide) (by decide) (by decide)
  ⟨by decide, h3.1, h3.2.1, h3.2.2, (h.2.2.2.2.1 (Or.inr (Or.inl (by decide)))).1⟩

/-- C18, as the code has it: a failure of the voice-match service during
`verifyResponse` is surfaced as a request-level error.  The reply has status
400, `success = false`, the message of the service and `attemptsLeft`, but no
attempt number and no verdict; the client takes its error path; the audio
file has been deleted and nothing is stored. -/
theorem voice_failure_is_error (lower : Str → Str) (db : Db) (req : VerifyRequest)
    (vr : VoiceResult) (stt : SttReply) (now : Nat)
    (hcalled : (verifyResponse lower db req vr stt now).calledVerifyVoice = true)
    (hs : vr.success = false) :
    (verifyResponse lower db req vr stt now).status = 400 ∧
    (verifyResponse lower db req vr stt now).body.success = false ∧
    (verifyResponse lower db req vr stt now).body.message =
      (vr.message.filter (fun m => m != "")).getD "Voice verification failed" ∧
    (∃ a, (verifyResponse lower db req vr stt now).body.attemptsLeft = some a ∧ 0 < a) ∧
    (verifyResponse lower db req vr stt now).body.currentAttempt = none ∧
    (verifyResponse lower db req vr stt now).body.voiceMatch = none ∧
    (verifyResponse lower db req vr stt now).body.contentMatch = none ∧
    (verifyResponse lower db req vr stt now).audioDeleted = true ∧
    (verifyResponse lower db req vr stt now).db = db ∧
    (∃ message, VoiceCaptcha.verifyResponse (verifyResponse lower db req vr stt now).status
      (verifyResponse lower db req vr stt now).body = ClientStep.error message) := by
  rcases verifyResponse_paths lower db req vr stt now with
    ⟨-, h⟩ | ⟨-, -, h⟩ | ⟨_, -, -, -, h⟩ | ⟨_, _, -, -, -, -, -, h⟩ |
    ⟨user, c, a, -, -, -, heq, -⟩
  · rw [h] at hcalled; cases hcalled
  · rw [h] at hcalled; cases hcalled
  · rw [h] at hcalled; cases hcalled
  · rw [h] at hcalled; cases hcalled
  · rw [heq] at hcalled ⊢
    rcases verifyWithAttempt_paths lower db req user vr stt now c a with
      ⟨-, h⟩ | ⟨-, -, h⟩ | ⟨-, ha, -, h⟩ | ⟨-, -, hs', -, -, -⟩
    · rw [h] at hcalled; cases hcalled
    · rw [h] at hcalled; cases hcalled
    · rw [h]
      refine ⟨rfl, rfl, rfl, ⟨a, rfl, ha⟩, rfl, rfl, rfl, rfl, rfl, ?_⟩
      simp [VoiceCaptcha.verifyResponse]
    · rw [hs] at hs'; cases hs'

/-- Witness of C18 as amended: the voice-match service is down during a
submission on the fresh transaction; the reply has status 400 and the client
reports the error with the message of the service. -/
theorem voice_failure_is_error_witness :
    (verifyResponse toLowerCaseAscii db0 reqNick voiceDown.voiceResult voiceDown.stt
      0).calledVerifyVoice = true ∧
    (verifyResponse toLowerCaseAscii db0 reqNick voiceDown.voiceResult voiceDown.stt
      0).status = 400 ∧
    (verifyResponse toLowerCaseAscii db0 reqNick voiceDown.voiceResult voiceDown.stt
      0).body.currentAttempt = none :=
  ⟨by decide,
    (voice_failure_is_error toLowerCaseAscii db0 reqNick voiceDown.voiceResult voiceDown.stt 0
      (by decide) (by decide)).1,
    (voice_failure_is_error toLowerCaseAscii db0 reqNick voiceDown.voiceResult voiceDown.stt 0
      (by decide) (by decide)).2.2.2.2.1⟩

/-- C18 fails on the code: when the voice-match service fails, the reply is not
a normal verdict.  Its status is 400, it carries no attempt number, and the
client reports an error instead of a failed attempt. -/
theorem voice_failure_verdict_counterexample :
    voiceDown.voiceResult.success = false ∧
    verifyResponse toLowerCaseAscii db0 voiceDown.req voiceDown.voiceResult voiceDown.stt 0 =
      { db := db0, status := 400,
        body := { success := false, message := "Voice service unavailable",
                  attemptsLeft := some 9 },
        calledVerifyVoice := true, audioDeleted := true } ∧
    VoiceCaptcha.verifyResponse 400
        { success := false, message := "Voice service unavailable", attemptsLeft := some 9 } =
      ClientStep.error "Voice service unavailable" := by
  refine ⟨by decide, by decide, by decide⟩

/-- C19: when the speech-to-text collaborator throws or answers
`success = false`, `convertSpeechToText` yields the empty string and the
attempt is not aborted: whether the submission is evaluated does not depend on
the speech-to-text answer, and when it is evaluated the reply is a normal
verdict with the empty transcript, the coefficient 0, no content match and
`success = false` whatever the voice verdict, and the attempt is counted: the
reply reports the stored attempt count plus one and that number is stored. -/
theorem stt_failure_counts (lower : Str → Str) (db : Db) (req : VerifyRequest)
    (vr : VoiceResult) (stt : SttReply) (now : Nat)
    (hstt : stt = SttReply.error ∨ ∃ text, stt = SttReply.data false text)
    (hlow : lower [] = []) :
    convertSpeechToText stt = [] ∧
    (∀ stt', (verifyResponse lower db req vr stt now).evaluated =
      (verifyResponse lower db req vr stt' now).evaluated) ∧
    ((verifyResponse lower db req vr stt now).evaluated = true →
      (verifyResponse lower db req vr stt now).status = 200 ∧
      (verifyResponse lower db req vr stt now).body.recognizedText = some [] ∧
      (verifyResponse lower db req vr stt now).body.textSimilarity = some 0 ∧
      (verifyResponse lower db req vr stt now).body.contentMatch = some false ∧
      (verifyResponse lower db req vr stt now).body.success = false) ∧
    (∀ id t, req.transactionId = some id → db.findTransaction id = some t →
      (verifyResponse lower db req vr stt now).evaluated = true →
      (verifyResponse lower db req vr stt now).body.currentAttempt =
        some (storedAttempts t + 1) ∧
      ((verifyResponse lower db req vr stt now).db.findTransaction id).map storedAttempts =
        some (storedAttempts t + 1)) := by
  have hempty : convertSpeechToText stt = [] := by
    rcases hstt with h | ⟨text, h⟩ <;> rw [h] <;> rfl
  refine ⟨hempty, ?_, ?_, ?_⟩
  · intro stt'
    have h1 := verifyResponse_evaluated_iff lower db req vr stt now
    have h2 := verifyResponse_evaluated_iff lower db req vr stt' now
    have h3 : (verifyResponse lower db req vr stt now).evaluated = true ↔
        (verifyResponse lower db req vr stt' now).evaluated = true := h1.trans h2.symm
    cases hx : (verifyResponse lower db req vr stt now).evaluated <;>
      cases hy : (verifyResponse lower db req vr stt' now).evaluated <;> simp_all
  · intro hev
    obtain ⟨-, ⟨user, hu, -⟩, ⟨f, hf, -⟩, -, -⟩ :=
      (verifyResponse_evaluated_iff lower db req vr stt now).mp hev
    have h0 : calculateSimilarity lower (lower (trim (convertSpeechToText stt)))
        (lower (trim ((user.get f).getD []))) = 0 := by
      apply calculateSimilarity_empty
      left
      rw [hempty]
      exact hlow
    obtain ⟨user', c, a, hu', heq, -⟩ := verifyResponse_evaluated_inv lower db req vr stt now hev
    have hst : (verifyResponse lower db req vr stt now).status = 200 := by
      rw [heq] at hev ⊢
      exact (verifyWithAttempt_reports lower db req user' vr stt now c a hev).2.2.1
    have hts := verifyResponse_textSimilarity lower db req vr stt now user f hu hf hev
    have hcm := verifyResponse_contentMatch lower db req vr stt now user f hu hf hev
    have hsu := verifyResponse_success lower db req vr stt now user f hu hf hev
    rw [h0] at hts hcm hsu
    rw [hempty] at hts
    refine ⟨hst, hts.2, hts.1, ?_, ?_⟩
    · rw [hcm]; norm_num
    · rw [hsu]; norm_num
  · intro id t hid ht hev
    exact verifyResponse_stores_attempt lower db req vr stt now id t hid ht hev

/-- Witness of C19: the speech-to-text request throws during a submission in
the matching voice on the fresh transaction; the submission is evaluated, fails
and is stored as attempt 1. -/
theorem stt_failure_counts_witness :
    (verifyResponse toLowerCaseAscii db0 reqNick goodAnswer.voiceResult SttReply.error
      0).evaluated = true ∧
    (verifyResponse toLowerCaseAscii db0 reqNick goodAnswer.voiceResult SttReply.error
      0).body.success = false ∧
    ((verifyResponse toLowerCaseAscii db0 reqNick goodAnswer.voiceResult SttReply.error
      0).db.findTransaction 7).map storedAttempts = some 1 :=
  have hev : (verifyResponse toLowerCaseAscii db0 reqNick goodAnswer.voiceResult SttReply.error
      0).evaluated = true :=
    verifyResponse_evaluated_of toLowerCaseAscii db0 reqNick goodAnswer.voiceResult SttReply.error 0
      userMax "uploads/a.webm" "nickname" (by decide) (by decide) (by decide) (by decide)
      (by decide) (by decide) (by decide)
  ⟨hev,
    ((stt_failure_counts toLowerCaseAscii db0 reqNick goodAnswer.voiceResult SttReply.error 0
      (Or.inl rfl) (by decide)).2.2.1 hev).2.2.2.2,
    ((stt_failure_counts toLowerCaseAscii db0 reqNick goodAnswer.voiceResult SttReply.error 0
      (Or.inl rfl) (by decide)).2.2.2 7 { id := 7, status := "pending" } (by decide) (by decide)
      hev).2⟩

/-- C20: the uploaded audio file is not deleted on every exit path.  It is
still on disk when the reply is sent for a submission that names no field
(status 400), for a user without a voice profile (status 400), for the tenth
submission that is answered by the guard of line 186, and for the
attempts-exceeded denial of line 166; only the voice-failure path and the
evaluated paths unlink it. -/
theorem audio_not_deleted_on_early_exits :
    reqNoField.file = some "uploads/a.webm" ∧
    (verifyResponse toLowerCaseAscii db0 reqNoField goodAnswer.voiceResult goodAnswer.stt 0).status
      = 400 ∧
    (verifyResponse toLowerCaseAscii db0 reqNoField goodAnswer.voiceResult goodAnswer.stt
      0).audioDeleted = false ∧
    (verifyResponse toLowerCaseAscii
      { users := [{ id := 1 }], transactions := [] } reqNick goodAnswer.voiceResult goodAnswer.stt
      0).audioDeleted = false ∧
    (verifyResponse toLowerCaseAscii (dbAt 9) reqNick goodAnswer.voiceResult goodAnswer.stt
      0).audioDeleted = false ∧
    (verifyResponse toLowerCaseAscii (dbAt 10) reqNick goodAnswer.voiceResult goodAnswer.stt
      0).audioDeleted = false ∧
    (verifyResponse toLowerCaseAscii db0 reqNick voiceDown.voiceResult voiceDown.stt
      0).audioDeleted = true ∧
    (verifyResponse toLowerCaseAscii db0 reqNick wrongVoice.voiceResult wrongVoice.stt
      0).audioDeleted = true := by
  refine ⟨by decide, by decide, by decide, by decide, by decide, by decide, by decide, by decide⟩

/-! ## Claims C21 to C30: scenario, validation, completion and concurrency -/

/-- C21: on a transaction with stored attempt count 0, a submission whose
transcript equals the stored answer up to letter case, for an answer that is a
single word, in a voice with `isMatch = true`, has the content coefficient 1
and is approved as attempt 1 with 9 attempts left; the stored count becomes
1. -/
theorem single_word_approved (lower : Str → Str) (db : Db) (req : VerifyRequest)
    (vr : VoiceResult) (stt : SttReply) (now : Nat) (user : User) (path f : String) (id : Nat)
    (t : Transaction)
    (hfile : req.file = some path) (hu : db.findUser req.userId = some user)
    (he : (user.voiceEmbedding.isNone || (user.voiceEmbedding.getD []).length == 0) = false)
    (hf : req.field = some f) (hne : f ≠ "")
    (hid : req.transactionId = some id) (ht : db.findTransaction id = some t)
    (h0 : storedAttempts t = 0) (hs : vr.success = true) (hm : vr.isMatch = true)
    (hcase : lower (trim (convertSpeechToText stt)) = lower (trim ((user.get f).getD [])))
    (hanswer : lower (trim ((user.get f).getD [])) ≠ [])
    (hword : ∀ c ∈ lower (lower (trim ((user.get f).getD []))), isWhiteSpace c = false) :
    (verifyResponse lower db req vr stt now).body.textSimilarity = some 1 ∧
    (verifyResponse lower db req vr stt now).body.success = true ∧
    (verifyResponse lower db req vr stt now).body.message = "Transaction approved" ∧
    (verifyResponse lower db req vr stt now).body.currentAttempt = some 1 ∧
    (verifyResponse lower db req vr stt now).body.attemptsLeft = some 9 ∧
    (verifyResponse lower db req vr stt now).status = 200 ∧
    ((verifyResponse lower db req vr stt now).db.findTransaction id).map storedAttempts =
      some 1 := by
  have hbind : req.transactionId.bind db.findTransaction = some t := by
    rw [hid]; exact ht
  have hev : (verifyResponse lower db req vr stt now).evaluated = true := by
    apply verifyResponse_evaluated_of lower db req vr stt now user path f hfile hu he hf hne _ hs
    intro t' ht'
    rw [hbind] at ht'
    cases ht'
    rw [h0]
    decide
  have hsim : calculateSimilarity lower (lower (trim (convertSpeechToText stt)))
      (lower (trim ((user.get f).getD []))) = 1 := by
    rw [hcase]
    exact calculateSimilarity_same_word lower _ hanswer hword
  have hsucc : (verifyResponse lower db req vr stt now).body.success = true := by
    rw [verifyResponse_success lower db req vr stt now user f hu hf hev, hsim, hm]
    norm_num
  have hstore := verifyResponse_stores_attempt lower db req vr stt now id t hid ht hev
  rw [h0] at hstore
  have hx : ∃ x, (verifyResponse lower db req vr stt now).body.attemptsLeft = some x ∧
      (verifyResponse lower db req vr stt now).status = 200 ∧ x = 9 := by
    obtain ⟨user', c, a, -, heq, hc⟩ := verifyResponse_evaluated_inv lower db req vr stt now hev
    rw [heq] at hev ⊢
    obtain ⟨-, h2, h3, -⟩ := verifyWithAttempt_reports lower db req user' vr stt now c a hev
    refine ⟨a, h2, h3, ?_⟩
    rcases hc with ⟨t', ht', hc', ha⟩ | ⟨hnone, -, -⟩
    · rw [hbind] at ht'
      cases ht'
      rw [ha, hc', h0]
      rfl
    · rw [hbind] at hnone; cases hnone
  obtain ⟨x, hx1, hx2, hx3⟩ := hx
  refine ⟨?_, hsucc, (verifyResponse_approved lower db req vr stt now hsucc).1, hstore.1, ?_, hx2,
    hstore.2⟩
  · rw [(verifyResponse_textSimilarity lower db req vr stt now user f hu hf hev).1, hsim]
  · rw [hx1, hx3]

/-- Witness of C21: the nickname `Max`, the transcript `max` and the matching
voice on the fresh transaction. -/
theorem single_word_approved_witness :
    (verifyResponse toLowerCaseAscii db0 reqNick goodAnswer.voiceResult goodAnswer.stt
      0).body.textSimilarity = some 1 ∧
    (verifyResponse toLowerCaseAscii db0 reqNick goodAnswer.voiceResult goodAnswer.stt
      0).body.success = true ∧
    (verifyResponse toLowerCaseAscii db0 reqNick goodAnswer.voiceResult goodAnswer.stt
      0).body.message = "Transaction approved" ∧
    (verifyResponse toLowerCaseAscii db0 reqNick goodAnswer.voiceResult goodAnswer.stt
      0).body.currentAttempt = some 1 ∧
    (verifyResponse toLowerCaseAscii db0 reqNick goodAnswer.voiceResult goodAnswer.stt
      0).body.attemptsLeft = some 9 ∧
    (verifyResponse toLowerCaseAscii db0 reqNick goodAnswer.voiceResult goodAnswer.stt
      0).status = 200 ∧
    ((verifyResponse toLowerCaseAscii db0 reqNick goodAnswer.voiceResult goodAnswer.stt
      0).db.findTransaction 7).map storedAttempts = some 1 :=
  single_word_approved toLowerCaseAscii db0 reqNick goodAnswer.voiceResult goodAnswer.stt 0
    userMax "uploads/a.webm" "nickname" 7 { id := 7, status := "pending" }
    (by decide) (by decide) (by decide) (by decide) (by decide) (by decide) (by decide)
    (by decide) (by decide) (by decide) (by decide) (by decide) (by decide)

/-- C22: the validation endpoints write nothing, whatever they answer, and
`transferMoney` succeeds exactly when the request has a user identifier, an
amount that is not 0 and a recipient that is not empty, the sender exists, the
sender's balance is at least the amount and the recipient account exists;
`withdraw` succeeds exactly when the request has a user identifier and an
amount that is not 0, the user exists and the balance is at least the amount;
`deposit` succeeds exactly when the request has a user identifier and an
amount that is not 0. -/
theorem validation_endpoints (db : Db) (req : CompleteRequest) :
    ((transferMoney db req).body.success = true ↔
      ∃ userId amount recipient sender, req.userId = some userId ∧
        req.amount = some amount ∧ amount ≠ 0 ∧ req.recipient = some recipient ∧
        recipient ≠ "" ∧ db.findUser userId = some sender ∧ amount ≤ sender.balance ∧
        (db.findByAccountNumber recipient).isSome = true) ∧
    ((withdraw db req).body.success = true ↔
      ∃ userId amount user, req.userId = some userId ∧ req.amount = some amount ∧ amount ≠ 0 ∧
        db.findUser userId = some user ∧ amount ≤ user.balance) ∧
    ((deposit db req).body.success = true ↔
      ∃ userId amount, req.userId = some userId ∧ req.amount = some amount ∧ amount ≠ 0) ∧
    (transferMoney db req).db = db ∧ (withdraw db req).db = db ∧ (deposit db req).db = db ∧
    ((transferMoney db req).body.success = true → (transferMoney db req).status = 200) ∧
    ((withdraw db req).body.success = true → (withdraw db req).status = 200) := by
  refine ⟨?_, ?_, ?_, ?_, ?_, ?_, ?_, ?_⟩
  · unfold transferMoney
    cases hU : req.userId with
    | none => simp
    | some userId =>
      cases hA : req.amount with
      | none => simp [Option.filter]
      | some amount =>
        by_cases ha : amount = 0
        · simp [Option.filter, ha]
        · cases hR : req.recipient with
          | none => simp [Option.filter, ha]
          | some recipient =>
            by_cases hr : recipient = ""
            · simp [Option.filter, ha, hr]
            · cases hS : db.findUser userId with
              | none => simp [Option.filter, ha, hr, hS]
              | some sender =>
                by_cases hb : sender.balance < amount
                · simp [Option.filter, ha, hr, hS, hb, not_le.mpr hb]
                · cases hF : db.findByAccountNumber recipient with
                  | none => simp [Option.filter, ha, hr, hS, hF, hb]
                  | some r => simp [Option.filter, ha, hr, hS, hF, hb, not_lt.mp hb]
  · unfold withdraw
    cases hU : req.userId with
    | none => simp
    | some userId =>
      cases hA : req.amount with
      | none => simp [Option.filter]
      | some amount =>
        by_cases ha : amount = 0
        · simp [Option.filter, ha]
        · cases hS : db.findUser userId with
          | none => simp [Option.filter, ha, hS]
          | some user =>
            by_cases hb : user.balance < amount
            · simp [Option.filter, ha, hS, hb, not_le.mpr hb]
            · simp [Option.filter, ha, hS, hb, not_lt.mp hb]
  · unfold deposit
    cases hU : req.userId with
    | none => simp
    | some userId =>
      cases hA : req.amount with
      | none => simp [Option.filter]
      | some amount =>
        by_cases ha : amount = 0
        · simp [Option.filter, ha]
        · simp [Option.filter, ha]
  · unfold transferMoney
    split
    · split
      · rfl
      · split
        · rfl
        · split <;> rfl
    · rfl
  · unfold withdraw
    split
    · split
      · rfl
      · split <;> rfl
    · rfl
  · unfold deposit
    split <;> rfl
  · unfold transferMoney
    split
    · split
      · simp
      · split
        · simp
        · split <;> simp
    · simp
  · unfold withdraw
    split
    · split
      · simp
      · split <;> simp
    · simp

/-- C23: `completeTransaction` rejects the amount 0 but not a negative amount.
A withdrawal of -100 by the user with balance 500 is completed: the balance
becomes 600 and the record that is created carries the amount -100.  The
validation endpoint `withdraw` accepts the same request. -/
theorem negative_amount_completed :
    (completeTransaction dbBank { negativeWithdrawal with amount := some 0 }).status = 400 ∧
    (completeTransaction dbBank negativeWithdrawal).status = 200 ∧
    (completeTransaction dbBank negativeWithdrawal).body.success = true ∧
    (completeTransaction dbBank negativeWithdrawal).body.newBalance = some 600 ∧
    ((completeTransaction dbBank negativeWithdrawal).db.findUser 1).map (fun u => u.balance) =
      some 600 ∧
    (completeTransaction dbBank negativeWithdrawal).db.transactions.map
      (fun t => (t.status, t.type, t.amount)) = [("completed", "withdraw", -100)] ∧
    (withdraw dbBank negativeWithdrawal).body.success = true := by
  have h1 : ¬ ((500 : ℚ) < -100) := by norm_num
  have h2 : subNumber (500 : ℚ) (-100) = 600 := by
    have h := subNumber_intCast 500 (-100) (by norm_num)
    norm_num at h
    exact h
  have h3 : ¬ ((600 : ℚ) = 500) := by norm_num
  have h4 : ¬ ((-100 : ℚ) = 0) := by norm_num
  refine ⟨?_, ?_, ?_, ?_, ?_, ?_, ?_⟩ <;>
    simp [completeTransaction, commitTransaction, withdraw, dbBank, negativeWithdrawal, alice, bob,
      Db.findUser, Db.saveBalance, Db.create, Db.freshId, Option.filter, h1, h2, h3, h4]

/-- C27: `calculateSimilarity` is never negative, but it is not bounded by 1.
On the transcript `new new new new` and the answer `new york` it returns
`4 / 2 = 2`, which is above 1 and above the threshold `0.7`. -/
theorem calculateSimilarity_above_one :
    (∀ (lower : Str → Str) (a b : Str), 0 ≤ calculateSimilarity lower a b) ∧
    calculateSimilarity toLowerCaseAscii "new new new new".toList "new york".toList = 2 ∧
    ¬ (calculateSimilarity toLowerCaseAscii "new new new new".toList "new york".toList ≤ 1) := by
  have h : calculateSimilarity toLowerCaseAscii "new new new new".toList "new york".toList = 2 := by
    rw [calculateSimilarity_of_counts _ _ _ 4 2 (by decide) (by decide) (by decide) (by decide)]
    norm_num
  refine ⟨?_, h, ?_⟩
  · intro lower a b
    unfold calculateSimilarity
    split
    · exact le_refl _
    · simp only []
      split
      · exact le_refl _
      · exact div_nonneg (Nat.cast_nonneg _) (Nat.cast_nonneg _)
  · rw [h]
    norm_num

/-- C29: `completeTransaction` does not keep balances non-negative for a
transfer.  All balances are non-negative, the user with balance 500 completes
a transfer of 700, the request is not rejected and her balance becomes -200.
The same amount as a withdrawal is rejected with `Insufficient funds`. -/
theorem transfer_overdraws :
    (∀ u ∈ dbBank.users, 0 ≤ u.balance) ∧
    (completeTransaction dbBank overdrawingTransfer).status = 200 ∧
    (completeTransaction dbBank overdrawingTransfer).body.success = true ∧
    (completeTransaction dbBank overdrawingTransfer).body.newBalance = some (-200) ∧
    (completeTransaction dbBank overdrawingTransfer).db.users.map (fun u => (u.id, u.balance)) =
      [(1, -200), (2, 750)] ∧
    (completeTransaction dbBank { overdrawingTransfer with type := some "withdraw" }).status
      = 400 ∧
    (completeTransaction dbBank { overdrawingTransfer with type := some "withdraw" }).body.message
      = "Insufficient funds" ∧
    (transferMoney dbBank overdrawingTransfer).body.message = "Insufficient balance" := by
  have h1 : subNumber (500 : ℚ) 700 = -200 := by
    have h := subNumber_intCast 500 700 (by norm_num)
    norm_num at h
    exact h
  have h2 : addNumber (50 : ℚ) 700 = 750 := by
    have h := addNumber_intCast 50 700 (by norm_num)
    norm_num at h
    exact h
  have h3 : ¬ ((-200 : ℚ) = 500) := by norm_num
  have h4 : (500 : ℚ) < 700 := by norm_num
  have h5 : ¬ ((700 : ℚ) = 0) := by norm_num
  refine ⟨?_, ?_, ?_, ?_, ?_, ?_, ?_, ?_⟩
  · intro u hu
    simp only [dbBank, List.mem_cons, List.mem_singleton, List.not_mem_nil, or_false] at hu
    rcases hu with rfl | rfl <;> norm_num [alice, bob]
  all_goals
    simp [completeTransaction, commitTransaction, transferMoney, dbBank, overdrawingTransfer,
      alice, bob, Db.findUser, Db.findByAccountNumber, Db.saveBalance, Db.create, Db.freshId,
      Option.filter, h1, h2, h3, h4, h5]

/-- C30: a transfer to the sender's own account does not conserve money.  The
sum of all balances is 550 before; the user with balance 500 completes a
transfer of 100 to her own account number, the reply is a success with
`newBalance` 400, and the sum of all balances is 450 afterwards.  A transfer of
100 to the other account keeps the sum at 550. -/
theorem self_transfer_loses_money :
    totalBalance dbBank = 550 ∧
    (completeTransaction dbBank selfTransfer).body.success = true ∧
    (completeTransaction dbBank selfTransfer).body.newBalance = some 400 ∧
    (completeTransaction dbBank selfTransfer).db.users.map (fun u => (u.id, u.balance)) =
      [(1, 400), (2, 50)] ∧
    totalBalance (completeTransaction dbBank selfTransfer).db = 450 ∧
    totalBalance (completeTransaction dbBank transferToBob).db = 550 := by
  have h1 : subNumber (500 : ℚ) 100 = 400 := by
    have h := subNumber_intCast 500 100 (by norm_num)
    norm_num at h
    exact h
  have h2 : addNumber (500 : ℚ) 100 = 600 := by
    have h := addNumber_intCast 500 100 (by norm_num)
    norm_num at h
    exact h
  have h3 : ¬ ((400 : ℚ) = 500) := by norm_num
  have h4 : addNumber (50 : ℚ) 100 = 150 := by
    have h := addNumber_intCast 50 100 (by norm_num)
    norm_num at h
    exact h
  have h5 : (400 : ℚ) + 50 = 450 := by norm_num
  have h6 : (400 : ℚ) + 150 = 550 := by norm_num
  have h7 : (500 : ℚ) + 50 = 550 := by norm_num
  have h8 : ¬ ((100 : ℚ) = 0) := by norm_num
  refine ⟨?_, ?_, ?_, ?_, ?_, ?_⟩ <;>
    simp [totalBalance, completeTransaction, commitTransaction, dbBank, selfTransfer,
      transferToBob, alice, bob, Db.findUser, Db.findByAccountNumber, Db.saveBalance, Db.create,
      Db.freshId, Option.filter, h1, h2, h3, h4, h5, h6, h7, h8]

/-- C25, as the code has it: a `completeTransaction` that is answered with a
success, with the amount `a`, for a deposit changes the user's balance to the
double nearest to the balance plus `a`, for a withdrawal to the double nearest
to the balance minus `a`, and for a transfer to the account of another user
changes the sender's balance to the double nearest to it minus `a` and the
recipient's to the double nearest to it plus `a`.  In each case one record is
added to the stored transactions, with status `completed` and the amount `a`,
and `newBalance` in the reply is the user's balance afterwards.  The rounded
sum and difference are the exact ones for integers up to `2 ^ 53` in
magnitude, and in the normal range they differ from the exact ones by at most
their `2 ^ 53`-th part. -/
theorem completeTransaction_effect (db : Db) (req : CompleteRequest) (userId : Nat) (a : ℚ)
    (user : User) (hU : req.userId = some userId) (hA : req.amount = some a)
    (hu : db.findUser userId = some user)
    (hsucc : (completeTransaction db req).body.success = true) :
    (req.type = some "deposit" →
      ((completeTransaction db req).db.findUser userId).map (fun u => u.balance) =
        some (addNumber user.balance a) ∧
      (completeTransaction db req).body.newBalance = some (addNumber user.balance a) ∧
      ∃ record, (completeTransaction db req).db.transactions = db.transactions ++ [record] ∧
        record.status = "completed" ∧ record.amount = a) ∧
    (req.type = some "withdraw" →
      ((completeTransaction db req).db.findUser userId).map (fun u => u.balance) =
        some (subNumber user.balance a) ∧
      (completeTransaction db req).body.newBalance = some (subNumber user.balance a) ∧
      ∃ record, (completeTransaction db req).db.transactions = db.transactions ++ [record] ∧
        record.status = "completed" ∧ record.amount = a) ∧
    (∀ recipient recipientUser, req.type = some "transfer" → req.recipient = some recipient →
      db.findByAccountNumber recipient = some recipientUser → recipientUser.id ≠ userId →
      ((completeTransaction db req).db.findUser userId).map (fun u => u.balance) =
        some (subNumber user.balance a) ∧
      ((completeTransaction db req).db.findByAccountNumber recipient).map (fun u => u.balance) =
        some (addNumber recipientUser.balance a) ∧
      (completeTransaction db req).body.newBalance = some (subNumber user.balance a) ∧
      ∃ record, (completeTransaction db req).db.transactions = db.transactions ++ [record] ∧
        record.status = "completed" ∧ record.amount = a) ∧
    (∀ m n : ℤ, |m + n| ≤ 2 ^ 53 → addNumber (m : ℚ) (n : ℚ) = (m : ℚ) + (n : ℚ)) ∧
    (∀ m n : ℤ, |m - n| ≤ 2 ^ 53 → subNumber (m : ℚ) (n : ℚ) = (m : ℚ) - (n : ℚ)) ∧
    (∀ x y : ℚ, (2 : ℚ) ^ (-1022 : ℤ) ≤ |x + y| →
      |addNumber x y - (x + y)| ≤ |x + y| / 2 ^ 53) ∧
    (∀ x y : ℚ, (2 : ℚ) ^ (-1022 : ℤ) ≤ |x - y| →
      |subNumber x y - (x - y)| ≤ |x - y| / 2 ^ 53) := by
  have ha := completeTransaction_amount_ne_zero db req a hA hsucc
  have hid := findUser_id db userId user hu
  refine ⟨?_, ?_, ?_, ?_, ?_, fun x y h => roundDouble_sub_le (x + y) h,
    fun x y h => roundDouble_sub_le (x - y) h⟩
  · intro hT
    rw [completeTransaction_deposit db req userId a user hU hA ha hT hu]
    obtain ⟨record, h1, -, h3, -, h5, -, -, -, h9, -⟩ :=
      commitTransaction_spec db user (addNumber user.balance a) "deposit" a none
    refine ⟨?_, h9, record, h5, h1, h3⟩
    rw [← hid]
    exact commitTransaction_balance db user user _ _ _ _ (by rw [hid]; exact hu) rfl
  · intro hT
    rw [completeTransaction_withdraw db req userId a user hU hA ha hT hu] at hsucc ⊢
    by_cases hb : user.balance < a
    · rw [if_pos hb] at hsucc
      cases hsucc
    · rw [if_neg hb]
      obtain ⟨record, h1, -, h3, -, h5, -, -, -, h9, -⟩ :=
        commitTransaction_spec db user (subNumber user.balance a) "withdraw" a none
      refine ⟨?_, h9, record, h5, h1, h3⟩
      rw [← hid]
      exact commitTransaction_balance db user user _ _ _ _ (by rw [hid]; exact hu) rfl
  · intro recipient recipientUser hT hR hF hne
    have hrne : recipient ≠ "" := by
      intro hr
      rw [completeTransaction_transfer db req userId a user hU hA ha hT hu, hR, hr] at hsucc
      simp [Option.filter] at hsucc
    have hRf : req.recipient.filter (fun r => r != "") = some recipient := by
      simp [hR, Option.filter, hrne]
    rw [completeTransaction_transfer db req userId a user hU hA ha hT hu, hRf]
    simp only [hF]
    obtain ⟨record, h1, -, h3, -, h5, h6, -, -, h9, -⟩ :=
      commitTransaction_spec (db.saveBalance recipientUser.id (addNumber recipientUser.balance a))
        user (subNumber user.balance a) "transfer" a (some recipientUser)
    have hne' : ¬ user.id = recipientUser.id := by
      intro h
      exact hne (by rw [← h, hid])
    have hu1 : (db.saveBalance recipientUser.id (addNumber recipientUser.balance a)).findUser
        user.id = some user := by
      rw [findUser_saveBalance, hid, hu]
      simp [hne']
    refine ⟨?_, ?_, h9, record, ?_, h1, h3⟩
    · rw [← hid]
      exact commitTransaction_balance _ user user _ _ _ _ hu1 rfl
    · have hacc : ∀ d : Db, d.users = (commitTransaction
          (db.saveBalance recipientUser.id (addNumber recipientUser.balance a)) user
          (subNumber user.balance a) "transfer" a (some recipientUser)).db.users →
          (commitTransaction (db.saveBalance recipientUser.id (addNumber recipientUser.balance a))
            user (subNumber user.balance a) "transfer" a
            (some recipientUser)).db.findByAccountNumber recipient
            = d.findByAccountNumber recipient := by
        intro d hd
        simp only [Db.findByAccountNumber, hd]
      have hne2 : ¬ recipientUser.id = user.id := by
        intro h
        exact hne (by rw [h, hid])
      by_cases hsame : subNumber user.balance a = user.balance
      · rw [if_pos hsame] at h6
        rw [hacc _ h6.symm, findByAccountNumber_saveBalance, hF]
        simp
      · rw [if_neg hsame] at h6
        rw [hacc _ h6.symm, findByAccountNumber_saveBalance, findByAccountNumber_saveBalance, hF]
        simp [hne2]
    · rw [h5]
      rfl
  · intro m n h
    rw [addNumber_intCast m n h]
    push_cast
    rfl
  · intro m n h
    rw [subNumber_intCast m n h]
    push_cast
    rfl

/-- Witness of C25 as amended: the transfer of 100 from the account with balance
500 to the account with balance 50. -/
theorem completeTransaction_effect_witness :
    (completeTransaction dbBank transferToBob).body.success = true ∧
    ((completeTransaction dbBank transferToBob).db.findUser 1).map (fun u => u.balance) =
      some (subNumber 500 100) ∧
    ((completeTransaction dbBank transferToBob).db.findByAccountNumber "ACC2").map
      (fun u => u.balance) = some (addNumber 50 100) ∧
    subNumber 500 100 = 400 ∧ addNumber 50 100 = 150 :=
  have hsucc : (completeTransaction dbBank transferToBob).body.success = true := by
    simp [completeTransaction, commitTransaction, dbBank, transferToBob, alice, bob, Db.findUser,
      Db.findByAccountNumber, Option.filter]
  have h := completeTransaction_effect dbBank transferToBob 1 100 alice (by decide) (by decide)
    (by decide) hsucc
  have h3 := h.2.2.1 "ACC2" bob (by decide) (by decide) (by decide) (by decide)
  have hs : subNumber 500 100 = 400 := by
    have := h.2.2.2.2.1 500 100 (by norm_num)
    norm_num at this
    exact this
  have hadd : addNumber 50 100 = 150 := by
    have := h.2.2.2.1 50 100 (by norm_num)
    norm_num at this
    exact this
  ⟨hsucc, h3.1, h3.2.1, hs, hadd⟩

/-- C25 fails on the code: the balances are doubles, and a sum that is not a
double is rounded.  A deposit of 1 for the user whose balance is `2 ^ 53` is
answered with a success and a record of the amount 1 is created, but the
balance in the reply and the stored balance are still `2 ^ 53`: the balance
has not increased by exactly 1. -/
theorem deposit_rounds_counterexample :
    (dbLarge.findUser 4).map (fun u => u.balance) = some 9007199254740992 ∧
    (completeTransaction dbLarge depositOne).status = 200 ∧
    (completeTransaction dbLarge depositOne).body.success = true ∧
    (completeTransaction dbLarge depositOne).body.newBalance = some 9007199254740992 ∧
    ((completeTransaction dbLarge depositOne).db.findUser 4).map (fun u => u.balance) =
      some 9007199254740992 ∧
    (completeTransaction dbLarge depositOne).db.transactions.map
      (fun t => (t.status, t.type, t.amount)) = [("completed", "deposit", 1)] ∧
    (completeTransaction dbLarge depositOne).body.newBalance ≠
      some (9007199254740992 + 1) := by
  have hu : dbLarge.findUser 4 = some carol := rfl
  have hc : completeTransaction dbLarge depositOne =
      commitTransaction dbLarge carol (addNumber carol.balance 1) "deposit" 1 none :=
    completeTransaction_deposit dbLarge depositOne 4 1 carol rfl rfl one_ne_zero rfl hu
  have hb : addNumber carol.balance 1 = 9007199254740992 := addNumber_large
  rw [hc, hb]
  obtain ⟨record, h1, h2, h3, -, h5, -, h7, h8, h9, -⟩ :=
    commitTransaction_spec dbLarge carol 9007199254740992 "deposit" 1 none
  refine ⟨by rw [hu]; rfl, h7, h8, h9, ?_, ?_, ?_⟩
  · exact commitTransaction_balance dbLarge carol carol _ _ _ _ hu rfl
  · rw [h5]
    simp [dbLarge, h1, h2, h3]
  · rw [h9]
    intro h
    have h' : (9007199254740992 : ℚ) = 9007199254740992 + 1 := Option.some.inj h
    norm_num at h'

/-- C26: the client's candidate fields are not the server's for a profile value
made only of white space.  Both catalogs list the same 8 field names, but for
the profile whose nickname is three blanks the client keeps the nickname
question and chooses it, while the server keeps no field and answers with
status 400. -/
theorem client_keeps_blank_field :
    QUESTION_TEMPLATES.map (fun q => q.field) = securityFields.map (fun q => q.field) ∧
    QUESTION_TEMPLATES.length = 8 ∧
    blankProfile.get "nickname" = some "   ".toList ∧
    (filledFields blankProfile).map (fun q => q.field) = ["nickname"] ∧
    (availableFields blankProfile).map (fun q => q.field) = [] ∧
    getRandomQuestion (some blankProfile) 0 =
      some { field := "nickname", question := "What is your nickname?" } ∧
    (generateSecurityQuestion dbBlank reqBlank 0).status = 400 := by
  refine ⟨by decide, by decide, by decide, by decide, by decide, ?_, ?_⟩
  · have h : filledFields blankProfile =
        [{ field := "nickname", question := "What is your nickname?" }] := by decide
    simp [getRandomQuestion, h]
  · have hu : dbBlank.findUser reqBlank.userId = some blankProfile := by decide
    have hv : (blankProfile.voiceEmbedding.isNone ||
        (blankProfile.voiceEmbedding.getD []).length == 0) = false := by decide
    have h : availableFields blankProfile = [] := by decide
    simp [generateSecurityQuestion, hu, hv, h]

/-- C28: submissions whose request names no stored transaction, because it
carries no `transactionId` or one that matches no document, leave the stored
documents as they are and are never answered with a denial; each of them is
handled as if it were the first, so any number of them can be evaluated, and
an evaluated one reports attempt 0 with 3 attempts left. -/
theorem no_transaction_unbounded (lower : Str → Str) (db : Db) (subs : List Submission)
    (hnone : ∀ s ∈ subs, s.req.transactionId.bind db.findTransaction = none) :
    (submitAll lower db subs).1 = db ∧
    (submitAll lower db subs).2 =
      subs.map (fun s => verifyResponse lower db s.req s.voiceResult s.stt s.now) ∧
    ∀ o ∈ (submitAll lower db subs).2,
      o.db = db ∧ o.body.isDenied ≠ some true ∧
      (o.evaluated = true → o.body.currentAttempt = some 0 ∧ o.body.attemptsLeft = some 3) := by
  induction subs with
  | nil => exact ⟨rfl, rfl, fun o ho => by simp [submitAll] at ho⟩
  | cons s rest ih =>
    have hs := verifyResponse_no_transaction lower db s.req s.voiceResult s.stt s.now
      (hnone s (List.mem_cons_self _ _))
    obtain ⟨ih1, ih2, ih3⟩ := ih (fun x hx => hnone x (List.mem_cons_of_mem _ hx))
    simp only [submitAll, List.map_cons]
    rw [hs.1]
    refine ⟨ih1, by rw [ih2], ?_⟩
    intro o ho
    rcases List.mem_cons.mp ho with ho | ho
    · rw [ho]; exact hs
    · exact ih3 o ho

/-- Witness of C28: twelve submissions without a transaction leave the store as
it is, and the twelfth is evaluated like the first. -/
theorem no_transaction_unbounded_witness :
    (submitAll toLowerCaseAscii db0 (List.replicate 12 wrongVoiceNoTransaction)).1 = db0 ∧
    (submitAll toLowerCaseAscii db0 (List.replicate 12 wrongVoiceNoTransaction)).2 =
      List.replicate 12 (verifyResponse toLowerCaseAscii db0 reqNoTransaction
        wrongVoiceNoTransaction.voiceResult wrongVoiceNoTransaction.stt 0) ∧
    (verifyResponse toLowerCaseAscii db0 reqNoTransaction wrongVoiceNoTransaction.voiceResult
      wrongVoiceNoTransaction.stt 0).evaluated = true :=
  have h := no_transaction_unbounded toLowerCaseAscii db0
    (List.replicate 12 wrongVoiceNoTransaction) (by decide)
  ⟨h.1, by rw [h.2.1]; rfl, by decide⟩

/-- C24, as the code has it: two calls of `verifyResponse` for one transaction
that are in flight together can both observe the same stored attempt count and
both proceed.  When both have passed the attempt check before either writes,
both are evaluated, both report the stored count plus one as their attempt
number, and the stored count ends 1 higher than it started; when the second
call starts after the first has ended, the stored count ends 2 higher. -/
theorem interleaved_attempts (lower : Str → Str) (db : Db) (s1 s2 : Submission) (id : Nat)
    (t : Transaction)
    (h1 : s1.req.transactionId = some id) (h2 : s2.req.transactionId = some id)
    (ht : db.findTransaction id = some t)
    (hev1 : (verifyResponse lower db s1.req s1.voiceResult s1.stt s1.now).evaluated = true)
    (hev2 : (verifyResponse lower db s2.req s2.voiceResult s2.stt s2.now).evaluated = true) :
    (verifyResponseInterleaved lower db s1 s2).1.evaluated = true ∧
    (verifyResponseInterleaved lower db s1 s2).2.evaluated = true ∧
    (verifyResponseInterleaved lower db s1 s2).1.body.currentAttempt =
      some (storedAttempts t + 1) ∧
    (verifyResponseInterleaved lower db s1 s2).2.body.currentAttempt =
      some (storedAttempts t + 1) ∧
    ((verifyResponseInterleaved lower db s1 s2).2.db.findTransaction id).map storedAttempts =
      some (storedAttempts t + 1) ∧
    (storedAttempts t + 2 < MAX_TOTAL_ATTEMPTS →
      ((submitAll lower db [s1, s2]).1.findTransaction id).map storedAttempts =
        some (storedAttempts t + 2)) := by
  have hstore1 := verifyResponse_stores_attempt lower db s1.req s1.voiceResult s1.stt s1.now id t
    h1 ht hev1
  obtain ⟨t1, ht1, hcount1⟩ : ∃ t1,
      (verifyResponse lower db s1.req s1.voiceResult s1.stt s1.now).db.findTransaction id =
        some t1 ∧ storedAttempts t1 = storedAttempts t + 1 := by
    cases hfind : (verifyResponse lower db s1.req s1.voiceResult s1.stt s1.now).db.findTransaction
        id with
    | none => rw [hfind] at hstore1; simp at hstore1
    | some t1 =>
      rw [hfind] at hstore1
      exact ⟨t1, rfl, by simpa using hstore1.2⟩
  have hidt1 := findTransaction_id _ id t1 ht1
  have hbind2 : s2.req.transactionId.bind db.findTransaction = some t := by
    rw [h2]; exact ht
  have hinter : verifyResponseInterleaved lower db s1 s2 =
      (verifyResponse lower db s1.req s1.voiceResult s1.stt s1.now,
        resumeAttempt lower (verifyResponse lower db s1.req s1.voiceResult s1.stt s1.now).db s2
          (trackAttempt db s2.req)) := by
    simp only [verifyResponseInterleaved, verifyResponse_eq_resume]
  rw [hinter]
  refine ⟨hev1, ?_, hstore1.1, ?_, ?_, ?_⟩
  · rcases trackAttempt_spec db s2.req with ⟨reply, -, -, hr, hv⟩ | ⟨user, c, a, htr, -, hv⟩
    · rw [hv lower s2.voiceResult s2.stt s2.now, hr] at hev2
      cases hev2
    · rw [htr]
      rw [hv lower s2.voiceResult s2.stt s2.now] at hev2
      simp only [resumeAttempt, Outcome.evaluated] at hev2 ⊢
      rw [(verifyWithAttempt_reply lower _ db s2.req user s2.voiceResult s2.stt s2.now c
        a).2.2.2.1]
      exact hev2
  · rcases trackAttempt_spec db s2.req with ⟨reply, -, -, hr, hv⟩ | ⟨user, c, a, htr, hc, hv⟩
    · rw [hv lower s2.voiceResult s2.stt s2.now, hr] at hev2
      cases hev2
    · rw [htr]
      rw [hv lower s2.voiceResult s2.stt s2.now] at hev2
      simp only [resumeAttempt]
      rw [(verifyWithAttempt_reply lower _ db s2.req user s2.voiceResult s2.stt s2.now c a).2.1,
        (verifyWithAttempt_reports lower db s2.req user s2.voiceResult s2.stt s2.now c a hev2).1,
        hc t hbind2]
  · rcases trackAttempt_spec db s2.req with ⟨reply, -, -, hr, hv⟩ | ⟨user, c, a, htr, hc, hv⟩
    · rw [hv lower s2.voiceResult s2.stt s2.now, hr] at hev2
      cases hev2
    · rw [htr]
      rw [hv lower s2.voiceResult s2.stt s2.now] at hev2
      simp only [resumeAttempt]
      obtain ⟨g, hg, hdb⟩ := verifyWithAttempt_db lower
        (verifyResponse lower db s1.req s1.voiceResult s1.stt s1.now).db s2.req user s2.voiceResult
        s2.stt s2.now c a
      have hev2' : (verifyWithAttempt lower
          (verifyResponse lower db s1.req s1.voiceResult s1.stt s1.now).db s2.req user
          s2.voiceResult s2.stt s2.now c a).evaluated = true := by
        simp only [Outcome.evaluated] at hev2 ⊢
        rw [(verifyWithAttempt_reply lower _ db s2.req user s2.voiceResult s2.stt s2.now c
          a).2.2.2.1]
        exact hev2
      rw [hdb, if_pos hev2', h2]
      simp only []
      rw [findTransaction_findByIdAndUpdate _ id id g (fun x => (hg x).1), ht1]
      simp [hidt1, (hg t1).2.2, hc t hbind2]
  · intro hlt
    have husers := (verifyResponse_status_unchanged lower db s1.req s1.voiceResult s1.stt
      s1.now).2
    have hev2seq : (verifyResponse lower
        (verifyResponse lower db s1.req s1.voiceResult s1.stt s1.now).db s2.req s2.voiceResult
        s2.stt s2.now).evaluated = true := by
      obtain ⟨hfile, ⟨user, hu, he⟩, hf, -, hs⟩ :=
        (verifyResponse_evaluated_iff lower db s2.req s2.voiceResult s2.stt s2.now).mp hev2
      rw [verifyResponse_evaluated_iff]
      refine ⟨hfile, ⟨user, ?_, he⟩, hf, ?_, hs⟩
      · simp only [Db.findUser, husers] at hu ⊢
        exact hu
      · intro t' ht'
        rw [h2] at ht'
        simp only [Option.bind] at ht'
        rw [ht1] at ht'
        cases ht'
        rw [hcount1]
        omega
    have hstore2 := verifyResponse_stores_attempt lower
      (verifyResponse lower db s1.req s1.voiceResult s1.stt s1.now).db s2.req s2.voiceResult s2.stt
      s2.now id t1 h2 ht1 hev2seq
    simp only [submitAll]
    rw [hstore2.2, hcount1]

/-- Witness of C24 as amended: two submissions in a voice that does not match,
in flight together on the fresh transaction, are both evaluated as attempt 1
and leave the stored count at 1. -/
theorem interleaved_attempts_witness :
    (verifyResponseInterleaved toLowerCaseAscii db0 wrongVoice wrongVoice).1.body.currentAttempt =
      some 1 ∧
    (verifyResponseInterleaved toLowerCaseAscii db0 wrongVoice wrongVoice).2.body.currentAttempt =
      some 1 ∧
    ((verifyResponseInterleaved toLowerCaseAscii db0 wrongVoice
      wrongVoice).2.db.findTransaction 7).map storedAttempts = some 1 :=
  have h := interleaved_attempts toLowerCaseAscii db0 wrongVoice wrongVoice 7
    { id := 7, status := "pending" } (by decide) (by decide) (by decide) (by decide) (by decide)
  ⟨h.2.2.1, h.2.2.2.1, h.2.2.2.2.1⟩

/-- C24 fails on the code: two calls for the fresh transaction that both read
the stored count 0 before either writes are both evaluated, both as attempt 1,
and the stored count ends at 1, not 2; run one after the other they end at
2. -/
theorem concurrent_submissions_counterexample :
    (db0.findTransaction 7).map storedAttempts = some 0 ∧
    (verifyResponseInterleaved toLowerCaseAscii db0 wrongVoice wrongVoice).1.evaluated = true ∧
    (verifyResponseInterleaved toLowerCaseAscii db0 wrongVoice wrongVoice).2.evaluated = true ∧
    (verifyResponseInterleaved toLowerCaseAscii db0 wrongVoice wrongVoice).1.body.currentAttempt =
      some 1 ∧
    (verifyResponseInterleaved toLowerCaseAscii db0 wrongVoice wrongVoice).2.body.currentAttempt =
      some 1 ∧
    ((verifyResponseInterleaved toLowerCaseAscii db0 wrongVoice
      wrongVoice).2.db.findTransaction 7).map storedAttempts = some 1 ∧
    ((submitAll toLowerCaseAscii db0 [wrongVoice, wrongVoice]).1.findTransaction 7).map
      storedAttempts = some 2 := by
  refine ⟨by decide, by decide, by decide, by decide, by decide, by decide, by decide⟩

end SecureBank
